import Mathlib

/-! LLGL render-system core: shallow embedding and verified properties

The definitions below embed, function by function, the parts of

* `sources/Renderer/ShaderProgram.cpp`
* `sources/Renderer/DebugLayer/DbgRenderSystem.cpp`
* `sources/Renderer/Direct3D11/D3D11RenderSystem.cpp`
* `sources/Renderer/Vulkan/Texture/VKTexture.cpp`

that the verified properties talk about.  Pointers to heap objects are
natural numbers (addresses), a pointer that may be null is an `Option`,
`std::set<std::unique_ptr<T>>` is a `Finset` of addresses, C++ effects on
collaborators (the wrapped render system, the debugger, the profiler, the
native API) are recorded in order in an explicit list of events.
-/

namespace LLGL

/-! ## Shader stages and `ShaderProgram::ValidateShaderComposition` -/

/-- Shader stages, the enumerators of `ShaderType` used by `ShaderProgram.cpp`
and `VKShader.cpp`. -/
inductive ShaderType where
  | Vertex
  | TessControl
  | TessEvaluation
  | Geometry
  | Fragment
  | Compute
  deriving DecidableEq, Repr

instance : Fintype ShaderType where
  elems := {.Vertex, .TessControl, .TessEvaluation, .Geometry, .Fragment, .Compute}
  complete := by intro x; cases x <;> decide

/-- The integer value `static_cast<int>(t)` of each enumerator when they are
numbered in the order in which `VKShader.cpp` lists them.  The declaration of
the enumeration is not part of the sources, so every definition below takes
the numbering as a parameter `code`; this one is the instance used to evaluate
them. -/
def ShaderType.declOrder : ShaderType → Nat
  | .Vertex => 0
  | .TessControl => 1
  | .TessEvaluation => 2
  | .Geometry => 3
  | .Fragment => 4
  | .Compute => 5

/-- A shader object, as far as `ValidateShaderComposition` looks at it. -/
structure Shader where
  type : ShaderType
  deriving DecidableEq, Repr

/-- Embedding of `Shader::GetType`. -/
def Shader.GetType (shader : Shader) : ShaderType := shader.type

/-- The `for` loop of `ShaderProgram::ValidateShaderComposition`
(ShaderProgram.cpp lines 37-51), started with the accumulator `bitmask`.
The array `shaders[0 .. numShaders)` is a list, a null entry is `none`.
`none` as a result is the early `return false`; `some m` is the value of
`bitmask` when the loop is left normally. -/
def ValidateShaderComposition.loop (code : ShaderType → Nat) :
    List (Option Shader) → Nat → Option Nat
  | [], bitmask => some bitmask
  | none :: rest, bitmask => ValidateShaderComposition.loop code rest bitmask
  | some shader :: rest, bitmask =>
      let bit := 1 <<< code shader.GetType
      if (bitmask &&& bit) ≠ 0 then
        none
      else
        ValidateShaderComposition.loop code rest (bitmask ||| bit)

/-- Embedding of `ShaderProgram::ValidateShaderComposition` (ShaderProgram.cpp lines 24-69).
`code t` is `static_cast<int>(t)`. -/
def ValidateShaderComposition (code : ShaderType → Nat) (shaders : List (Option Shader)) : Bool :=
  let BitVert := 1 <<< code ShaderType.Vertex
  let BitTesc := 1 <<< code ShaderType.TessControl
  let BitTese := 1 <<< code ShaderType.TessEvaluation
  let BitGeom := 1 <<< code ShaderType.Geometry
  let BitFrag := 1 <<< code ShaderType.Fragment
  let BitComp := 1 <<< code ShaderType.Compute
  match ValidateShaderComposition.loop code shaders 0 with
  | none => false
  | some bitmask =>
      bitmask == BitVert
      || bitmask == (BitVert ||| BitGeom)
      || bitmask == (BitVert ||| BitTesc ||| BitTese)
      || bitmask == (BitVert ||| BitTesc ||| BitTese ||| BitGeom)
      || bitmask == (BitVert ||| BitFrag)
      || bitmask == (BitVert ||| BitGeom ||| BitFrag)
      || bitmask == (BitVert ||| BitTesc ||| BitTese ||| BitFrag)
      || bitmask == (BitVert ||| BitTesc ||| BitTese ||| BitGeom ||| BitFrag)
      || bitmask == BitComp

/-- The stages of the non-null entries of a shader array, in array order. -/
def attachedStages (shaders : List (Option Shader)) : List ShaderType :=
  shaders.filterMap (fun s => s.map Shader.GetType)

/-- The nine legal compositions, as sets of stages (the list of section 4.4). -/
def legalCompositions : List (Finset ShaderType) :=
  [ {.Vertex},
    {.Vertex, .Geometry},
    {.Vertex, .TessControl, .TessEvaluation},
    {.Vertex, .TessControl, .TessEvaluation, .Geometry},
    {.Vertex, .Fragment},
    {.Vertex, .Geometry, .Fragment},
    {.Vertex, .TessControl, .TessEvaluation, .Fragment},
    {.Vertex, .TessControl, .TessEvaluation, .Geometry, .Fragment},
    {.Compute} ]

/-! ## Common types -/

/-- Address of a heap object (the value of a C++ pointer or reference). -/
abbrev Handle := Nat

/-- A `const void*` to client memory; the functions embedded here only pass it on. -/
abbrev DataPtr := Nat

/-- Embedding of `TextureFormat`; only passed on by the functions embedded here. -/
abbrev TextureFormat := Nat

/-- Embedding of `ImageDescriptor`; only passed on by the functions embedded here. -/
abbrev ImageDescriptor := Nat

/-- Embedding of `AxisDirection` (a cube face); only passed on by the functions embedded here. -/
abbrev AxisDirection := Nat

/-- Number of values of `std::size_t` (a 64-bit target). -/
def size_t_range : Nat := 2 ^ 64

/-- Number of values of `unsigned int` / `std::uint32_t` / `UINT`. -/
def uint_range : Nat := 2 ^ 32

/-- The value of a mathematical integer as a 32-bit two's-complement `int`.
It is the identity on `[-2^31, 2^31)`; outside that range it is what the
conversion `static_cast<int>(unsigned)` gives, and it stands for the result of
an overflowing `int` operation, which C++ leaves undefined. -/
def wrapInt32 (z : Int) : Int := (z + 2 ^ 31) % 2 ^ 32 - 2 ^ 31

/-- Embedding of `Gs::Vector2i`. -/
structure Vector2i where
  x : Int
  y : Int
  deriving DecidableEq, Repr

/-- Embedding of `Gs::Vector3i`. -/
structure Vector3i where
  x : Int
  y : Int
  z : Int
  deriving DecidableEq, Repr

/-- Embedding of `TextureType`: the enumerators used by `DbgRenderSystem.cpp`,
`D3D11RenderSystem.cpp` and `VKTexture.cpp`. -/
inductive TextureType where
  | Undefined
  | Texture1D
  | Texture2D
  | Texture3D
  | TextureCube
  | Texture1DArray
  | Texture2DArray
  | TextureCubeArray
  | Texture2DMS
  | Texture2DMSArray
  deriving DecidableEq, Repr

/-! ## Debug layer: events, debug objects, validation helpers -/

/-- Embedding of `ErrorType`, the enumerators used by `DbgRenderSystem.cpp`. -/
inductive ErrorType where
  | InvalidArgument
  | InvalidState
  deriving DecidableEq, Repr

/-- Embedding of `VertexFormat`, as far as the debug layer looks at it: `GetFormatSize()`. -/
structure VertexFormat where
  formatSize : Nat
  deriving DecidableEq, Repr

/-- Embedding of `VertexFormat::GetFormatSize`. -/
def VertexFormat.GetFormatSize (vertexFormat : VertexFormat) : Nat := vertexFormat.formatSize

/-- Embedding of `IndexFormat`, as far as the debug layer looks at it: `GetFormatSize()`. -/
structure IndexFormat where
  formatSize : Nat
  deriving DecidableEq, Repr

/-- Embedding of `IndexFormat::GetFormatSize`. -/
def IndexFormat.GetFormatSize (indexFormat : IndexFormat) : Nat := indexFormat.formatSize

/-- Embedding of `BufferUsage`; only passed on by the functions embedded here. -/
abbrev BufferUsage := Nat

/-- Embedding of `WarningType`, the enumerator used by `DbgRenderSystem.cpp`. -/
inductive WarningType where
  | ImproperArgument
  deriving DecidableEq, Repr

/-- Embedding of `PrimitiveTopology`: the two enumerators `DbgRenderSystem.cpp`
names, and every other enumerator by its value. -/
inductive PrimitiveTopology where
  | LineLoop
  | TriangleFan
  | other (value : Nat)
  deriving DecidableEq, Repr

/-- Embedding of `RasterizerDescriptor`: the member `DbgRenderSystem.cpp` reads. -/
structure RasterizerDescriptor where
  conservativeRasterization : Bool
  deriving DecidableEq, Repr

/-- Embedding of `BlendDescriptor`: the member `DbgRenderSystem.cpp` reads, the
vector of blend-state targets (each target by an opaque value). -/
structure BlendDescriptor where
  targets : List Nat
  deriving DecidableEq, Repr

/-- Embedding of `GraphicsPipelineDescriptor`: the members `DbgRenderSystem.cpp`
reads, and the remaining members as one opaque value `others`.  The shader
program is a pointer (`none` when null). -/
structure GraphicsPipelineDescriptor where
  shaderProgram : Option Handle
  primitiveTopology : PrimitiveTopology
  rasterizer : RasterizerDescriptor
  blend : BlendDescriptor
  others : Nat
  deriving DecidableEq, Repr

/-- Embedding of `ComputePipelineDescriptor`: the shader program (`none` when
null), and any remaining members as one opaque value `others`. -/
structure ComputePipelineDescriptor where
  shaderProgram : Option Handle
  others : Nat
  deriving DecidableEq, Repr

/-- A call `instance_->...` of the debug layer on the wrapped render system,
with its arguments (the first one is the wrapped object, `xxxDbg.instance`). -/
inductive InstanceCall where
  | WriteVertexBuffer (vertexBuffer : Handle) (data : DataPtr) (dataSize offset : Nat)
  | WriteIndexBuffer (indexBuffer : Handle) (data : DataPtr) (dataSize offset : Nat)
  | WriteConstantBuffer (constantBuffer : Handle) (data : DataPtr) (dataSize offset : Nat)
  | WriteStorageBuffer (storageBuffer : Handle) (data : DataPtr) (dataSize offset : Nat)
  | SetupVertexBuffer (vertexBuffer : Handle) (data : DataPtr) (dataSize : Nat)
      (usage : BufferUsage) (vertexFormat : VertexFormat)
  | SetupIndexBuffer (indexBuffer : Handle) (data : DataPtr) (dataSize : Nat)
      (usage : BufferUsage) (indexFormat : IndexFormat)
  | SetupConstantBuffer (constantBuffer : Handle) (data : DataPtr) (dataSize : Nat)
      (usage : BufferUsage)
  | SetupStorageBuffer (storageBuffer : Handle) (data : DataPtr) (dataSize : Nat)
      (usage : BufferUsage)
  | CreateGraphicsPipeline (desc : GraphicsPipelineDescriptor)
  | CreateComputePipeline (desc : ComputePipelineDescriptor)
  | SetupTexture1D (texture : Handle) (format : TextureFormat) (size : Int)
      (imageDesc : Option ImageDescriptor)
  | SetupTexture2D (texture : Handle) (format : TextureFormat) (size : Vector2i)
      (imageDesc : Option ImageDescriptor)
  | SetupTexture3D (texture : Handle) (format : TextureFormat) (size : Vector3i)
      (imageDesc : Option ImageDescriptor)
  | SetupTextureCube (texture : Handle) (format : TextureFormat) (size : Vector2i)
      (imageDesc : Option ImageDescriptor)
  | SetupTexture1DArray (texture : Handle) (format : TextureFormat) (size : Int) (layers : Nat)
      (imageDesc : Option ImageDescriptor)
  | SetupTexture2DArray (texture : Handle) (format : TextureFormat) (size : Vector2i)
      (layers : Nat) (imageDesc : Option ImageDescriptor)
  | SetupTextureCubeArray (texture : Handle) (format : TextureFormat) (size : Vector2i)
      (layers : Nat) (imageDesc : Option ImageDescriptor)
  | WriteTexture1D (texture : Handle) (mipLevel : Int) (position : Int) (size : Int)
      (imageDesc : ImageDescriptor)
  | WriteTexture2D (texture : Handle) (mipLevel : Int) (position : Vector2i) (size : Vector2i)
      (imageDesc : ImageDescriptor)
  | WriteTexture3D (texture : Handle) (mipLevel : Int) (position : Vector3i) (size : Vector3i)
      (imageDesc : ImageDescriptor)
  | WriteTextureCube (texture : Handle) (mipLevel : Int) (position : Vector2i)
      (cubeFace : AxisDirection) (size : Vector2i) (imageDesc : ImageDescriptor)
  | WriteTexture1DArray (texture : Handle) (mipLevel : Int) (position : Int) (layerOffset : Nat)
      (size : Int) (layers : Nat) (imageDesc : ImageDescriptor)
  | WriteTexture2DArray (texture : Handle) (mipLevel : Int) (position : Vector2i)
      (layerOffset : Nat) (size : Vector2i) (layers : Nat) (imageDesc : ImageDescriptor)
  | WriteTextureCubeArray (texture : Handle) (mipLevel : Int) (position : Vector2i)
      (layerOffset : Nat) (cubeFaceOffset : AxisDirection) (size : Vector2i) (cubeFaces : Nat)
      (imageDesc : ImageDescriptor)
  | ReadTexture (texture : Handle) (mipLevel : Int) (dataFormat : Nat) (dataType : Nat)
      (data : DataPtr)
  deriving DecidableEq, Repr

/-- The profiler counters the debug layer increments. -/
inductive ProfilerCounter where
  | writeVertexBuffer
  | writeIndexBuffer
  | writeConstantBuffer
  | writeStorageBuffer
  deriving DecidableEq, Repr

/-- Modelled from the spec: the macros `LLGL_DBG_ERROR`, `LLGL_DBG_ERROR_HERE`,
`LLGL_DBG_ERROR_NOT_SUPPORTED`, `LLGL_DBG_WARN_HERE` and `LLGL_DBG_PROFILER_DO`
come from `DbgCore.h`, which is not among the sources.  Following sections 4.3,
6 and 7 of the specification, an error or a warning is recorded through the
debugger collaborator as a report `(kind, message, source)`, and a counter
increment is an event for a named counter of the profiler collaborator (both
collaborators are optional: the events are what they receive when they are
attached).  The `_HERE` macros take the enclosing function as the source; the
`_NOT_SUPPORTED` macro is kept with its two arguments, the feature and the
source.  What a debug-layer function does is the list of these events in
program order, together with its calls on the wrapped render system. -/
inductive DbgEvent where
  | error (type : ErrorType) (message : String) (source : String)
  | errorNotSupported (feature : String) (source : String)
  | warning (type : WarningType) (message : String) (source : String)
  | instanceCall (call : InstanceCall)
  | profilerInc (counter : ProfilerCounter)
  deriving DecidableEq, Repr

/-- Embedding of `DbgVertexBuffer`: the members `DbgRenderSystem.cpp` reads and writes. -/
structure DbgVertexBuffer where
  instanceRef : Handle
  format : VertexFormat
  size : Nat
  elements : Nat
  initialized : Bool
  deriving DecidableEq, Repr

/-- Embedding of `DbgIndexBuffer`: the members `DbgRenderSystem.cpp` reads and writes. -/
structure DbgIndexBuffer where
  instanceRef : Handle
  size : Nat
  elements : Nat
  initialized : Bool
  deriving DecidableEq, Repr

/-- Embedding of `DbgConstantBuffer`: the members `DbgRenderSystem.cpp` reads and writes. -/
structure DbgConstantBuffer where
  instanceRef : Handle
  size : Nat
  initialized : Bool
  deriving DecidableEq, Repr

/-- Embedding of `DbgStorageBuffer`: the members `DbgRenderSystem.cpp` reads and writes. -/
structure DbgStorageBuffer where
  instanceRef : Handle
  size : Nat
  initialized : Bool
  deriving DecidableEq, Repr

/-- Embedding of `DbgTexture`: the wrapped texture, the texture type (`GetType` / `SetType`
of the base class `Texture`), and the recorded size and mip-level count. -/
structure DbgTexture where
  instanceRef : Handle
  type : TextureType
  size : Vector3i
  mipLevels : Int
  deriving DecidableEq, Repr

/-- Embedding of `DbgRenderSystem::DebugBufferSize` (lines 569-573); the sum is taken in
`std::size_t`. -/
def DebugBufferSize (bufferSize dataSize dataOffset : Nat) (source : String) : List DbgEvent :=
  if (dataSize + dataOffset) % size_t_range > bufferSize then
    [DbgEvent.error ErrorType.InvalidArgument "buffer size and offset out of bounds" source]
  else
    []

/-- The message built by `DebugMipLevelLimit` with `std::to_string`. -/
def mipLevelMessage (mipLevel mipLevelCount : Int) : String :=
  "mip level out of bounds (" ++ toString mipLevel ++
    " specified but limit is " ++ toString (wrapInt32 (mipLevelCount - 1)) ++ ")"

/-- Embedding of `DbgRenderSystem::DebugMipLevelLimit` (lines 575-586). -/
def DebugMipLevelLimit (mipLevel mipLevelCount : Int) (source : String) : List DbgEvent :=
  if mipLevel ≥ mipLevelCount then
    [DbgEvent.error ErrorType.InvalidArgument (mipLevelMessage mipLevel mipLevelCount) source]
  else
    []

/-- Embedding of `DbgRenderSystem::ErrWriteUninitializedResource` (lines 588-591). -/
def ErrWriteUninitializedResource (source : String) : List DbgEvent :=
  [DbgEvent.error ErrorType.InvalidState "attempt to write uninitialized resource" source]

/-- Embedding of `DbgRenderSystem::GetInitializedTexture` (lines 601-607): the events of
the check, and the debug texture the function returns in every case. -/
def GetInitializedTexture (texture : DbgTexture) (source : String) : DbgTexture × List DbgEvent :=
  let textureDbg := texture
  if textureDbg.type = TextureType.Undefined then
    (textureDbg, ErrWriteUninitializedResource source)
  else
    (textureDbg, [])

/-! ## Debug layer: buffer writes (DbgRenderSystem.cpp lines 173-231)

Each function takes the debug object the handle refers to (the result of
`LLGL_CAST`) and returns it as the call leaves it, with the events of the call.
`__FUNCTION__` is the name of the function. -/

/-- Embedding of `DbgRenderSystem::WriteVertexBuffer` (lines 173-186). -/
def DbgRenderSystem.WriteVertexBuffer (vertexBuffer : DbgVertexBuffer) (data : DataPtr)
    (dataSize offset : Nat) : DbgVertexBuffer × List DbgEvent :=
  let vertexBufferDbg := vertexBuffer
  if vertexBufferDbg.initialized then
    (vertexBufferDbg,
      DebugBufferSize vertexBufferDbg.size dataSize offset "WriteVertexBuffer"
        ++ [DbgEvent.instanceCall
              (InstanceCall.WriteVertexBuffer vertexBufferDbg.instanceRef data dataSize offset)]
        ++ [DbgEvent.profilerInc ProfilerCounter.writeVertexBuffer])
  else
    (vertexBufferDbg, ErrWriteUninitializedResource "WriteVertexBuffer")

/-- Embedding of `DbgRenderSystem::WriteIndexBuffer` (lines 188-201). -/
def DbgRenderSystem.WriteIndexBuffer (indexBuffer : DbgIndexBuffer) (data : DataPtr)
    (dataSize offset : Nat) : DbgIndexBuffer × List DbgEvent :=
  let indexBufferDbg := indexBuffer
  if indexBufferDbg.initialized then
    (indexBufferDbg,
      DebugBufferSize indexBufferDbg.size dataSize offset "WriteIndexBuffer"
        ++ [DbgEvent.instanceCall
              (InstanceCall.WriteIndexBuffer indexBufferDbg.instanceRef data dataSize offset)]
        ++ [DbgEvent.profilerInc ProfilerCounter.writeIndexBuffer])
  else
    (indexBufferDbg, ErrWriteUninitializedResource "WriteIndexBuffer")

/-- Embedding of `DbgRenderSystem::WriteConstantBuffer` (lines 203-216). -/
def DbgRenderSystem.WriteConstantBuffer (constantBuffer : DbgConstantBuffer) (data : DataPtr)
    (dataSize offset : Nat) : DbgConstantBuffer × List DbgEvent :=
  let constantBufferDbg := constantBuffer
  if constantBufferDbg.initialized then
    (constantBufferDbg,
      DebugBufferSize constantBufferDbg.size dataSize offset "WriteConstantBuffer"
        ++ [DbgEvent.instanceCall
              (InstanceCall.WriteConstantBuffer constantBufferDbg.instanceRef data dataSize offset)]
        ++ [DbgEvent.profilerInc ProfilerCounter.writeConstantBuffer])
  else
    (constantBufferDbg, ErrWriteUninitializedResource "WriteConstantBuffer")

/-- Embedding of `DbgRenderSystem::WriteStorageBuffer` (lines 218-231). -/
def DbgRenderSystem.WriteStorageBuffer (storageBuffer : DbgStorageBuffer) (data : DataPtr)
    (dataSize offset : Nat) : DbgStorageBuffer × List DbgEvent :=
  let storageBufferDbg := storageBuffer
  if storageBufferDbg.initialized then
    (storageBufferDbg,
      DebugBufferSize storageBufferDbg.size dataSize offset "WriteStorageBuffer"
        ++ [DbgEvent.instanceCall
              (InstanceCall.WriteStorageBuffer storageBufferDbg.instanceRef data dataSize offset)]
        ++ [DbgEvent.profilerInc ProfilerCounter.writeStorageBuffer])
  else
    (storageBufferDbg, ErrWriteUninitializedResource "WriteStorageBuffer")

/-! ## Debug layer: texture setup (DbgRenderSystem.cpp lines 251-326) -/

/-- Embedding of `DbgRenderSystem::SetupTexture1D` (lines 251-260). -/
def DbgRenderSystem.SetupTexture1D (texture : DbgTexture) (format : TextureFormat) (size : Int)
    (imageDesc : Option ImageDescriptor) : DbgTexture × List DbgEvent :=
  let textureDbg := texture
  ({ textureDbg with
      type := TextureType.Texture1D
      size := { x := size, y := 1, z := 1 }
      mipLevels := 1 },
    [DbgEvent.instanceCall
      (InstanceCall.SetupTexture1D textureDbg.instanceRef format size imageDesc)])

/-- Embedding of `DbgRenderSystem::SetupTexture2D` (lines 262-271). -/
def DbgRenderSystem.SetupTexture2D (texture : DbgTexture) (format : TextureFormat)
    (size : Vector2i) (imageDesc : Option ImageDescriptor) : DbgTexture × List DbgEvent :=
  let textureDbg := texture
  ({ textureDbg with
      type := TextureType.Texture2D
      size := { x := size.x, y := size.y, z := 1 }
      mipLevels := 1 },
    [DbgEvent.instanceCall
      (InstanceCall.SetupTexture2D textureDbg.instanceRef format size imageDesc)])

/-- Embedding of `DbgRenderSystem::SetupTexture3D` (lines 273-282). -/
def DbgRenderSystem.SetupTexture3D (texture : DbgTexture) (format : TextureFormat)
    (size : Vector3i) (imageDesc : Option ImageDescriptor) : DbgTexture × List DbgEvent :=
  let textureDbg := texture
  ({ textureDbg with
      type := TextureType.Texture3D
      size := size
      mipLevels := 1 },
    [DbgEvent.instanceCall
      (InstanceCall.SetupTexture3D textureDbg.instanceRef format size imageDesc)])

/-- Embedding of `DbgRenderSystem::SetupTextureCube` (lines 284-293). -/
def DbgRenderSystem.SetupTextureCube (texture : DbgTexture) (format : TextureFormat)
    (size : Vector2i) (imageDesc : Option ImageDescriptor) : DbgTexture × List DbgEvent :=
  let textureDbg := texture
  ({ textureDbg with
      type := TextureType.TextureCube
      size := { x := size.x, y := size.y, z := 6 }
      mipLevels := 1 },
    [DbgEvent.instanceCall
      (InstanceCall.SetupTextureCube textureDbg.instanceRef format size imageDesc)])

/-- Embedding of `DbgRenderSystem::SetupTexture1DArray` (lines 295-304); `layers` is an
`unsigned int`. -/
def DbgRenderSystem.SetupTexture1DArray (texture : DbgTexture) (format : TextureFormat)
    (size : Int) (layers : Nat) (imageDesc : Option ImageDescriptor) :
    DbgTexture × List DbgEvent :=
  let textureDbg := texture
  ({ textureDbg with
      type := TextureType.Texture1DArray
      size := { x := size, y := wrapInt32 layers, z := 1 }
      mipLevels := 1 },
    [DbgEvent.instanceCall
      (InstanceCall.SetupTexture1DArray textureDbg.instanceRef format size layers imageDesc)])

/-- Embedding of `DbgRenderSystem::SetupTexture2DArray` (lines 306-315); `layers` is an
`unsigned int`. -/
def DbgRenderSystem.SetupTexture2DArray (texture : DbgTexture) (format : TextureFormat)
    (size : Vector2i) (layers : Nat) (imageDesc : Option ImageDescriptor) :
    DbgTexture × List DbgEvent :=
  let textureDbg := texture
  ({ textureDbg with
      type := TextureType.Texture2DArray
      size := { x := size.x, y := size.y, z := wrapInt32 layers }
      mipLevels := 1 },
    [DbgEvent.instanceCall
      (InstanceCall.SetupTexture2DArray textureDbg.instanceRef format size layers imageDesc)])

/-- Embedding of `DbgRenderSystem::SetupTextureCubeArray` (lines 317-326); `layers` is an
`unsigned int`, the product `static_cast<int>(layers)*6` is taken in `int`. -/
def DbgRenderSystem.SetupTextureCubeArray (texture : DbgTexture) (format : TextureFormat)
    (size : Vector2i) (layers : Nat) (imageDesc : Option ImageDescriptor) :
    DbgTexture × List DbgEvent :=
  let textureDbg := texture
  ({ textureDbg with
      type := TextureType.TextureCubeArray
      size := { x := size.x, y := size.y, z := wrapInt32 (wrapInt32 layers * 6) }
      mipLevels := 1 },
    [DbgEvent.instanceCall
      (InstanceCall.SetupTextureCubeArray textureDbg.instanceRef format size layers imageDesc)])

/-! ## Debug layer: texture writes (DbgRenderSystem.cpp lines 328-399) -/

/-- Embedding of `DbgRenderSystem::WriteTexture1D` (lines 328-336). -/
def DbgRenderSystem.WriteTexture1D (texture : DbgTexture) (mipLevel : Int) (position : Int)
    (size : Int) (imageDesc : ImageDescriptor) : DbgTexture × List DbgEvent :=
  let (textureDbg, checked) := GetInitializedTexture texture "WriteTexture1D"
  (textureDbg,
    checked
      ++ DebugMipLevelLimit mipLevel textureDbg.mipLevels "WriteTexture1D"
      ++ [DbgEvent.instanceCall
            (InstanceCall.WriteTexture1D textureDbg.instanceRef mipLevel position size imageDesc)])

/-- Embedding of `DbgRenderSystem::WriteTexture2D` (lines 338-346). -/
def DbgRenderSystem.WriteTexture2D (texture : DbgTexture) (mipLevel : Int) (position : Vector2i)
    (size : Vector2i) (imageDesc : ImageDescriptor) : DbgTexture × List DbgEvent :=
  let (textureDbg, checked) := GetInitializedTexture texture "WriteTexture2D"
  (textureDbg,
    checked
      ++ DebugMipLevelLimit mipLevel textureDbg.mipLevels "WriteTexture2D"
      ++ [DbgEvent.instanceCall
            (InstanceCall.WriteTexture2D textureDbg.instanceRef mipLevel position size imageDesc)])

/-- Embedding of `DbgRenderSystem::WriteTexture3D` (lines 348-356). -/
def DbgRenderSystem.WriteTexture3D (texture : DbgTexture) (mipLevel : Int) (position : Vector3i)
    (size : Vector3i) (imageDesc : ImageDescriptor) : DbgTexture × List DbgEvent :=
  let (textureDbg, checked) := GetInitializedTexture texture "WriteTexture3D"
  (textureDbg,
    checked
      ++ DebugMipLevelLimit mipLevel textureDbg.mipLevels "WriteTexture3D"
      ++ [DbgEvent.instanceCall
            (InstanceCall.WriteTexture3D textureDbg.instanceRef mipLevel position size imageDesc)])

/-- Embedding of `DbgRenderSystem::WriteTextureCube` (lines 358-366). -/
def DbgRenderSystem.WriteTextureCube (texture : DbgTexture) (mipLevel : Int)
    (position : Vector2i) (cubeFace : AxisDirection) (size : Vector2i)
    (imageDesc : ImageDescriptor) : DbgTexture × List DbgEvent :=
  let (textureDbg, checked) := GetInitializedTexture texture "WriteTextureCube"
  (textureDbg,
    checked
      ++ DebugMipLevelLimit mipLevel textureDbg.mipLevels "WriteTextureCube"
      ++ [DbgEvent.instanceCall
            (InstanceCall.WriteTextureCube textureDbg.instanceRef mipLevel position cubeFace size
              imageDesc)])

/-- Embedding of `DbgRenderSystem::WriteTexture1DArray` (lines 368-377). -/
def DbgRenderSystem.WriteTexture1DArray (texture : DbgTexture) (mipLevel : Int) (position : Int)
    (layerOffset : Nat) (size : Int) (layers : Nat) (imageDesc : ImageDescriptor) :
    DbgTexture × List DbgEvent :=
  let (textureDbg, checked) := GetInitializedTexture texture "WriteTexture1DArray"
  (textureDbg,
    checked
      ++ DebugMipLevelLimit mipLevel textureDbg.mipLevels "WriteTexture1DArray"
      ++ [DbgEvent.instanceCall
            (InstanceCall.WriteTexture1DArray textureDbg.instanceRef mipLevel position layerOffset
              size layers imageDesc)])

/-- Embedding of `DbgRenderSystem::WriteTexture2DArray` (lines 379-388). -/
def DbgRenderSystem.WriteTexture2DArray (texture : DbgTexture) (mipLevel : Int)
    (position : Vector2i) (layerOffset : Nat) (size : Vector2i) (layers : Nat)
    (imageDesc : ImageDescriptor) : DbgTexture × List DbgEvent :=
  let (textureDbg, checked) := GetInitializedTexture texture "WriteTexture2DArray"
  (textureDbg,
    checked
      ++ DebugMipLevelLimit mipLevel textureDbg.mipLevels "WriteTexture2DArray"
      ++ [DbgEvent.instanceCall
            (InstanceCall.WriteTexture2DArray textureDbg.instanceRef mipLevel position layerOffset
              size layers imageDesc)])

/-- Embedding of `DbgRenderSystem::WriteTextureCubeArray` (lines 390-399). -/
def DbgRenderSystem.WriteTextureCubeArray (texture : DbgTexture) (mipLevel : Int)
    (position : Vector2i) (layerOffset : Nat) (cubeFaceOffset : AxisDirection) (size : Vector2i)
    (cubeFaces : Nat) (imageDesc : ImageDescriptor) : DbgTexture × List DbgEvent :=
  let (textureDbg, checked) := GetInitializedTexture texture "WriteTextureCubeArray"
  (textureDbg,
    checked
      ++ DebugMipLevelLimit mipLevel textureDbg.mipLevels "WriteTextureCubeArray"
      ++ [DbgEvent.instanceCall
            (InstanceCall.WriteTextureCubeArray textureDbg.instanceRef mipLevel position
              layerOffset cubeFaceOffset size cubeFaces imageDesc)])

/-! ## Direct3D 11: texture setup (D3D11RenderSystem.cpp lines 194-248, 451-543) -/

/-- Embedding of `static_cast<UINT>(i)` for an `int` `i`. -/
def toUINT (i : Int) : Nat := (i % (uint_range : Int)).toNat

/-- Windows SDK value of `D3D11_USAGE_DEFAULT`. -/
def D3D11_USAGE_DEFAULT : Nat := 0

/-- Windows SDK value of `D3D11_BIND_SHADER_RESOURCE`. -/
def D3D11_BIND_SHADER_RESOURCE : Nat := 0x8

/-- Windows SDK value of `D3D11_BIND_RENDER_TARGET`. -/
def D3D11_BIND_RENDER_TARGET : Nat := 0x20

/-- Windows SDK value of `D3D11_RESOURCE_MISC_GENERATE_MIPS`. -/
def D3D11_RESOURCE_MISC_GENERATE_MIPS : Nat := 0x1

/-- Windows SDK value of `D3D11_RESOURCE_MISC_TEXTURECUBE`. -/
def D3D11_RESOURCE_MISC_TEXTURECUBE : Nat := 0x4

/-- Embedding of `D3D11_TEXTURE1D_DESC`. -/
structure D3D11_TEXTURE1D_DESC where
  Width : Nat
  MipLevels : Nat
  ArraySize : Nat
  Format : Nat
  Usage : Nat
  BindFlags : Nat
  CPUAccessFlags : Nat
  MiscFlags : Nat
  deriving DecidableEq, Repr

/-- Embedding of `D3D11_TEXTURE2D_DESC` (`SampleDesc` flattened). -/
structure D3D11_TEXTURE2D_DESC where
  Width : Nat
  Height : Nat
  MipLevels : Nat
  ArraySize : Nat
  Format : Nat
  SampleDescCount : Nat
  SampleDescQuality : Nat
  Usage : Nat
  BindFlags : Nat
  CPUAccessFlags : Nat
  MiscFlags : Nat
  deriving DecidableEq, Repr

/-- Embedding of `D3D11_TEXTURE3D_DESC`. -/
structure D3D11_TEXTURE3D_DESC where
  Width : Nat
  Height : Nat
  Depth : Nat
  MipLevels : Nat
  Format : Nat
  Usage : Nat
  BindFlags : Nat
  CPUAccessFlags : Nat
  MiscFlags : Nat
  deriving DecidableEq, Repr

/-- Embedding of `CD3D11_BOX(left, top, front, right, bottom, back)`, its arguments being `LONG`. -/
structure CD3D11_BOX where
  left : Int
  top : Int
  front : Int
  right : Int
  bottom : Int
  back : Int
  deriving DecidableEq, Repr

/-- The calls a `Setup*` function of `D3D11RenderSystem` makes on the D3D
texture object (which pass them to the device and the device context). -/
inductive D3D11TextureCall where
  | CreateTexture1D (texDesc : D3D11_TEXTURE1D_DESC)
  | CreateTexture2D (texDesc : D3D11_TEXTURE2D_DESC)
  | CreateTexture3D (texDesc : D3D11_TEXTURE3D_DESC)
  | UpdateSubresource (mipSlice arraySlice : Nat) (dstBox : CD3D11_BOX)
      (imageDesc : ImageDescriptor)
  deriving DecidableEq, Repr

/-- The array size a native texture-creation call asks for (1D and 2D
textures have one; other calls do not). -/
def D3D11TextureCall.arraySize? : D3D11TextureCall → Option Nat
  | .CreateTexture1D texDesc => some texDesc.ArraySize
  | .CreateTexture2D texDesc => some texDesc.ArraySize
  | _ => none

/-- Embedding of `D3D11Texture`, as far as `D3D11RenderSystem.cpp` sets it directly: the
texture type (`SetType` of the base class `Texture`). -/
structure D3D11Texture where
  type : TextureType
  deriving DecidableEq, Repr

/-- Embedding of `D3D11RenderSystem::SetupGenericTexture1D` (lines 451-479).  `mapFormat`
is `D3D11Types::Map`, which is not among the sources. -/
def D3D11RenderSystem.SetupGenericTexture1D (mapFormat : TextureFormat → Nat)
    (format : TextureFormat) (size : Int) (layers : Nat) (imageDesc : Option ImageDescriptor)
    (miscFlags : Nat) : List D3D11TextureCall :=
  let texDesc : D3D11_TEXTURE1D_DESC :=
    { Width := toUINT size
      MipLevels := 0
      ArraySize := layers
      Format := mapFormat format
      Usage := D3D11_USAGE_DEFAULT
      BindFlags := D3D11_BIND_SHADER_RESOURCE ||| D3D11_BIND_RENDER_TARGET
      CPUAccessFlags := 0
      MiscFlags := miscFlags }
  D3D11TextureCall.CreateTexture1D texDesc ::
    (match imageDesc with
     | some desc =>
         [D3D11TextureCall.UpdateSubresource 0 0 ⟨0, 0, 0, size, wrapInt32 layers, 1⟩ desc]
     | none => [])

/-- Embedding of `D3D11RenderSystem::SetupGenericTexture2D` (lines 481-512).  `mapFormat`
is `D3D11Types::Map`, which is not among the sources. -/
def D3D11RenderSystem.SetupGenericTexture2D (mapFormat : TextureFormat → Nat)
    (format : TextureFormat) (size : Vector2i) (layers : Nat)
    (imageDesc : Option ImageDescriptor) (miscFlags : Nat) : List D3D11TextureCall :=
  let texDesc : D3D11_TEXTURE2D_DESC :=
    { Width := toUINT size.x
      Height := toUINT size.y
      MipLevels := 0
      ArraySize := layers
      Format := mapFormat format
      SampleDescCount := 1
      SampleDescQuality := 0
      Usage := D3D11_USAGE_DEFAULT
      BindFlags := D3D11_BIND_SHADER_RESOURCE ||| D3D11_BIND_RENDER_TARGET
      CPUAccessFlags := 0
      MiscFlags := miscFlags }
  D3D11TextureCall.CreateTexture2D texDesc ::
    (match imageDesc with
     | some desc =>
         [D3D11TextureCall.UpdateSubresource 0 0 ⟨0, 0, 0, size.x, size.y, wrapInt32 layers⟩
            desc]
     | none => [])

/-- Embedding of `D3D11RenderSystem::SetupGenericTexture3D` (lines 514-543).  `mapFormat`
is `D3D11Types::Map`, which is not among the sources. -/
def D3D11RenderSystem.SetupGenericTexture3D (mapFormat : TextureFormat → Nat)
    (format : TextureFormat) (size : Vector3i) (imageDesc : Option ImageDescriptor)
    (miscFlags : Nat) : List D3D11TextureCall :=
  let texDesc : D3D11_TEXTURE3D_DESC :=
    { Width := toUINT size.x
      Height := toUINT size.y
      Depth := toUINT size.z
      MipLevels := 0
      Format := mapFormat format
      Usage := D3D11_USAGE_DEFAULT
      BindFlags := D3D11_BIND_SHADER_RESOURCE ||| D3D11_BIND_RENDER_TARGET
      CPUAccessFlags := 0
      MiscFlags := miscFlags }
  D3D11TextureCall.CreateTexture3D texDesc ::
    (match imageDesc with
     | some desc =>
         [D3D11TextureCall.UpdateSubresource 0 0 ⟨0, 0, 0, size.x, size.y, size.z⟩ desc]
     | none => [])

/-- Embedding of `D3D11RenderSystem::SetupTexture1D` (lines 194-200). -/
def D3D11RenderSystem.SetupTexture1D (mapFormat : TextureFormat → Nat) (texture : D3D11Texture)
    (format : TextureFormat) (size : Int) (imageDesc : Option ImageDescriptor) :
    D3D11Texture × List D3D11TextureCall :=
  let textureD3D := { texture with type := TextureType.Texture1D }
  (textureD3D,
    D3D11RenderSystem.SetupGenericTexture1D mapFormat format size 1 imageDesc
      D3D11_RESOURCE_MISC_GENERATE_MIPS)

/-- Embedding of `D3D11RenderSystem::SetupTexture2D` (lines 202-208). -/
def D3D11RenderSystem.SetupTexture2D (mapFormat : TextureFormat → Nat) (texture : D3D11Texture)
    (format : TextureFormat) (size : Vector2i) (imageDesc : Option ImageDescriptor) :
    D3D11Texture × List D3D11TextureCall :=
  let textureD3D := { texture with type := TextureType.Texture2D }
  (textureD3D,
    D3D11RenderSystem.SetupGenericTexture2D mapFormat format size 1 imageDesc
      D3D11_RESOURCE_MISC_GENERATE_MIPS)

/-- Embedding of `D3D11RenderSystem::SetupTexture3D` (lines 210-216). -/
def D3D11RenderSystem.SetupTexture3D (mapFormat : TextureFormat → Nat) (texture : D3D11Texture)
    (format : TextureFormat) (size : Vector3i) (imageDesc : Option ImageDescriptor) :
    D3D11Texture × List D3D11TextureCall :=
  let textureD3D := { texture with type := TextureType.Texture3D }
  (textureD3D,
    D3D11RenderSystem.SetupGenericTexture3D mapFormat format size imageDesc
      D3D11_RESOURCE_MISC_GENERATE_MIPS)

/-- Embedding of `D3D11RenderSystem::SetupTextureCube` (lines 218-224). -/
def D3D11RenderSystem.SetupTextureCube (mapFormat : TextureFormat → Nat)
    (texture : D3D11Texture) (format : TextureFormat) (size : Vector2i)
    (imageDesc : Option ImageDescriptor) : D3D11Texture × List D3D11TextureCall :=
  let textureD3D := { texture with type := TextureType.TextureCube }
  (textureD3D,
    D3D11RenderSystem.SetupGenericTexture2D mapFormat format size 6 imageDesc
      (D3D11_RESOURCE_MISC_GENERATE_MIPS ||| D3D11_RESOURCE_MISC_TEXTURECUBE))

/-- Embedding of `D3D11RenderSystem::SetupTexture1DArray` (lines 226-232). -/
def D3D11RenderSystem.SetupTexture1DArray (mapFormat : TextureFormat → Nat)
    (texture : D3D11Texture) (format : TextureFormat) (size : Int) (layers : Nat)
    (imageDesc : Option ImageDescriptor) : D3D11Texture × List D3D11TextureCall :=
  let textureD3D := { texture with type := TextureType.Texture1DArray }
  (textureD3D,
    D3D11RenderSystem.SetupGenericTexture1D mapFormat format size layers imageDesc
      D3D11_RESOURCE_MISC_GENERATE_MIPS)

/-- Embedding of `D3D11RenderSystem::SetupTexture2DArray` (lines 234-240). -/
def D3D11RenderSystem.SetupTexture2DArray (mapFormat : TextureFormat → Nat)
    (texture : D3D11Texture) (format : TextureFormat) (size : Vector2i) (layers : Nat)
    (imageDesc : Option ImageDescriptor) : D3D11Texture × List D3D11TextureCall :=
  let textureD3D := { texture with type := TextureType.Texture2DArray }
  (textureD3D,
    D3D11RenderSystem.SetupGenericTexture2D mapFormat format size layers imageDesc
      D3D11_RESOURCE_MISC_GENERATE_MIPS)

/-- Embedding of `D3D11RenderSystem::SetupTextureCubeArray` (lines 242-248); the product
`layers*6` is taken in `unsigned int`. -/
def D3D11RenderSystem.SetupTextureCubeArray (mapFormat : TextureFormat → Nat)
    (texture : D3D11Texture) (format : TextureFormat) (size : Vector2i) (layers : Nat)
    (imageDesc : Option ImageDescriptor) : D3D11Texture × List D3D11TextureCall :=
  let textureD3D := { texture with type := TextureType.TextureCubeArray }
  (textureD3D,
    D3D11RenderSystem.SetupGenericTexture2D mapFormat format size (layers * 6 % uint_range)
      imageDesc (D3D11_RESOURCE_MISC_GENERATE_MIPS ||| D3D11_RESOURCE_MISC_TEXTURECUBE))

/-! ## Vulkan: image type and array layers (VKTexture.cpp lines 115-122, 180-196) -/

/-- The `texture1D` member of `TextureDescriptor`, as read by `VKTexture.cpp`. -/
structure Texture1DDescriptor where
  width : Nat
  layers : Nat
  deriving DecidableEq, Repr

/-- The `texture2D` member of `TextureDescriptor`, as read by `VKTexture.cpp`. -/
structure Texture2DDescriptor where
  width : Nat
  height : Nat
  layers : Nat
  deriving DecidableEq, Repr

/-- The `texture3D` member of `TextureDescriptor`, as read by `VKTexture.cpp`. -/
structure Texture3DDescriptor where
  width : Nat
  height : Nat
  depth : Nat
  deriving DecidableEq, Repr

/-- The `textureCube` member of `TextureDescriptor`, as read by `VKTexture.cpp`. -/
structure TextureCubeDescriptor where
  width : Nat
  height : Nat
  layers : Nat
  deriving DecidableEq, Repr

/-- Embedding of `TextureDescriptor`: the members `VKTexture.cpp` reads.  Its declaration is
not among the sources; the per-type members are kept as independent records,
each one read only for the texture types it belongs to.  All dimensions and
layer counts are `std::uint32_t`. -/
structure TextureDescriptor where
  type : TextureType
  format : TextureFormat
  flags : Nat
  texture1D : Texture1DDescriptor
  texture2D : Texture2DDescriptor
  texture3D : Texture3DDescriptor
  textureCube : TextureCubeDescriptor
  deriving DecidableEq, Repr

/-- Modelled from the spec: `IsCubeTexture` is declared in a header that is
not among the sources.  It tells the cube types, whose layers are counted in
faces (section 4.2: cube arrays multiply layers by 6): the cube and the
cube-array texture. -/
def IsCubeTexture (type : TextureType) : Bool :=
  type = TextureType.TextureCube || type = TextureType.TextureCubeArray

/-- Embedding of `VkImageType`, the values used by `VKTexture.cpp`. -/
inductive VkImageType where
  | VK_IMAGE_TYPE_1D
  | VK_IMAGE_TYPE_2D
  | VK_IMAGE_TYPE_3D
  deriving DecidableEq, Repr

/-- Embedding of `GetVkImageType` (VKTexture.cpp lines 115-122). -/
def GetVkImageType (textureType : TextureType) : VkImageType :=
  if textureType = TextureType.Texture3D then
    VkImageType.VK_IMAGE_TYPE_3D
  else if textureType = TextureType.Texture1D ∨ textureType = TextureType.Texture1DArray then
    VkImageType.VK_IMAGE_TYPE_1D
  else
    VkImageType.VK_IMAGE_TYPE_2D

/-- Embedding of `GetVkImageArrayLayers` (VKTexture.cpp lines 180-196); the product is
taken in `std::uint32_t`. -/
def GetVkImageArrayLayers (desc : TextureDescriptor) (imageType : VkImageType) : Nat :=
  match imageType with
  | .VK_IMAGE_TYPE_1D => max 1 desc.texture1D.layers
  | .VK_IMAGE_TYPE_2D =>
      if IsCubeTexture desc.type then
        max 1 desc.textureCube.layers * 6 % uint_range
      else
        max 1 desc.texture2D.layers
  | _ => 1

/-! ## Ownership registries -/

/-- Modelled from the spec: `TakeOwnership` comes from `Core/Helper.h`, which
is not among the sources.  Section 4.1: it inserts a uniquely-owned object
into the registry and returns a non-owning pointer to it.  The object is given
by its address. -/
def TakeOwnership (objectSet : Finset Handle) (object : Handle) : Finset Handle × Handle :=
  (insert object objectSet, object)

/-- Modelled from the spec: `RemoveFromUniqueSet` comes from `Core/Helper.h`,
which is not among the sources.  Section 4.1: it erases and destroys the entry
identified by pointer identity, failing silently if absent. -/
def RemoveFromUniqueSet (cont : Finset Handle) (entry : Handle) : Finset Handle :=
  cont.erase entry

/-- Embedding of `RenderingCaps`: the member `DbgRenderSystem.cpp` reads. -/
structure RenderingCaps where
  hasConservativeRasterization : Bool
  deriving DecidableEq, Repr

/-- What `D3D11RenderSystem::CreateRenderContext` does besides registering
the new context. -/
inductive D3D11ContextCall where
  | MakeCurrent (renderContext : Handle)
  | WindowShow (renderContext : Handle)
  deriving DecidableEq, Repr

/-- Embedding of `D3D11RenderSystem`: its registries (one `std::set<std::unique_ptr<T>>`
per kind, a set of addresses), the feature level of the device, and the calls
made on render contexts.  Storage buffers and render targets have no registry
in use (the code for them is commented out). -/
structure D3D11RenderSystem where
  renderContexts_ : Finset Handle
  vertexBuffers_ : Finset Handle
  indexBuffers_ : Finset Handle
  constantBuffers_ : Finset Handle
  textures_ : Finset Handle
  samplers_ : Finset Handle
  shaders_ : Finset Handle
  shaderPrograms_ : Finset Handle
  graphicsPipelines_ : Finset Handle
  computePipelines_ : Finset Handle
  queries_ : Finset Handle
  featureLevel_ : Nat
  contextCalls : List D3D11ContextCall
  deriving DecidableEq

/-- A `D3D11RenderSystem` right after construction: every registry is empty. -/
def D3D11RenderSystem.init (featureLevel : Nat) : D3D11RenderSystem :=
  { renderContexts_ := ∅, vertexBuffers_ := ∅, indexBuffers_ := ∅, constantBuffers_ := ∅,
    textures_ := ∅, samplers_ := ∅, shaders_ := ∅, shaderPrograms_ := ∅,
    graphicsPipelines_ := ∅, computePipelines_ := ∅, queries_ := ∅,
    featureLevel_ := featureLevel, contextCalls := [] }

/-! ### `D3D11RenderSystem`: create and release (D3D11RenderSystem.cpp lines 57-119,
173-181, 304-380)

In every `Create*` the argument `p` is the address of the object `MakeUnique`
allocates; descriptors and the device only initialise that object and are left
out.  The result is the new state and the pointer returned (`none` is
`nullptr`). -/

/-- Embedding of `D3D11RenderSystem::QueryRenderingCaps` (lines 43-48); `DXGetRenderingCaps`
is not among the sources and is a parameter. -/
def D3D11RenderSystem.QueryRenderingCaps (DXGetRenderingCaps : Nat → RenderingCaps)
    (s : D3D11RenderSystem) : RenderingCaps :=
  DXGetRenderingCaps s.featureLevel_

/-- Embedding of `D3D11RenderSystem::CreateRenderContext` (lines 57-72); `window` is the
shared pointer passed in (`none` when null). -/
def D3D11RenderSystem.CreateRenderContext (s : D3D11RenderSystem) (p : Handle)
    (window : Option Handle) : D3D11RenderSystem × Option Handle :=
  let renderContext := p
  let calls := s.contextCalls ++ [D3D11ContextCall.MakeCurrent renderContext]
  let calls := if window.isNone then calls ++ [D3D11ContextCall.WindowShow renderContext]
    else calls
  let (set, ref) := TakeOwnership s.renderContexts_ renderContext
  ({ s with renderContexts_ := set, contextCalls := calls }, some ref)

/-- Embedding of `D3D11RenderSystem::Release(RenderContext&)` (lines 74-77). -/
def D3D11RenderSystem.ReleaseRenderContext (s : D3D11RenderSystem) (renderContext : Handle) :
    D3D11RenderSystem :=
  { s with renderContexts_ := RemoveFromUniqueSet s.renderContexts_ renderContext }

/-- Embedding of `D3D11RenderSystem::CreateVertexBuffer` (lines 81-84). -/
def D3D11RenderSystem.CreateVertexBuffer (s : D3D11RenderSystem) (p : Handle) :
    D3D11RenderSystem × Option Handle :=
  let (set, ref) := TakeOwnership s.vertexBuffers_ p
  ({ s with vertexBuffers_ := set }, some ref)

/-- Embedding of `D3D11RenderSystem::CreateIndexBuffer` (lines 86-89). -/
def D3D11RenderSystem.CreateIndexBuffer (s : D3D11RenderSystem) (p : Handle) :
    D3D11RenderSystem × Option Handle :=
  let (set, ref) := TakeOwnership s.indexBuffers_ p
  ({ s with indexBuffers_ := set }, some ref)

/-- Embedding of `D3D11RenderSystem::CreateConstantBuffer` (lines 91-94). -/
def D3D11RenderSystem.CreateConstantBuffer (s : D3D11RenderSystem) (p : Handle) :
    D3D11RenderSystem × Option Handle :=
  let (set, ref) := TakeOwnership s.constantBuffers_ p
  ({ s with constantBuffers_ := set }, some ref)

/-- Embedding of `D3D11RenderSystem::CreateStorageBuffer` (lines 96-99): returns `nullptr`. -/
def D3D11RenderSystem.CreateStorageBuffer (s : D3D11RenderSystem) :
    D3D11RenderSystem × Option Handle :=
  (s, none)

/-- Embedding of `D3D11RenderSystem::Release(VertexBuffer&)` (lines 101-104). -/
def D3D11RenderSystem.ReleaseVertexBuffer (s : D3D11RenderSystem) (vertexBuffer : Handle) :
    D3D11RenderSystem :=
  { s with vertexBuffers_ := RemoveFromUniqueSet s.vertexBuffers_ vertexBuffer }

/-- Embedding of `D3D11RenderSystem::Release(IndexBuffer&)` (lines 106-109). -/
def D3D11RenderSystem.ReleaseIndexBuffer (s : D3D11RenderSystem) (indexBuffer : Handle) :
    D3D11RenderSystem :=
  { s with indexBuffers_ := RemoveFromUniqueSet s.indexBuffers_ indexBuffer }

/-- Embedding of `D3D11RenderSystem::Release(ConstantBuffer&)` (lines 111-114). -/
def D3D11RenderSystem.ReleaseConstantBuffer (s : D3D11RenderSystem) (constantBuffer : Handle) :
    D3D11RenderSystem :=
  { s with constantBuffers_ := RemoveFromUniqueSet s.constantBuffers_ constantBuffer }

/-- Embedding of `D3D11RenderSystem::Release(StorageBuffer&)` (lines 116-119): empty body. -/
def D3D11RenderSystem.ReleaseStorageBuffer (s : D3D11RenderSystem) (_storageBuffer : Handle) :
    D3D11RenderSystem :=
  s

/-- Embedding of `D3D11RenderSystem::CreateTexture` (lines 173-176). -/
def D3D11RenderSystem.CreateTexture (s : D3D11RenderSystem) (p : Handle) :
    D3D11RenderSystem × Option Handle :=
  let (set, ref) := TakeOwnership s.textures_ p
  ({ s with textures_ := set }, some ref)

/-- Embedding of `D3D11RenderSystem::Release(Texture&)` (lines 178-181). -/
def D3D11RenderSystem.ReleaseTexture (s : D3D11RenderSystem) (texture : Handle) :
    D3D11RenderSystem :=
  { s with textures_ := RemoveFromUniqueSet s.textures_ texture }

/-- Embedding of `D3D11RenderSystem::CreateSampler` (lines 304-307). -/
def D3D11RenderSystem.CreateSampler (s : D3D11RenderSystem) (p : Handle) :
    D3D11RenderSystem × Option Handle :=
  let (set, ref) := TakeOwnership s.samplers_ p
  ({ s with samplers_ := set }, some ref)

/-- Embedding of `D3D11RenderSystem::Release(Sampler&)` (lines 309-312). -/
def D3D11RenderSystem.ReleaseSampler (s : D3D11RenderSystem) (sampler : Handle) :
    D3D11RenderSystem :=
  { s with samplers_ := RemoveFromUniqueSet s.samplers_ sampler }

/-- Embedding of `D3D11RenderSystem::CreateRenderTarget` (lines 316-319): returns `nullptr`. -/
def D3D11RenderSystem.CreateRenderTarget (s : D3D11RenderSystem) :
    D3D11RenderSystem × Option Handle :=
  (s, none)

/-- Embedding of `D3D11RenderSystem::Release(RenderTarget&)` (lines 321-324): empty body. -/
def D3D11RenderSystem.ReleaseRenderTarget (s : D3D11RenderSystem) (_renderTarget : Handle) :
    D3D11RenderSystem :=
  s

/-- Embedding of `D3D11RenderSystem::CreateShader` (lines 328-331). -/
def D3D11RenderSystem.CreateShader (s : D3D11RenderSystem) (p : Handle) :
    D3D11RenderSystem × Option Handle :=
  let (set, ref) := TakeOwnership s.shaders_ p
  ({ s with shaders_ := set }, some ref)

/-- Embedding of `D3D11RenderSystem::CreateShaderProgram` (lines 333-336). -/
def D3D11RenderSystem.CreateShaderProgram (s : D3D11RenderSystem) (p : Handle) :
    D3D11RenderSystem × Option Handle :=
  let (set, ref) := TakeOwnership s.shaderPrograms_ p
  ({ s with shaderPrograms_ := set }, some ref)

/-- Embedding of `D3D11RenderSystem::Release(Shader&)` (lines 338-341). -/
def D3D11RenderSystem.ReleaseShader (s : D3D11RenderSystem) (shader : Handle) :
    D3D11RenderSystem :=
  { s with shaders_ := RemoveFromUniqueSet s.shaders_ shader }

/-- Embedding of `D3D11RenderSystem::Release(ShaderProgram&)` (lines 343-346). -/
def D3D11RenderSystem.ReleaseShaderProgram (s : D3D11RenderSystem) (shaderProgram : Handle) :
    D3D11RenderSystem :=
  { s with shaderPrograms_ := RemoveFromUniqueSet s.shaderPrograms_ shaderProgram }

/-- Embedding of `D3D11RenderSystem::CreateGraphicsPipeline` (lines 350-353). -/
def D3D11RenderSystem.CreateGraphicsPipeline (s : D3D11RenderSystem) (p : Handle) :
    D3D11RenderSystem × Option Handle :=
  let (set, ref) := TakeOwnership s.graphicsPipelines_ p
  ({ s with graphicsPipelines_ := set }, some ref)

/-- Embedding of `D3D11RenderSystem::CreateComputePipeline` (lines 355-358). -/
def D3D11RenderSystem.CreateComputePipeline (s : D3D11RenderSystem) (p : Handle) :
    D3D11RenderSystem × Option Handle :=
  let (set, ref) := TakeOwnership s.computePipelines_ p
  ({ s with computePipelines_ := set }, some ref)

/-- Embedding of `D3D11RenderSystem::Release(GraphicsPipeline&)` (lines 360-363). -/
def D3D11RenderSystem.ReleaseGraphicsPipeline (s : D3D11RenderSystem)
    (graphicsPipeline : Handle) : D3D11RenderSystem :=
  { s with graphicsPipelines_ := RemoveFromUniqueSet s.graphicsPipelines_ graphicsPipeline }

/-- Embedding of `D3D11RenderSystem::Release(ComputePipeline&)` (lines 365-368). -/
def D3D11RenderSystem.ReleaseComputePipeline (s : D3D11RenderSystem)
    (computePipeline : Handle) : D3D11RenderSystem :=
  { s with computePipelines_ := RemoveFromUniqueSet s.computePipelines_ computePipeline }

/-- Embedding of `D3D11RenderSystem::CreateQuery` (lines 372-375). -/
def D3D11RenderSystem.CreateQuery (s : D3D11RenderSystem) (p : Handle) :
    D3D11RenderSystem × Option Handle :=
  let (set, ref) := TakeOwnership s.queries_ p
  ({ s with queries_ := set }, some ref)

/-- Embedding of `D3D11RenderSystem::Release(Query&)` (lines 377-380). -/
def D3D11RenderSystem.ReleaseQuery (s : D3D11RenderSystem) (query : Handle) :
    D3D11RenderSystem :=
  { s with queries_ := RemoveFromUniqueSet s.queries_ query }

/-! ### `D3D11RenderSystem`: the operations indexed by resource kind -/

/-- The kinds of resources a render system creates and releases. -/
inductive ResourceKind where
  | RenderContext
  | VertexBuffer
  | IndexBuffer
  | ConstantBuffer
  | StorageBuffer
  | Texture
  | Sampler
  | RenderTarget
  | Shader
  | ShaderProgram
  | GraphicsPipeline
  | ComputePipeline
  | Query
  deriving DecidableEq, Repr

/-- The kinds `D3D11RenderSystem` registers on creation. -/
def D3D11RenderSystem.registeredKinds : List ResourceKind :=
  [.RenderContext, .VertexBuffer, .IndexBuffer, .ConstantBuffer, .Texture, .Sampler, .Shader,
   .ShaderProgram, .GraphicsPipeline, .ComputePipeline, .Query]

/-- The registry of a kind (none is in use for storage buffers and render
targets). -/
def D3D11RenderSystem.registry (s : D3D11RenderSystem) : ResourceKind → Finset Handle
  | .RenderContext => s.renderContexts_
  | .VertexBuffer => s.vertexBuffers_
  | .IndexBuffer => s.indexBuffers_
  | .ConstantBuffer => s.constantBuffers_
  | .StorageBuffer => ∅
  | .Texture => s.textures_
  | .Sampler => s.samplers_
  | .RenderTarget => ∅
  | .Shader => s.shaders_
  | .ShaderProgram => s.shaderPrograms_
  | .GraphicsPipeline => s.graphicsPipelines_
  | .ComputePipeline => s.computePipelines_
  | .Query => s.queries_

/-- The `Create*` function of a kind (`window` is used by `CreateRenderContext`
only). -/
def D3D11RenderSystem.Create (s : D3D11RenderSystem) (k : ResourceKind) (p : Handle)
    (window : Option Handle) : D3D11RenderSystem × Option Handle :=
  match k with
  | .RenderContext => s.CreateRenderContext p window
  | .VertexBuffer => s.CreateVertexBuffer p
  | .IndexBuffer => s.CreateIndexBuffer p
  | .ConstantBuffer => s.CreateConstantBuffer p
  | .StorageBuffer => s.CreateStorageBuffer
  | .Texture => s.CreateTexture p
  | .Sampler => s.CreateSampler p
  | .RenderTarget => s.CreateRenderTarget
  | .Shader => s.CreateShader p
  | .ShaderProgram => s.CreateShaderProgram p
  | .GraphicsPipeline => s.CreateGraphicsPipeline p
  | .ComputePipeline => s.CreateComputePipeline p
  | .Query => s.CreateQuery p

/-- The `Release` overload of a kind. -/
def D3D11RenderSystem.Release (s : D3D11RenderSystem) (k : ResourceKind) (h : Handle) :
    D3D11RenderSystem :=
  match k with
  | .RenderContext => s.ReleaseRenderContext h
  | .VertexBuffer => s.ReleaseVertexBuffer h
  | .IndexBuffer => s.ReleaseIndexBuffer h
  | .ConstantBuffer => s.ReleaseConstantBuffer h
  | .StorageBuffer => s.ReleaseStorageBuffer h
  | .Texture => s.ReleaseTexture h
  | .Sampler => s.ReleaseSampler h
  | .RenderTarget => s.ReleaseRenderTarget h
  | .Shader => s.ReleaseShader h
  | .ShaderProgram => s.ReleaseShaderProgram h
  | .GraphicsPipeline => s.ReleaseGraphicsPipeline h
  | .ComputePipeline => s.ReleaseComputePipeline h
  | .Query => s.ReleaseQuery h

/-- Create one resource of kind `k` at each address of the list, in order;
the result is the final state and the non-null handles returned, in order. -/
def D3D11RenderSystem.createAll (k : ResourceKind) (window : Option Handle) :
    D3D11RenderSystem → List Handle → D3D11RenderSystem × List Handle
  | s, [] => (s, [])
  | s, p :: ps =>
      let created := s.Create k p window
      let others := D3D11RenderSystem.createAll k window created.1 ps
      (others.1, created.2.toList ++ others.2)

/-- Release the handles of the list, in order, as resources of kind `k`. -/
def D3D11RenderSystem.releaseAll (k : ResourceKind) :
    D3D11RenderSystem → List Handle → D3D11RenderSystem
  | s, [] => s
  | s, h :: hs => D3D11RenderSystem.releaseAll k (s.Release k h) hs

/-! ## Debug layer: registries (DbgRenderSystem.cpp lines 57-114, 235-243,
442-460, 533-541, 593-599)

The debug layer is modelled over the Direct3D 11 render system, the one
backend render system among the sources. -/

/-- Embedding of the member `renderer_` of `DbgRenderSystem`: the flags that
`DetermineRenderer` sets. -/
structure Renderer where
  isOpenGL : Bool
  isDirect3D : Bool
  isVulkan : Bool
  deriving DecidableEq, Repr

/-- Embedding of the lambda `CompareSubStr` of `DetermineRenderer` (lines
550-553): `lhs.size() >= rhs.size() && lhs.substr(0, rhs.size()) == rhs`.  A
`std::string` is the list of its characters. -/
def CompareSubStr (lhs rhs : String) : Bool :=
  decide (lhs.data.length ≥ rhs.data.length) && decide (lhs.data.take rhs.data.length = rhs.data)

/-- Embedding of `DbgRenderSystem::DetermineRenderer` (lines 548-562), on the
member `renderer_`. -/
def DetermineRenderer (renderer_ : Renderer) (rendererName : String) : Renderer :=
  if CompareSubStr rendererName "OpenGL" then
    { renderer_ with isOpenGL := true }
  else if CompareSubStr rendererName "Direct3D" then
    { renderer_ with isDirect3D := true }
  else if CompareSubStr rendererName "Vulkan" then
    { renderer_ with isVulkan := true }
  else
    renderer_

/-- Embedding of `DbgRenderSystem`: the wrapped render system `instance_`, the rendering
capabilities `caps_`, the registries of debug objects, and for the debug
object at each address the address of the object it wraps (its member
`instance`). -/
structure DbgRenderSystem where
  instance_ : D3D11RenderSystem
  caps_ : RenderingCaps
  renderer_ : Renderer
  renderContexts_ : Finset Handle
  vertexBuffers_ : Finset Handle
  indexBuffers_ : Finset Handle
  constantBuffers_ : Finset Handle
  storageBuffers_ : Finset Handle
  textures_ : Finset Handle
  shaders_ : Finset Handle
  shaderPrograms_ : Finset Handle
  graphicsPipelines_ : Finset Handle
  queries_ : Finset Handle
  instanceOf : Handle → Handle

/-- A `DbgRenderSystem` around `instance` as its members are initialised,
before the constructor body runs: every registry of debug objects is empty, no
renderer flag is set. -/
def DbgRenderSystem.init (inst : D3D11RenderSystem) : DbgRenderSystem :=
  { instance_ := inst, caps_ := { hasConservativeRasterization := false },
    renderer_ := { isOpenGL := false, isDirect3D := false, isVulkan := false },
    renderContexts_ := ∅, vertexBuffers_ := ∅, indexBuffers_ := ∅, constantBuffers_ := ∅,
    storageBuffers_ := ∅, textures_ := ∅, shaders_ := ∅, shaderPrograms_ := ∅,
    graphicsPipelines_ := ∅, queries_ := ∅, instanceOf := fun _ => 0 }

/-- Embedding of `DbgRenderSystem::CreateRenderContext` (lines 57-66).  `pDbg` is the
address of the `DbgRenderContext` that `MakeUnique` allocates, `pInstance` the
address of the context the wrapped render system allocates.  The result is
`none` when the pointer returned by the wrapped render system is null, which
the function dereferences. -/
def DbgRenderSystem.CreateRenderContext (DXGetRenderingCaps : Nat → RenderingCaps)
    (s : DbgRenderSystem) (pInstance pDbg : Handle) (window : Option Handle) :
    Option (DbgRenderSystem × Handle) :=
  match s.instance_.CreateRenderContext pInstance window with
  | (inst, some renderContextInstance) =>
      let caps := inst.QueryRenderingCaps DXGetRenderingCaps
      let (set, ref) := TakeOwnership s.renderContexts_ pDbg
      some ({ s with
                instance_ := inst
                caps_ := caps
                renderContexts_ := set
                instanceOf := Function.update s.instanceOf pDbg renderContextInstance },
            ref)
  | (_, none) => none

/-- Embedding of `DbgRenderSystem::Release(RenderContext&)` (lines 68-72): the reference
received is passed to the wrapped render system as it is. -/
def DbgRenderSystem.ReleaseRenderContext (s : DbgRenderSystem) (renderContext : Handle) :
    DbgRenderSystem :=
  { s with
      instance_ := s.instance_.ReleaseRenderContext renderContext
      renderContexts_ := RemoveFromUniqueSet s.renderContexts_ renderContext }

/-- Embedding of `DbgRenderSystem::ReleaseDbg` (lines 593-599), for the registry `cont` and
the `Release` overload of the wrapped render system that the type of
`entryDbg.instance` selects: the wrapped render system as the call leaves it,
and the registry as the call leaves it. -/
def DbgRenderSystem.ReleaseDbg (s : DbgRenderSystem) (cont : Finset Handle)
    (instanceRelease : D3D11RenderSystem → Handle → D3D11RenderSystem) (entry : Handle) :
    D3D11RenderSystem × Finset Handle :=
  let entryDbgInstance := s.instanceOf entry
  (instanceRelease s.instance_ entryDbgInstance, RemoveFromUniqueSet cont entry)

/-- Embedding of `DbgRenderSystem::CreateVertexBuffer` (lines 76-79); `none` when the
wrapped render system returns a null pointer, which the function dereferences. -/
def DbgRenderSystem.CreateVertexBuffer (s : DbgRenderSystem) (pInstance pDbg : Handle) :
    Option (DbgRenderSystem × Handle) :=
  match s.instance_.CreateVertexBuffer pInstance with
  | (inst, some wrapped) =>
      let (set, ref) := TakeOwnership s.vertexBuffers_ pDbg
      some ({ s with
                instance_ := inst
                vertexBuffers_ := set
                instanceOf := Function.update s.instanceOf pDbg wrapped },
            ref)
  | (_, none) => none

/-- Embedding of `DbgRenderSystem::CreateIndexBuffer` (lines 81-84). -/
def DbgRenderSystem.CreateIndexBuffer (s : DbgRenderSystem) (pInstance pDbg : Handle) :
    Option (DbgRenderSystem × Handle) :=
  match s.instance_.CreateIndexBuffer pInstance with
  | (inst, some wrapped) =>
      let (set, ref) := TakeOwnership s.indexBuffers_ pDbg
      some ({ s with
                instance_ := inst
                indexBuffers_ := set
                instanceOf := Function.update s.instanceOf pDbg wrapped },
            ref)
  | (_, none) => none

/-- Embedding of `DbgRenderSystem::CreateConstantBuffer` (lines 86-89). -/
def DbgRenderSystem.CreateConstantBuffer (s : DbgRenderSystem) (pInstance pDbg : Handle) :
    Option (DbgRenderSystem × Handle) :=
  match s.instance_.CreateConstantBuffer pInstance with
  | (inst, some wrapped) =>
      let (set, ref) := TakeOwnership s.constantBuffers_ pDbg
      some ({ s with
                instance_ := inst
                constantBuffers_ := set
                instanceOf := Function.update s.instanceOf pDbg wrapped },
            ref)
  | (_, none) => none

/-- Embedding of `DbgRenderSystem::CreateStorageBuffer` (lines 91-94). -/
def DbgRenderSystem.CreateStorageBuffer (s : DbgRenderSystem) (pDbg : Handle) :
    Option (DbgRenderSystem × Handle) :=
  match s.instance_.CreateStorageBuffer with
  | (inst, some wrapped) =>
      let (set, ref) := TakeOwnership s.storageBuffers_ pDbg
      some ({ s with
                instance_ := inst
                storageBuffers_ := set
                instanceOf := Function.update s.instanceOf pDbg wrapped },
            ref)
  | (_, none) => none

/-- Embedding of `DbgRenderSystem::Release(VertexBuffer&)` (lines 96-99). -/
def DbgRenderSystem.ReleaseVertexBuffer (s : DbgRenderSystem) (vertexBuffer : Handle) :
    DbgRenderSystem :=
  let released := s.ReleaseDbg s.vertexBuffers_ D3D11RenderSystem.ReleaseVertexBuffer
    vertexBuffer
  { s with instance_ := released.1, vertexBuffers_ := released.2 }

/-- Embedding of `DbgRenderSystem::Release(IndexBuffer&)` (lines 101-104). -/
def DbgRenderSystem.ReleaseIndexBuffer (s : DbgRenderSystem) (indexBuffer : Handle) :
    DbgRenderSystem :=
  let released := s.ReleaseDbg s.indexBuffers_ D3D11RenderSystem.ReleaseIndexBuffer indexBuffer
  { s with instance_ := released.1, indexBuffers_ := released.2 }

/-- Embedding of `DbgRenderSystem::Release(ConstantBuffer&)` (lines 106-109). -/
def DbgRenderSystem.ReleaseConstantBuffer (s : DbgRenderSystem) (constantBuffer : Handle) :
    DbgRenderSystem :=
  let released := s.ReleaseDbg s.constantBuffers_ D3D11RenderSystem.ReleaseConstantBuffer
    constantBuffer
  { s with instance_ := released.1, constantBuffers_ := released.2 }

/-- Embedding of `DbgRenderSystem::Release(StorageBuffer&)` (lines 111-114). -/
def DbgRenderSystem.ReleaseStorageBuffer (s : DbgRenderSystem) (storageBuffer : Handle) :
    DbgRenderSystem :=
  let released := s.ReleaseDbg s.storageBuffers_ D3D11RenderSystem.ReleaseStorageBuffer
    storageBuffer
  { s with instance_ := released.1, storageBuffers_ := released.2 }

/-- Embedding of `DbgRenderSystem::CreateTexture` (lines 235-238). -/
def DbgRenderSystem.CreateTexture (s : DbgRenderSystem) (pInstance pDbg : Handle) :
    Option (DbgRenderSystem × Handle) :=
  match s.instance_.CreateTexture pInstance with
  | (inst, some wrapped) =>
      let (set, ref) := TakeOwnership s.textures_ pDbg
      some ({ s with
                instance_ := inst
                textures_ := set
                instanceOf := Function.update s.instanceOf pDbg wrapped },
            ref)
  | (_, none) => none

/-- Embedding of `DbgRenderSystem::Release(Texture&)` (lines 240-243). -/
def DbgRenderSystem.ReleaseTexture (s : DbgRenderSystem) (texture : Handle) : DbgRenderSystem :=
  let released := s.ReleaseDbg s.textures_ D3D11RenderSystem.ReleaseTexture texture
  { s with instance_ := released.1, textures_ := released.2 }

/-- Embedding of `DbgRenderSystem::CreateShader` (lines 442-445). -/
def DbgRenderSystem.CreateShader (s : DbgRenderSystem) (pInstance pDbg : Handle) :
    Option (DbgRenderSystem × Handle) :=
  match s.instance_.CreateShader pInstance with
  | (inst, some wrapped) =>
      let (set, ref) := TakeOwnership s.shaders_ pDbg
      some ({ s with
                instance_ := inst
                shaders_ := set
                instanceOf := Function.update s.instanceOf pDbg wrapped },
            ref)
  | (_, none) => none

/-- Embedding of `DbgRenderSystem::CreateShaderProgram` (lines 447-450). -/
def DbgRenderSystem.CreateShaderProgram (s : DbgRenderSystem) (pInstance pDbg : Handle) :
    Option (DbgRenderSystem × Handle) :=
  match s.instance_.CreateShaderProgram pInstance with
  | (inst, some wrapped) =>
      let (set, ref) := TakeOwnership s.shaderPrograms_ pDbg
      some ({ s with
                instance_ := inst
                shaderPrograms_ := set
                instanceOf := Function.update s.instanceOf pDbg wrapped },
            ref)
  | (_, none) => none

/-- Embedding of `DbgRenderSystem::Release(Shader&)` (lines 452-455). -/
def DbgRenderSystem.ReleaseShader (s : DbgRenderSystem) (shader : Handle) : DbgRenderSystem :=
  let released := s.ReleaseDbg s.shaders_ D3D11RenderSystem.ReleaseShader shader
  { s with instance_ := released.1, shaders_ := released.2 }

/-- Embedding of `DbgRenderSystem::Release(ShaderProgram&)` (lines 457-460). -/
def DbgRenderSystem.ReleaseShaderProgram (s : DbgRenderSystem) (shaderProgram : Handle) :
    DbgRenderSystem :=
  let released := s.ReleaseDbg s.shaderPrograms_ D3D11RenderSystem.ReleaseShaderProgram
    shaderProgram
  { s with instance_ := released.1, shaderPrograms_ := released.2 }

/-- Embedding of `DbgRenderSystem::Release(GraphicsPipeline&)` (lines 520-523). -/
def DbgRenderSystem.ReleaseGraphicsPipeline (s : DbgRenderSystem) (graphicsPipeline : Handle) :
    DbgRenderSystem :=
  let released := s.ReleaseDbg s.graphicsPipelines_ D3D11RenderSystem.ReleaseGraphicsPipeline
    graphicsPipeline
  { s with instance_ := released.1, graphicsPipelines_ := released.2 }

/-- Embedding of `DbgRenderSystem::CreateQuery` (lines 533-536). -/
def DbgRenderSystem.CreateQuery (s : DbgRenderSystem) (pInstance pDbg : Handle) :
    Option (DbgRenderSystem × Handle) :=
  match s.instance_.CreateQuery pInstance with
  | (inst, some wrapped) =>
      let (set, ref) := TakeOwnership s.queries_ pDbg
      some ({ s with
                instance_ := inst
                queries_ := set
                instanceOf := Function.update s.instanceOf pDbg wrapped },
            ref)
  | (_, none) => none

/-- Embedding of `DbgRenderSystem::Release(Query&)` (lines 538-541). -/
def DbgRenderSystem.ReleaseQuery (s : DbgRenderSystem) (query : Handle) : DbgRenderSystem :=
  let released := s.ReleaseDbg s.queries_ D3D11RenderSystem.ReleaseQuery query
  { s with instance_ := released.1, queries_ := released.2 }

/-! ## Direct3D 11: device creation (D3D11RenderSystem.cpp lines 21-28, 400-443) -/

/-- Embedding of `D3D_DRIVER_TYPE`: the driver types `CreateDevice` tries. -/
inductive D3D_DRIVER_TYPE where
  | D3D_DRIVER_TYPE_HARDWARE
  | D3D_DRIVER_TYPE_WARP
  | D3D_DRIVER_TYPE_SOFTWARE
  deriving DecidableEq, Repr

/-- Embedding of `HRESULT`, a signed 32-bit result code. -/
abbrev HRESULT := Int

/-- Windows SDK macro `SUCCEEDED(hr)`: the code is not negative. -/
def SUCCEEDED (hr : HRESULT) : Bool := decide (hr ≥ 0)

/-- Windows SDK macro `FAILED(hr)`: the code is negative. -/
def FAILED (hr : HRESULT) : Bool := decide (hr < 0)

/-- Windows SDK value of `E_FAIL` (0x80004005 as a signed 32-bit integer). -/
def E_FAIL : HRESULT := -2147467259

/-- The members of `D3D11RenderSystem` that `D3D11CreateDevice` writes through
its output arguments: `device_`, `featureLevel_`, `context_` (a null COM
pointer is `none`). -/
structure D3D11DeviceMembers where
  device_ : Option Handle
  featureLevel_ : Nat
  context_ : Option Handle
  deriving DecidableEq, Repr

/-- The native `D3D11CreateDevice`, with every argument but the driver type
fixed as `CreateDevice` passes them: from the driver type and the members its
output arguments point to, the result code and the members after the call. -/
abbrev NativeCreateDevice := D3D_DRIVER_TYPE → D3D11DeviceMembers → HRESULT × D3D11DeviceMembers

/-- Modelled from the spec: `DXThrowIfFailed` comes from `DXCommon/DXCore.h`,
which is not among the sources.  Section 7 (a): a failed device or context
creation is surfaced by throwing; the exception carries the text `info`. -/
def DXThrowIfFailed (hr : HRESULT) (info : String) : Except String Unit :=
  if FAILED hr then Except.error info else Except.ok ()

/-- The range-based `for` loop of `D3D11RenderSystem::CreateDevice` (lines
423-440) over the driver types still to try.  The variable `hr` declared by
`auto hr = D3D11CreateDevice(...)` lives inside the loop body.  The result is
the members after the loop and the driver types attempted, in order. -/
def D3D11RenderSystem.CreateDevice.loop (native : NativeCreateDevice) :
    List D3D_DRIVER_TYPE → D3D11DeviceMembers → List D3D_DRIVER_TYPE →
      D3D11DeviceMembers × List D3D_DRIVER_TYPE
  | [], members, attempts => (members, attempts)
  | driver :: rest, members, attempts =>
      let hr := (native driver members).1
      let members := (native driver members).2
      if SUCCEEDED hr then
        (members, attempts ++ [driver])
      else
        D3D11RenderSystem.CreateDevice.loop native rest members (attempts ++ [driver])

/-- Embedding of `D3D11RenderSystem::CreateDevice` (lines 412-443): the driver
types attempted, and either the members after the call or the exception
thrown.  The `hr` tested after the loop is the one declared before it,
`HRESULT hr = 0`. -/
def D3D11RenderSystem.CreateDevice (native : NativeCreateDevice)
    (members : D3D11DeviceMembers) : List D3D_DRIVER_TYPE × Except String D3D11DeviceMembers :=
  let hr : HRESULT := 0
  let looped := D3D11RenderSystem.CreateDevice.loop native
    [D3D_DRIVER_TYPE.D3D_DRIVER_TYPE_HARDWARE, D3D_DRIVER_TYPE.D3D_DRIVER_TYPE_WARP,
     D3D_DRIVER_TYPE.D3D_DRIVER_TYPE_SOFTWARE] members []
  match DXThrowIfFailed hr "failed to create D3D11 device" with
  | Except.error e => (looped.2, Except.error e)
  | Except.ok _ => (looped.2, Except.ok looped.1)

/-- Embedding of `D3D11RenderSystem::CreateFactory` (lines 400-405);
`factoryResult` is the result code of the native `CreateDXGIFactory`. -/
def D3D11RenderSystem.CreateFactory (factoryResult : HRESULT) : Except String Unit :=
  DXThrowIfFailed factoryResult "failed to create DXGI factor"

/-- Embedding of the constructor `D3D11RenderSystem::D3D11RenderSystem` (lines
21-28): `CreateFactory`, `CreateDevice(nullptr)`, `InitStateManager`.
`members` are the device members as default-initialised.  The result is the
exception that ends the construction, or the render system constructed, with
its device members. -/
def D3D11RenderSystem.construct (factoryResult : HRESULT) (native : NativeCreateDevice)
    (members : D3D11DeviceMembers) : Except String (D3D11RenderSystem × D3D11DeviceMembers) :=
  match D3D11RenderSystem.CreateFactory factoryResult with
  | Except.error e => Except.error e
  | Except.ok _ =>
      match (D3D11RenderSystem.CreateDevice native members).2 with
      | Except.error e => Except.error e
      | Except.ok created =>
          Except.ok (D3D11RenderSystem.init created.featureLevel_, created)

/-- A native device creation that fails with `E_FAIL` for the hardware and the
WARP driver and succeeds for the software driver, giving device 500, feature
level 11 and context 600. -/
def onlySoftwareSucceeds : NativeCreateDevice := fun driver members =>
  match driver with
  | D3D_DRIVER_TYPE.D3D_DRIVER_TYPE_SOFTWARE =>
      (0, { device_ := some 500, featureLevel_ := 11, context_ := some 600 })
  | _ => (E_FAIL, { members with device_ := none, context_ := none })

/-- A native device creation that fails with `E_FAIL` for every driver type
and leaves the device and the context null. -/
def everyDriverFails : NativeCreateDevice := fun _ members =>
  (E_FAIL, { members with device_ := none, context_ := none })

/-! ## Debug layer: buffer setup (DbgRenderSystem.cpp lines 116-171)

The result is `none` when the call divides by zero (a format whose
`GetFormatSize()` is 0), which C++ leaves undefined. -/

/-- Embedding of `DbgRenderSystem::SetupVertexBuffer` (lines 116-130). -/
def DbgRenderSystem.SetupVertexBuffer (vertexBuffer : DbgVertexBuffer) (data : DataPtr)
    (dataSize : Nat) (usage : BufferUsage) (vertexFormat : VertexFormat) :
    Option (DbgVertexBuffer × List DbgEvent) :=
  if vertexFormat.GetFormatSize = 0 then
    none
  else
    let warned :=
      if dataSize % vertexFormat.GetFormatSize ≠ 0 then
        [DbgEvent.warning WarningType.ImproperArgument
          ("improper buffer size with vertex format of " ++
            toString vertexFormat.GetFormatSize ++ " bytes") "SetupVertexBuffer"]
      else
        []
    let vertexBufferDbg := vertexBuffer
    some ({ vertexBufferDbg with
              format := vertexFormat
              size := dataSize
              elements := dataSize / vertexFormat.GetFormatSize
              initialized := true },
          warned ++ [DbgEvent.instanceCall
            (InstanceCall.SetupVertexBuffer vertexBufferDbg.instanceRef data dataSize usage
              vertexFormat)])

/-- Embedding of `DbgRenderSystem::SetupIndexBuffer` (lines 132-145). -/
def DbgRenderSystem.SetupIndexBuffer (indexBuffer : DbgIndexBuffer) (data : DataPtr)
    (dataSize : Nat) (usage : BufferUsage) (indexFormat : IndexFormat) :
    Option (DbgIndexBuffer × List DbgEvent) :=
  if indexFormat.GetFormatSize = 0 then
    none
  else
    let warned :=
      if dataSize % indexFormat.GetFormatSize ≠ 0 then
        [DbgEvent.warning WarningType.ImproperArgument
          ("improper buffer size with index format of " ++
            toString indexFormat.GetFormatSize ++ " bytes") "SetupIndexBuffer"]
      else
        []
    let indexBufferDbg := indexBuffer
    some ({ indexBufferDbg with
              size := dataSize
              elements := dataSize / indexFormat.GetFormatSize
              initialized := true },
          warned ++ [DbgEvent.instanceCall
            (InstanceCall.SetupIndexBuffer indexBufferDbg.instanceRef data dataSize usage
              indexFormat)])

/-- Embedding of `DbgRenderSystem::SetupConstantBuffer` (lines 147-160). -/
def DbgRenderSystem.SetupConstantBuffer (constantBuffer : DbgConstantBuffer) (data : DataPtr)
    (dataSize : Nat) (usage : BufferUsage) : DbgConstantBuffer × List DbgEvent :=
  let packAlignment := 16
  let warned :=
    if dataSize % packAlignment ≠ 0 then
      [DbgEvent.warning WarningType.ImproperArgument "buffer size is out of pack alignment"
        "SetupConstantBuffer"]
    else
      []
  let constantBufferDbg := constantBuffer
  ({ constantBufferDbg with size := dataSize, initialized := true },
    warned ++ [DbgEvent.instanceCall
      (InstanceCall.SetupConstantBuffer constantBufferDbg.instanceRef data dataSize usage)])

/-- Embedding of `DbgRenderSystem::SetupStorageBuffer` (lines 162-171). -/
def DbgRenderSystem.SetupStorageBuffer (storageBuffer : DbgStorageBuffer) (data : DataPtr)
    (dataSize : Nat) (usage : BufferUsage) : DbgStorageBuffer × List DbgEvent :=
  let storageBufferDbg := storageBuffer
  ({ storageBufferDbg with size := dataSize, initialized := true },
    [DbgEvent.instanceCall
      (InstanceCall.SetupStorageBuffer storageBufferDbg.instanceRef data dataSize usage)])

/-! ## Debug layer: construction and pipeline creation (DbgRenderSystem.cpp
lines 27-34, 464-518) -/

/-- Embedding of the constructor `DbgRenderSystem::DbgRenderSystem` (lines
27-34); `rendererName` is what `instance_->GetName()` returns. -/
def DbgRenderSystem.construct (rendererName : String) (inst : D3D11RenderSystem) :
    DbgRenderSystem :=
  let s := DbgRenderSystem.init inst
  { s with renderer_ := DetermineRenderer s.renderer_ rendererName }

/-- Embedding of `DbgRenderSystem::CreateGraphicsPipeline` (lines 464-500).
`pInstance` is the address of the pipeline the wrapped render system
allocates, `pDbg` the address of the `DbgGraphicsPipeline`.  The result is the
events of the call and, unless a null pointer returned by the wrapped render
system is dereferenced (`none`), the debug layer after the call with the
pointer returned (`none` is `nullptr`). -/
def DbgRenderSystem.CreateGraphicsPipeline (s : DbgRenderSystem)
    (desc : GraphicsPipelineDescriptor) (pInstance pDbg : Handle) :
    List DbgEvent × Option (DbgRenderSystem × Option Handle) :=
  let conservative :=
    if desc.rasterizer.conservativeRasterization && !s.caps_.hasConservativeRasterization then
      [DbgEvent.errorNotSupported "conservative rasterization" "CreateGraphicsPipeline"]
    else
      []
  let blendTargets :=
    if desc.blend.targets.length > 8 then
      [DbgEvent.error ErrorType.InvalidArgument "too many blend state targets (limit is 8)"
        "CreateGraphicsPipeline"]
    else
      []
  let topology :=
    if s.renderer_.isDirect3D then
      match desc.primitiveTopology with
      | PrimitiveTopology.LineLoop =>
          [DbgEvent.error ErrorType.InvalidArgument
            "renderer does not support primitive topology line loop" "CreateGraphicsPipeline"]
      | PrimitiveTopology.TriangleFan =>
          [DbgEvent.error ErrorType.InvalidArgument
            "renderer does not support primitive topology triangle fan" "CreateGraphicsPipeline"]
      | _ => []
    else
      []
  match desc.shaderProgram with
  | some shaderProgram =>
      let instanceDesc := { desc with shaderProgram := some (s.instanceOf shaderProgram) }
      let called := conservative ++ blendTargets ++ topology ++
        [DbgEvent.instanceCall (InstanceCall.CreateGraphicsPipeline instanceDesc)]
      match s.instance_.CreateGraphicsPipeline pInstance with
      | (inst, some wrapped) =>
          let (set, ref) := TakeOwnership s.graphicsPipelines_ pDbg
          (called,
            some ({ s with
                      instance_ := inst
                      graphicsPipelines_ := set
                      instanceOf := Function.update s.instanceOf pDbg wrapped },
                  some ref))
      | (_, none) => (called, none)
  | none =>
      (conservative ++ blendTargets ++ topology ++
        [DbgEvent.error ErrorType.InvalidArgument "shader program must not be null"
          "CreateGraphicsPipeline"],
       some (s, none))

/-- Embedding of `DbgRenderSystem::CreateComputePipeline` (lines 502-518).
`pInstance` is the address of the pipeline the wrapped render system
allocates; its pointer is returned as it is.  The result is the events of the
call, the debug layer after the call and the pointer returned. -/
def DbgRenderSystem.CreateComputePipeline (s : DbgRenderSystem)
    (desc : ComputePipelineDescriptor) (pInstance : Handle) :
    List DbgEvent × Option (DbgRenderSystem × Option Handle) :=
  match desc.shaderProgram with
  | some shaderProgram =>
      let instanceDesc := { desc with shaderProgram := some (s.instanceOf shaderProgram) }
      let created := s.instance_.CreateComputePipeline pInstance
      ([DbgEvent.instanceCall (InstanceCall.CreateComputePipeline instanceDesc)],
        some ({ s with instance_ := created.1 }, created.2))
  | none =>
      ([DbgEvent.error ErrorType.InvalidArgument "shader program must not be null"
          "CreateComputePipeline"],
       some (s, none))

/-! ## Vulkan: image creation (VKTexture.cpp lines 105-113, 124-178, 198-250) -/

/-- The declarations of the texture headers that `VKTexture.cpp` uses and that
are not among the sources, taken as parameters: the predicates
`IsMultiSampleTexture` and `IsDepthStencilFormat`, and the values of the flags
`TextureFlags::GenerateMips` and `TextureFlags::AttachmentUsage`. -/
structure TextureDeclarations where
  IsMultiSampleTexture : TextureType → Bool
  IsDepthStencilFormat : TextureFormat → Bool
  GenerateMips : Nat
  AttachmentUsage : Nat

/-- An instance of the parameters: the multi-sampled types are `Texture2DMS`
and `Texture2DMSArray`, format 1 is the depth-stencil format, `GenerateMips`
is bit 0 and `AttachmentUsage` bit 1. -/
def TextureDeclarations.sample : TextureDeclarations :=
  { IsMultiSampleTexture := fun type =>
      type = TextureType.Texture2DMS || type = TextureType.Texture2DMSArray
    IsDepthStencilFormat := fun format => format = 1
    GenerateMips := 1
    AttachmentUsage := 2 }

/-- Modelled from the spec: `NumMipLevels` is declared in a header that is not
among the sources.  Section 4.2: when mip generation is requested the
mip-level count is the ceiling of log2(max(width, height, depth)), plus 1. -/
def NumMipLevels (width height depth : Nat) : Nat :=
  Nat.clog 2 (max width (max height depth)) + 1

/-- Embedding of `VkExtent3D`. -/
structure VkExtent3D where
  width : Nat
  height : Nat
  depth : Nat
  deriving DecidableEq, Repr

/-- Vulkan SDK value of `VK_IMAGE_CREATE_CUBE_COMPATIBLE_BIT`. -/
def VK_IMAGE_CREATE_CUBE_COMPATIBLE_BIT : Nat := 0x10

/-- Vulkan SDK value of `VK_SAMPLE_COUNT_1_BIT`. -/
def VK_SAMPLE_COUNT_1_BIT : Nat := 0x1

/-- Vulkan SDK value of `VK_IMAGE_USAGE_TRANSFER_SRC_BIT`. -/
def VK_IMAGE_USAGE_TRANSFER_SRC_BIT : Nat := 0x1

/-- Vulkan SDK value of `VK_IMAGE_USAGE_TRANSFER_DST_BIT`. -/
def VK_IMAGE_USAGE_TRANSFER_DST_BIT : Nat := 0x2

/-- Vulkan SDK value of `VK_IMAGE_USAGE_SAMPLED_BIT`. -/
def VK_IMAGE_USAGE_SAMPLED_BIT : Nat := 0x4

/-- Vulkan SDK value of `VK_IMAGE_USAGE_COLOR_ATTACHMENT_BIT`. -/
def VK_IMAGE_USAGE_COLOR_ATTACHMENT_BIT : Nat := 0x10

/-- Vulkan SDK value of `VK_IMAGE_USAGE_DEPTH_STENCIL_ATTACHMENT_BIT`. -/
def VK_IMAGE_USAGE_DEPTH_STENCIL_ATTACHMENT_BIT : Nat := 0x20

/-- Embedding of `GetVkImageCreateFlags` (VKTexture.cpp lines 105-113). -/
def GetVkImageCreateFlags (desc : TextureDescriptor) : Nat :=
  let flags := 0
  if IsCubeTexture desc.type then
    flags ||| VK_IMAGE_CREATE_CUBE_COMPATIBLE_BIT
  else
    flags

/-- Embedding of `GetVkImageExtent3D` (VKTexture.cpp lines 124-165); the image
type is one of the three that `GetVkImageType` returns. -/
def GetVkImageExtent3D (desc : TextureDescriptor) (imageType : VkImageType) : VkExtent3D :=
  match imageType with
  | .VK_IMAGE_TYPE_1D =>
      { width := max 1 desc.texture1D.width, height := 1, depth := 1 }
  | .VK_IMAGE_TYPE_2D =>
      if IsCubeTexture desc.type then
        let width := max 1 (max desc.textureCube.width desc.textureCube.height)
        { width := width, height := width, depth := 1 }
      else
        { width := max 1 desc.texture2D.width, height := max 1 desc.texture2D.height,
          depth := 1 }
  | .VK_IMAGE_TYPE_3D =>
      { width := max 1 desc.texture3D.width, height := max 1 desc.texture3D.height,
        depth := max 1 desc.texture3D.depth }

/-- Embedding of `HasTextureMipMaps` (VKTexture.cpp lines 167-170). -/
def HasTextureMipMaps (decls : TextureDeclarations) (desc : TextureDescriptor) : Bool :=
  !decls.IsMultiSampleTexture desc.type && (desc.flags &&& decls.GenerateMips) != 0

/-- Embedding of `GetVkImageMipLevels` (VKTexture.cpp lines 172-178). -/
def GetVkImageMipLevels (decls : TextureDeclarations) (desc : TextureDescriptor)
    (extent : VkExtent3D) : Nat :=
  if HasTextureMipMaps decls desc then
    NumMipLevels extent.width extent.height extent.depth
  else
    1

/-- Embedding of `GetVkImageSampleCountFlags` (VKTexture.cpp lines 198-207). -/
def GetVkImageSampleCountFlags (_decls : TextureDeclarations) (_desc : TextureDescriptor) :
    Nat :=
  VK_SAMPLE_COUNT_1_BIT

/-- Embedding of `GetVkImageUsageFlags` (VKTexture.cpp lines 209-227). -/
def GetVkImageUsageFlags (decls : TextureDeclarations) (desc : TextureDescriptor) : Nat :=
  let flags := VK_IMAGE_USAGE_TRANSFER_DST_BIT ||| VK_IMAGE_USAGE_SAMPLED_BIT
  let flags :=
    if HasTextureMipMaps decls desc then flags ||| VK_IMAGE_USAGE_TRANSFER_SRC_BIT else flags
  if (desc.flags &&& decls.AttachmentUsage) ≠ 0 then
    if decls.IsDepthStencilFormat desc.format then
      flags ||| VK_IMAGE_USAGE_DEPTH_STENCIL_ATTACHMENT_BIT
    else
      flags ||| VK_IMAGE_USAGE_COLOR_ATTACHMENT_BIT
  else
    flags

/-- The members of `VKTexture` that `CreateImage` sets. -/
structure VKTextureImage where
  extent_ : VkExtent3D
  numMipLevels_ : Nat
  numArrayLayers_ : Nat
  deriving DecidableEq, Repr

/-- The arguments of the call `imageWrapper_.CreateVkImage(...)` (after the
device). -/
structure CreateVkImageCall where
  imageType : VkImageType
  format : Nat
  extent : VkExtent3D
  numMipLevels : Nat
  numArrayLayers : Nat
  createFlags : Nat
  samplesFlags : Nat
  usageFlags : Nat
  deriving DecidableEq, Repr

/-- Embedding of `VKTexture::CreateImage` (VKTexture.cpp lines 229-250);
`format_` is the member set by the constructor.  The result is the members the
function sets and the image-creation call it makes. -/
def VKTexture.CreateImage (decls : TextureDeclarations) (format_ : Nat)
    (desc : TextureDescriptor) : VKTextureImage × CreateVkImageCall :=
  let imageType := GetVkImageType desc.type
  let extent_ := GetVkImageExtent3D desc imageType
  let numMipLevels_ := GetVkImageMipLevels decls desc extent_
  let numArrayLayers_ := GetVkImageArrayLayers desc imageType
  ({ extent_ := extent_, numMipLevels_ := numMipLevels_, numArrayLayers_ := numArrayLayers_ },
   { imageType := imageType
     format := format_
     extent := extent_
     numMipLevels := numMipLevels_
     numArrayLayers := numArrayLayers_
     createFlags := GetVkImageCreateFlags desc
     samplesFlags := GetVkImageSampleCountFlags decls desc
     usageFlags := GetVkImageUsageFlags decls desc })

/-! ## Vulkan: size of a mip level (VKTexture.cpp lines 31-64) -/

/-- Embedding of `Extent3D`, the result type of `QueryMipLevelSize`. -/
structure Extent3D where
  width : Nat
  height : Nat
  depth : Nat
  deriving DecidableEq, Repr

/-- Embedding of `VKTexture`: the texture type (`GetType` of the base class
`Texture`) and the members that `QueryMipLevelSize` reads. -/
structure VKTexture where
  type : TextureType
  extent_ : VkExtent3D
  numMipLevels_ : Nat
  numArrayLayers_ : Nat
  deriving DecidableEq, Repr

/-- Embedding of `VKTexture::QueryMipLevelSize` (VKTexture.cpp lines 31-64).
The shift `extent_.width >> mipLevel` of a `std::uint32_t` is the shift of the
natural number; C++ defines it for `mipLevel < 32` only. -/
def VKTexture.QueryMipLevelSize (texture : VKTexture) (mipLevel : Nat) : Extent3D :=
  match texture.type with
  | TextureType.Texture1D | TextureType.Texture1DArray =>
      { width := max 1 (texture.extent_.width >>> mipLevel)
        height := texture.numArrayLayers_
        depth := 1 }
  | TextureType.Texture2D | TextureType.Texture2DArray | TextureType.TextureCube
  | TextureType.TextureCubeArray | TextureType.Texture2DMS | TextureType.Texture2DMSArray =>
      { width := max 1 (texture.extent_.width >>> mipLevel)
        height := max 1 (texture.extent_.height >>> mipLevel)
        depth := texture.numArrayLayers_ }
  | TextureType.Texture3D =>
      { width := max 1 (texture.extent_.width >>> mipLevel)
        height := max 1 (texture.extent_.height >>> mipLevel)
        depth := max 1 (texture.extent_.depth >>> mipLevel) }
  | TextureType.Undefined => { width := 0, height := 0, depth := 0 }

/-! ## Debug layer: texture read and the profiler (DbgRenderSystem.cpp lines
403-410) -/

/-- Embedding of `DbgRenderSystem::ReadTexture` (lines 403-410); `dataFormat`
and `dataType` are enumerators that are only passed on. -/
def DbgRenderSystem.ReadTexture (texture : DbgTexture) (mipLevel : Int) (dataFormat : Nat)
    (dataType : Nat) (data : DataPtr) : List DbgEvent :=
  let textureDbg := texture
  DebugMipLevelLimit mipLevel textureDbg.mipLevels "ReadTexture"
    ++ [DbgEvent.instanceCall
          (InstanceCall.ReadTexture textureDbg.instanceRef mipLevel dataFormat dataType data)]

/-- Embedding of `RenderingProfiler`: the counters that the debug layer's
writes increment. -/
structure RenderingProfiler where
  writeVertexBuffer : Nat
  writeIndexBuffer : Nat
  writeConstantBuffer : Nat
  writeStorageBuffer : Nat
  deriving DecidableEq, Repr

/-- The call `counter.Inc()` on a profiler: the counter named goes up by one. -/
def RenderingProfiler.Inc (profiler : RenderingProfiler) :
    ProfilerCounter → RenderingProfiler
  | .writeVertexBuffer => { profiler with writeVertexBuffer := profiler.writeVertexBuffer + 1 }
  | .writeIndexBuffer => { profiler with writeIndexBuffer := profiler.writeIndexBuffer + 1 }
  | .writeConstantBuffer =>
      { profiler with writeConstantBuffer := profiler.writeConstantBuffer + 1 }
  | .writeStorageBuffer =>
      { profiler with writeStorageBuffer := profiler.writeStorageBuffer + 1 }

/-- Modelled from the spec: `LLGL_DBG_PROFILER_DO` comes from `DbgCore.h`,
which is not among the sources.  Sections 4.3 and 6: the profiler is an
optional collaborator that receives the increment events.  The member
`profiler_` (`none` when null) after the events of a call: each `profilerInc`
event increments its counter when a profiler is attached, nothing else
touches the profiler. -/
def profilerAfter : Option RenderingProfiler → List DbgEvent → Option RenderingProfiler
  | profiler_, [] => profiler_
  | profiler_, DbgEvent.profilerInc counter :: rest =>
      profilerAfter (profiler_.map (fun p => p.Inc counter)) rest
  | profiler_, _ :: rest => profilerAfter profiler_ rest

/-! ## Vulkan: shader binaries (VKShader.cpp lines 30-60, 67-100) -/

/-- Embedding of `LoadBinaryResult`, the enumerators used by `VKShader.cpp`. -/
inductive LoadBinaryResult where
  | Undefined
  | InvalidCodeSize
  | Success
  deriving DecidableEq, Repr

/-- Embedding of `ShaderDescriptor`: the member `VKShader.cpp` reads. -/
structure ShaderDescriptor where
  entryPoint : String
  deriving DecidableEq, Repr

/-- Embedding of `VKShader`: the shader type (`GetType` of the base class
`Shader`) and the members `LoadBinary` and `QueryInfoLog` use (a null shader
module is `none`). -/
structure VKShader where
  type : ShaderType
  shaderModule_ : Option Handle
  loadBinaryResult_ : LoadBinaryResult
  entryPoint_ : String
  deriving DecidableEq, Repr

/-- Embedding of `VkResult`. -/
abbrev VkResult := Int

/-- Vulkan SDK value of `VK_SUCCESS`. -/
def VK_SUCCESS : VkResult := 0

/-- The native `vkCreateShaderModule` for the device of the shader: from the
code passed in the create info, the result code and the module written to the
output handle (after `ReleaseAndGetAddressOf` has cleared it). -/
abbrev NativeCreateShaderModule := List Nat → VkResult × Option Handle

/-- Modelled from the spec: `VKThrowIfFailed` comes from `VKCore.h`, which is
not among the sources.  Section 7 (a): a native creation that fails is
surfaced by throwing; the exception carries the text `info`.  A result other
than `VK_SUCCESS` counts as failed. -/
def VKThrowIfFailed (result : VkResult) (info : String) : Except String Unit :=
  if result ≠ VK_SUCCESS then Except.error info else Except.ok ()

/-- Embedding of `VKShader::LoadBinary` (VKShader.cpp lines 30-60); the
binary code is the list of its bytes.  The result is the exception thrown, or
the shader after the call with the value returned. -/
def VKShader.LoadBinary (vkCreateShaderModule : NativeCreateShaderModule) (shader : VKShader)
    (binaryCode : List Nat) (shaderDesc : ShaderDescriptor) : Except String (VKShader × Bool) :=
  if binaryCode.isEmpty || binaryCode.length % 4 ≠ 0 then
    Except.ok ({ shader with loadBinaryResult_ := LoadBinaryResult.InvalidCodeSize }, false)
  else
    let shader :=
      if shaderDesc.entryPoint.isEmpty then
        { shader with entryPoint_ := "main" }
      else
        { shader with entryPoint_ := shaderDesc.entryPoint }
    let created := vkCreateShaderModule binaryCode
    let shader := { shader with shaderModule_ := created.2 }
    match VKThrowIfFailed created.1 "failed to create Vulkan shader module" with
    | Except.error e => Except.error e
    | Except.ok _ =>
        Except.ok ({ shader with loadBinaryResult_ := LoadBinaryResult.Success }, true)

/-- Embedding of the function `ToString` of `VKShader.cpp` (lines 67-79). -/
def VKShader.ToString : ShaderType → String
  | ShaderType.Vertex => "vertex shader"
  | ShaderType.TessControl => "tessellation control shader"
  | ShaderType.TessEvaluation => "tessellation evaluation shader"
  | ShaderType.Geometry => "geometry shader"
  | ShaderType.Fragment => "fragment shader"
  | ShaderType.Compute => "compute shader"

/-- Embedding of `VKShader::QueryInfoLog` (VKShader.cpp lines 81-100). -/
def VKShader.QueryInfoLog (shader : VKShader) : String :=
  let s := ""
  match shader.loadBinaryResult_ with
  | LoadBinaryResult.Undefined =>
      s ++ VKShader.ToString shader.type ++ ": shader module is undefined"
  | LoadBinaryResult.InvalidCodeSize =>
      s ++ VKShader.ToString shader.type ++
        ": shader module code size is not a multiple of four bytes"
  | _ => s

/-! ## Theorems -/

/-- Testing a mask against a single bit `1 << c`, as in `(bitmask & bit) != 0`. -/
theorem and_bit_ne_zero_iff (m c : Nat) : (m &&& 1 <<< c) ≠ 0 ↔ m.testBit c = true := by
  rw [Nat.one_shiftLeft, Nat.and_two_pow]
  cases h : m.testBit c <;> simp

/-- Bit `i` of `bitmask | (1 << c)`. -/
theorem testBit_or_bit (m c i : Nat) :
    (m ||| 1 <<< c).testBit i = true ↔ (m.testBit i = true ∨ c = i) := by
  simp [Nat.testBit_or, Nat.one_shiftLeft, Nat.testBit_two_pow]

/-- The loop returns early as soon as a stage comes whose bit is already set:
if every stage of `seen` has its bit in `bitmask`, and the rest of the array
repeats a stage of `seen` or repeats one of its own, the result is `none`. -/
theorem loop_none_of_repeat (code : ShaderType → Nat) :
    ∀ (shaders : List (Option Shader)) (bitmask : Nat) (seen : List ShaderType),
      (∀ t ∈ seen, bitmask.testBit (code t) = true) →
      ¬ (seen ++ attachedStages shaders).Nodup → seen.Nodup →
      ValidateShaderComposition.loop code shaders bitmask = none := by
  intro shaders
  induction shaders with
  | nil =>
      intro bitmask seen _ hdup hseen
      simp [attachedStages] at hdup
      exact absurd hseen hdup
  | cons s rest ih =>
      intro bitmask seen hbits hdup hseen
      cases s with
      | none =>
          simp only [ValidateShaderComposition.loop]
          apply ih bitmask seen hbits _ hseen
          simpa [attachedStages] using hdup
      | some shader =>
          simp only [ValidateShaderComposition.loop]
          by_cases hmem : shader.GetType ∈ seen
          · have hb := hbits _ hmem
            rw [if_pos ((and_bit_ne_zero_iff _ _).2 hb)]
          · by_cases hset : (bitmask &&& 1 <<< code shader.GetType) ≠ 0
            · rw [if_pos hset]
            · rw [if_neg hset]
              apply ih _ (seen ++ [shader.GetType])
              · intro t ht
                rw [testBit_or_bit]
                rcases List.mem_append.1 ht with h | h
                · exact Or.inl (hbits t h)
                · right
                  simp at h
                  rw [h]
              · intro hnd
                apply hdup
                have : attachedStages (some shader :: rest)
                    = shader.GetType :: attachedStages rest := by
                  simp [attachedStages]
                rw [this]
                simpa [List.append_assoc] using hnd
              · rw [List.nodup_append]
                refine ⟨hseen, List.nodup_singleton _, ?_⟩
                intro a ha hb
                simp at hb
                exact hmem (hb ▸ ha)

/-- When no stage repeats, the loop runs to its end and the final mask has
exactly the bits of the stages met: those of `seen` (already in `bitmask`) and
those of the non-null entries of the array. -/
theorem loop_some_of_nodup (code : ShaderType → Nat) (hinj : Function.Injective code) :
    ∀ (shaders : List (Option Shader)) (bitmask : Nat) (seen : List ShaderType),
      (∀ i, bitmask.testBit i = true ↔ ∃ t ∈ seen, code t = i) →
      (seen ++ attachedStages shaders).Nodup →
      ∃ m, ValidateShaderComposition.loop code shaders bitmask = some m ∧
        ∀ i, m.testBit i = true ↔ ∃ t ∈ seen ++ attachedStages shaders, code t = i := by
  intro shaders
  induction shaders with
  | nil =>
      intro bitmask seen hbits _
      exact ⟨bitmask, rfl, by simpa [attachedStages] using hbits⟩
  | cons s rest ih =>
      intro bitmask seen hbits hnd
      cases s with
      | none =>
          simp only [ValidateShaderComposition.loop]
          have h : attachedStages (none :: rest) = attachedStages rest := by
            simp [attachedStages]
          rw [h] at hnd ⊢
          exact ih bitmask seen hbits hnd
      | some shader =>
          have h : attachedStages (some shader :: rest)
              = shader.GetType :: attachedStages rest := by
            simp [attachedStages]
          rw [h] at hnd ⊢
          have hnd2 : ((seen ++ [shader.GetType]) ++ attachedStages rest).Nodup := by
            simpa [List.append_assoc] using hnd
          have hnotin : shader.GetType ∉ seen := by
            intro hmem
            have := (List.nodup_append.1 hnd).2.2
            exact this hmem (List.mem_cons_self _ _)
          have hclear : ¬ (bitmask &&& 1 <<< code shader.GetType) ≠ 0 := by
            rw [and_bit_ne_zero_iff, hbits]
            rintro ⟨t, ht, hc⟩
            exact hnotin (hinj hc ▸ ht)
          simp only [ValidateShaderComposition.loop]
          rw [if_neg hclear]
          have hbits2 : ∀ i, (bitmask ||| 1 <<< code shader.GetType).testBit i = true ↔
              ∃ t ∈ seen ++ [shader.GetType], code t = i := by
            intro i
            rw [testBit_or_bit, hbits]
            constructor
            · rintro (⟨t, ht, hc⟩ | hc)
              · exact ⟨t, List.mem_append_left _ ht, hc⟩
              · exact ⟨shader.GetType, by simp, hc⟩
            · rintro ⟨t, ht, hc⟩
              rcases List.mem_append.1 ht with h1 | h1
              · exact Or.inl ⟨t, h1, hc⟩
              · simp at h1
                exact Or.inr (h1 ▸ hc)
          obtain ⟨m, hm, hmbits⟩ := ih _ (seen ++ [shader.GetType]) hbits2 hnd2
          refine ⟨m, hm, ?_⟩
          intro i
          rw [hmbits]
          simp [List.append_assoc]

/-- Two masks that carry exactly the bits of two stage sets are equal iff the
sets are, the numbering of the stages being injective. -/
theorem mask_eq_iff_stages_eq (code : ShaderType → Nat) (hinj : Function.Injective code)
    (m m2 : Nat) (S S2 : Finset ShaderType)
    (hm : ∀ i, m.testBit i = true ↔ ∃ t ∈ S, code t = i)
    (hm2 : ∀ i, m2.testBit i = true ↔ ∃ t ∈ S2, code t = i) :
    m = m2 ↔ S = S2 := by
  constructor
  · intro h
    subst h
    ext t
    have key : ∀ (T : Finset ShaderType), (∃ u ∈ T, code u = code t) ↔ t ∈ T := by
      intro T
      constructor
      · rintro ⟨u, hu, hc⟩
        exact hinj hc ▸ hu
      · intro ht
        exact ⟨t, ht, rfl⟩
    rw [← key S, ← key S2, ← hm, ← hm2]
  · intro h
    subst h
    apply Nat.eq_of_testBit_eq
    intro i
    rw [Bool.eq_iff_iff, hm, hm2]

/-- If two entries of the array are non-null shaders of the same stage, the
stages of the non-null entries are not pairwise distinct. -/
theorem not_nodup_of_same_stage :
    ∀ (shaders : List (Option Shader)) (i j : Nat) (a b : Shader),
      i < j → shaders[i]? = some (some a) → shaders[j]? = some (some b) →
      a.GetType = b.GetType → ¬ (attachedStages shaders).Nodup := by
  intro shaders
  induction shaders with
  | nil =>
      intro i j a b _ hi
      simp at hi
  | cons s rest ih =>
      intro i j a b hij hi hj hab hnd
      cases j with
      | zero => exact absurd hij (Nat.not_lt_zero _)
      | succ j =>
          rw [List.getElem?_cons_succ] at hj
          cases i with
          | zero =>
              rw [List.getElem?_cons_zero] at hi
              cases hi
              have hmem : b.GetType ∈ attachedStages rest := by
                unfold attachedStages
                rw [List.mem_filterMap]
                exact ⟨some b, List.mem_iff_getElem?.2 ⟨j, hj⟩, rfl⟩
              have h : attachedStages (some a :: rest)
                  = a.GetType :: attachedStages rest := by
                simp [attachedStages]
              rw [h, List.nodup_cons, hab] at hnd
              exact hnd.1 hmem
          | succ i =>
              rw [List.getElem?_cons_succ] at hi
              apply ih i j a b (Nat.lt_of_succ_lt_succ hij) hi hj hab
              cases s with
              | none => simpa [attachedStages] using hnd
              | some c =>
                  have h : attachedStages (some c :: rest)
                      = c.GetType :: attachedStages rest := by
                    simp [attachedStages]
                  rw [h, List.nodup_cons] at hnd
                  exact hnd.2

/-- C1. For every array of shaders whose non-null entries have pairwise
distinct stages, `ValidateShaderComposition` returns true if and only if the
set of stages present is one of the nine legal sets.  The numbering `code` of
the stages is any injective numbering with values a 32-bit `int` can shift by. -/
theorem validateShaderComposition_iff_legal (code : ShaderType → Nat)
    (hinj : Function.Injective code) (_hrange : ∀ t, code t < 31)
    (shaders : List (Option Shader)) (hd : (attachedStages shaders).Nodup) :
    ValidateShaderComposition code shaders = true ↔
      (attachedStages shaders).toFinset ∈ legalCompositions := by
  obtain ⟨m, hm, hbits⟩ :=
    loop_some_of_nodup code hinj shaders 0 [] (by simp) (by simpa using hd)
  have hS : ∀ i, m.testBit i = true ↔
      ∃ t ∈ (attachedStages shaders).toFinset, code t = i := by
    simpa using hbits
  have key : ∀ (c : Nat) (T : Finset ShaderType),
      (∀ i, c.testBit i = true ↔ ∃ t ∈ T, code t = i) →
      (m = c ↔ (attachedStages shaders).toFinset = T) :=
    fun c T hc => mask_eq_iff_stages_eq code hinj m c _ T hS hc
  have h1 := key (1 <<< code .Vertex) {.Vertex}
    (by intro i; simp [Nat.testBit_or, Nat.one_shiftLeft, Nat.testBit_two_pow])
  have h2 := key (1 <<< code .Vertex ||| 1 <<< code .Geometry) {.Vertex, .Geometry}
    (by intro i; simp [Nat.testBit_or, Nat.one_shiftLeft, Nat.testBit_two_pow])
  have h3 := key (1 <<< code .Vertex ||| 1 <<< code .TessControl ||| 1 <<< code .TessEvaluation)
    {.Vertex, .TessControl, .TessEvaluation}
    (by intro i; simp [Nat.testBit_or, Nat.one_shiftLeft, Nat.testBit_two_pow, or_assoc])
  have h4 := key (1 <<< code .Vertex ||| 1 <<< code .TessControl ||| 1 <<< code .TessEvaluation
      ||| 1 <<< code .Geometry)
    {.Vertex, .TessControl, .TessEvaluation, .Geometry}
    (by intro i; simp [Nat.testBit_or, Nat.one_shiftLeft, Nat.testBit_two_pow, or_assoc])
  have h5 := key (1 <<< code .Vertex ||| 1 <<< code .Fragment) {.Vertex, .Fragment}
    (by intro i; simp [Nat.testBit_or, Nat.one_shiftLeft, Nat.testBit_two_pow])
  have h6 := key (1 <<< code .Vertex ||| 1 <<< code .Geometry ||| 1 <<< code .Fragment)
    {.Vertex, .Geometry, .Fragment}
    (by intro i; simp [Nat.testBit_or, Nat.one_shiftLeft, Nat.testBit_two_pow, or_assoc])
  have h7 := key (1 <<< code .Vertex ||| 1 <<< code .TessControl ||| 1 <<< code .TessEvaluation
      ||| 1 <<< code .Fragment)
    {.Vertex, .TessControl, .TessEvaluation, .Fragment}
    (by intro i; simp [Nat.testBit_or, Nat.one_shiftLeft, Nat.testBit_two_pow, or_assoc])
  have h8 := key (1 <<< code .Vertex ||| 1 <<< code .TessControl ||| 1 <<< code .TessEvaluation
      ||| 1 <<< code .Geometry ||| 1 <<< code .Fragment)
    {.Vertex, .TessControl, .TessEvaluation, .Geometry, .Fragment}
    (by intro i; simp [Nat.testBit_or, Nat.one_shiftLeft, Nat.testBit_two_pow, or_assoc])
  have h9 := key (1 <<< code .Compute) {.Compute}
    (by intro i; simp [Nat.testBit_or, Nat.one_shiftLeft, Nat.testBit_two_pow])
  unfold ValidateShaderComposition
  simp only [hm, Bool.or_eq_true, beq_iff_eq, h1, h2, h3, h4, h5, h6, h7, h8, h9,
    legalCompositions, List.mem_cons, List.mem_singleton, List.not_mem_nil, or_false, or_assoc]

/-- Witness for C1 under the declaration-order numbering: {Vertex, Fragment}
is accepted, {Vertex, Compute} and the empty array are rejected. -/
theorem validateShaderComposition_iff_legal_witness :
    ValidateShaderComposition ShaderType.declOrder
        [some ⟨.Vertex⟩, some ⟨.Fragment⟩] = true ∧
    ValidateShaderComposition ShaderType.declOrder
        [some ⟨.Vertex⟩, some ⟨.Compute⟩] = false ∧
    ValidateShaderComposition ShaderType.declOrder [] = false :=
  ⟨(validateShaderComposition_iff_legal ShaderType.declOrder (by decide) (by decide)
      [some ⟨.Vertex⟩, some ⟨.Fragment⟩] (by decide)).2 (by decide),
   Bool.eq_false_iff.2 (fun h =>
      absurd ((validateShaderComposition_iff_legal ShaderType.declOrder (by decide) (by decide)
        [some ⟨.Vertex⟩, some ⟨.Compute⟩] (by decide)).1 h) (by decide)),
   Bool.eq_false_iff.2 (fun h =>
      absurd ((validateShaderComposition_iff_legal ShaderType.declOrder (by decide) (by decide)
        [] (by decide)).1 h) (by decide))⟩

/-- C2. If two non-null entries of the array have the same stage,
`ValidateShaderComposition` returns false, whatever the other entries are and
whatever the numbering of the stages. -/
theorem validateShaderComposition_false_of_repeat (code : ShaderType → Nat)
    (shaders : List (Option Shader)) (i j : Nat) (a b : Shader) (hij : i < j)
    (hi : shaders[i]? = some (some a)) (hj : shaders[j]? = some (some b))
    (hab : a.GetType = b.GetType) :
    ValidateShaderComposition code shaders = false := by
  have hdup := not_nodup_of_same_stage shaders i j a b hij hi hj hab
  have hloop := loop_none_of_repeat code shaders 0 [] (by simp) (by simpa using hdup)
    List.nodup_nil
  unfold ValidateShaderComposition
  simp only [hloop]

/-- Witness for C2: {Vertex, Vertex} is rejected, and {Vertex, Fragment,
Fragment} is rejected although {Vertex, Fragment} is accepted. -/
theorem validateShaderComposition_false_of_repeat_witness :
    ValidateShaderComposition ShaderType.declOrder
        [some ⟨.Vertex⟩, some ⟨.Vertex⟩] = false ∧
    ValidateShaderComposition ShaderType.declOrder
        [some ⟨.Vertex⟩, some ⟨.Fragment⟩, some ⟨.Fragment⟩] = false ∧
    ValidateShaderComposition ShaderType.declOrder
        [some ⟨.Vertex⟩, some ⟨.Fragment⟩] = true :=
  ⟨validateShaderComposition_false_of_repeat ShaderType.declOrder
      [some ⟨.Vertex⟩, some ⟨.Vertex⟩] 0 1 ⟨.Vertex⟩ ⟨.Vertex⟩ (by decide) rfl rfl rfl,
   validateShaderComposition_false_of_repeat ShaderType.declOrder
      [some ⟨.Vertex⟩, some ⟨.Fragment⟩, some ⟨.Fragment⟩] 1 2 ⟨.Fragment⟩ ⟨.Fragment⟩
      (by decide) rfl rfl rfl,
   by decide⟩

/-! ### Debug layer: writes -/

/-- The out-of-bounds check reports when the sum, which does not overflow,
exceeds the buffer size. -/
theorem debugBufferSize_of_gt (bufferSize dataSize offset : Nat) (source : String)
    (hsum : offset + dataSize < size_t_range) (hgt : offset + dataSize > bufferSize) :
    DebugBufferSize bufferSize dataSize offset source =
      [DbgEvent.error ErrorType.InvalidArgument "buffer size and offset out of bounds" source] := by
  unfold DebugBufferSize
  rw [Nat.add_comm dataSize offset, Nat.mod_eq_of_lt hsum, if_pos hgt]

/-- C3. For each of the four debug-layer buffer writes and every data,
dataSize and offset: if the buffer's initialized flag is false, the only event
of the call is one InvalidState error "attempt to write uninitialized
resource" (so the wrapped render system's write is not invoked, no
out-of-bounds error is reported and no profiler counter is incremented), and
the debug buffer is left as it was. -/
theorem writeBuffer_uninitialized :
    (∀ (vb : DbgVertexBuffer) (data : DataPtr) (dataSize offset : Nat),
      vb.initialized = false →
      DbgRenderSystem.WriteVertexBuffer vb data dataSize offset =
        (vb, [DbgEvent.error ErrorType.InvalidState
                "attempt to write uninitialized resource" "WriteVertexBuffer"])) ∧
    (∀ (ib : DbgIndexBuffer) (data : DataPtr) (dataSize offset : Nat),
      ib.initialized = false →
      DbgRenderSystem.WriteIndexBuffer ib data dataSize offset =
        (ib, [DbgEvent.error ErrorType.InvalidState
                "attempt to write uninitialized resource" "WriteIndexBuffer"])) ∧
    (∀ (cb : DbgConstantBuffer) (data : DataPtr) (dataSize offset : Nat),
      cb.initialized = false →
      DbgRenderSystem.WriteConstantBuffer cb data dataSize offset =
        (cb, [DbgEvent.error ErrorType.InvalidState
                "attempt to write uninitialized resource" "WriteConstantBuffer"])) ∧
    (∀ (sb : DbgStorageBuffer) (data : DataPtr) (dataSize offset : Nat),
      sb.initialized = false →
      DbgRenderSystem.WriteStorageBuffer sb data dataSize offset =
        (sb, [DbgEvent.error ErrorType.InvalidState
                "attempt to write uninitialized resource" "WriteStorageBuffer"])) := by
  refine ⟨?_, ?_, ?_, ?_⟩
  · intro vb data dataSize offset h
    simp [DbgRenderSystem.WriteVertexBuffer, h, ErrWriteUninitializedResource]
  · intro ib data dataSize offset h
    simp [DbgRenderSystem.WriteIndexBuffer, h, ErrWriteUninitializedResource]
  · intro cb data dataSize offset h
    simp [DbgRenderSystem.WriteConstantBuffer, h, ErrWriteUninitializedResource]
  · intro sb data dataSize offset h
    simp [DbgRenderSystem.WriteStorageBuffer, h, ErrWriteUninitializedResource]

/-- Witness for C3: a write of 64 bytes at offset 1000 to a vertex buffer
that was never set up (recorded size 0) yields the single InvalidState error. -/
theorem writeBuffer_uninitialized_witness :
    DbgRenderSystem.WriteVertexBuffer
        { instanceRef := 5, format := { formatSize := 12 }, size := 0, elements := 0,
          initialized := false } 77 64 1000 =
      ({ instanceRef := 5, format := { formatSize := 12 }, size := 0, elements := 0,
         initialized := false },
       [DbgEvent.error ErrorType.InvalidState
          "attempt to write uninitialized resource" "WriteVertexBuffer"]) :=
  writeBuffer_uninitialized.1
    { instanceRef := 5, format := { formatSize := 12 }, size := 0, elements := 0,
      initialized := false } 77 64 1000 rfl

/-- C4. For each of the four debug-layer buffer writes, every initialized
debug buffer with recorded size B and every dataSize and offset whose sum does
not overflow `size_t`: if offset + dataSize > B, the events of the call are
one InvalidArgument error "buffer size and offset out of bounds", then the
write of the wrapped render system on the wrapped instance with the same data,
dataSize and offset, then the profiler increment. -/
theorem writeBuffer_out_of_bounds :
    (∀ (vb : DbgVertexBuffer) (data : DataPtr) (dataSize offset : Nat),
      vb.initialized = true → offset + dataSize < size_t_range →
      offset + dataSize > vb.size →
      DbgRenderSystem.WriteVertexBuffer vb data dataSize offset =
        (vb, [DbgEvent.error ErrorType.InvalidArgument
                "buffer size and offset out of bounds" "WriteVertexBuffer",
              DbgEvent.instanceCall
                (InstanceCall.WriteVertexBuffer vb.instanceRef data dataSize offset),
              DbgEvent.profilerInc ProfilerCounter.writeVertexBuffer])) ∧
    (∀ (ib : DbgIndexBuffer) (data : DataPtr) (dataSize offset : Nat),
      ib.initialized = true → offset + dataSize < size_t_range →
      offset + dataSize > ib.size →
      DbgRenderSystem.WriteIndexBuffer ib data dataSize offset =
        (ib, [DbgEvent.error ErrorType.InvalidArgument
                "buffer size and offset out of bounds" "WriteIndexBuffer",
              DbgEvent.instanceCall
                (InstanceCall.WriteIndexBuffer ib.instanceRef data dataSize offset),
              DbgEvent.profilerInc ProfilerCounter.writeIndexBuffer])) ∧
    (∀ (cb : DbgConstantBuffer) (data : DataPtr) (dataSize offset : Nat),
      cb.initialized = true → offset + dataSize < size_t_range →
      offset + dataSize > cb.size →
      DbgRenderSystem.WriteConstantBuffer cb data dataSize offset =
        (cb, [DbgEvent.error ErrorType.InvalidArgument
                "buffer size and offset out of bounds" "WriteConstantBuffer",
              DbgEvent.instanceCall
                (InstanceCall.WriteConstantBuffer cb.instanceRef data dataSize offset),
              DbgEvent.profilerInc ProfilerCounter.writeConstantBuffer])) ∧
    (∀ (sb : DbgStorageBuffer) (data : DataPtr) (dataSize offset : Nat),
      sb.initialized = true → offset + dataSize < size_t_range →
      offset + dataSize > sb.size →
      DbgRenderSystem.WriteStorageBuffer sb data dataSize offset =
        (sb, [DbgEvent.error ErrorType.InvalidArgument
                "buffer size and offset out of bounds" "WriteStorageBuffer",
              DbgEvent.instanceCall
                (InstanceCall.WriteStorageBuffer sb.instanceRef data dataSize offset),
              DbgEvent.profilerInc ProfilerCounter.writeStorageBuffer])) := by
  refine ⟨?_, ?_, ?_, ?_⟩
  · intro vb data dataSize offset h hsum hgt
    simp [DbgRenderSystem.WriteVertexBuffer, h, debugBufferSize_of_gt _ _ _ _ hsum hgt]
  · intro ib data dataSize offset h hsum hgt
    simp [DbgRenderSystem.WriteIndexBuffer, h, debugBufferSize_of_gt _ _ _ _ hsum hgt]
  · intro cb data dataSize offset h hsum hgt
    simp [DbgRenderSystem.WriteConstantBuffer, h, debugBufferSize_of_gt _ _ _ _ hsum hgt]
  · intro sb data dataSize offset h hsum hgt
    simp [DbgRenderSystem.WriteStorageBuffer, h, debugBufferSize_of_gt _ _ _ _ hsum hgt]

/-- Witness for C4: writing 64 bytes at offset 200 into an initialized index
buffer of 256 bytes (200 + 64 = 264 > 256) reports the error and still
forwards the write. -/
theorem writeBuffer_out_of_bounds_witness :
    DbgRenderSystem.WriteIndexBuffer
        { instanceRef := 9, size := 256, elements := 64, initialized := true } 77 64 200 =
      ({ instanceRef := 9, size := 256, elements := 64, initialized := true },
       [DbgEvent.error ErrorType.InvalidArgument
          "buffer size and offset out of bounds" "WriteIndexBuffer",
        DbgEvent.instanceCall (InstanceCall.WriteIndexBuffer 9 77 64 200),
        DbgEvent.profilerInc ProfilerCounter.writeIndexBuffer]) :=
  writeBuffer_out_of_bounds.2.1
    { instanceRef := 9, size := 256, elements := 64, initialized := true } 77 64 200
    rfl (by decide) (by decide)

/-- The check of `GetInitializedTexture` reports nothing for a texture whose
type is defined. -/
theorem getInitializedTexture_of_defined (texture : DbgTexture) (source : String)
    (h : texture.type ≠ TextureType.Undefined) :
    GetInitializedTexture texture source = (texture, []) := by
  simp [GetInitializedTexture, h]

/-- The mip-level check reports when the level is not below the count. -/
theorem debugMipLevelLimit_of_ge (mipLevel mipLevelCount : Int) (source : String)
    (h : mipLevel ≥ mipLevelCount) :
    DebugMipLevelLimit mipLevel mipLevelCount source =
      [DbgEvent.error ErrorType.InvalidArgument (mipLevelMessage mipLevel mipLevelCount)
        source] := by
  simp [DebugMipLevelLimit, h]

/-- C5 (the code at the failing input). A debug texture whose type is
Undefined is written with each of the seven `WriteTexture*` functions: the
"attempt to write uninitialized resource" error is reported, and the write of
the wrapped render system is invoked all the same, on the wrapped texture 7
with the arguments of the call. -/
theorem writeTexture_undefined_forwards :
    let tex : DbgTexture :=
      { instanceRef := 7, type := TextureType.Undefined, size := ⟨0, 0, 0⟩, mipLevels := 1 }
    let err (source : String) : DbgEvent :=
      DbgEvent.error ErrorType.InvalidState "attempt to write uninitialized resource" source
    DbgRenderSystem.WriteTexture1D tex 0 0 4 55 =
      (tex, [err "WriteTexture1D",
             DbgEvent.instanceCall (InstanceCall.WriteTexture1D 7 0 0 4 55)]) ∧
    DbgRenderSystem.WriteTexture2D tex 0 ⟨0, 0⟩ ⟨4, 4⟩ 55 =
      (tex, [err "WriteTexture2D",
             DbgEvent.instanceCall (InstanceCall.WriteTexture2D 7 0 ⟨0, 0⟩ ⟨4, 4⟩ 55)]) ∧
    DbgRenderSystem.WriteTexture3D tex 0 ⟨0, 0, 0⟩ ⟨4, 4, 4⟩ 55 =
      (tex, [err "WriteTexture3D",
             DbgEvent.instanceCall (InstanceCall.WriteTexture3D 7 0 ⟨0, 0, 0⟩ ⟨4, 4, 4⟩ 55)]) ∧
    DbgRenderSystem.WriteTextureCube tex 0 ⟨0, 0⟩ 2 ⟨4, 4⟩ 55 =
      (tex, [err "WriteTextureCube",
             DbgEvent.instanceCall (InstanceCall.WriteTextureCube 7 0 ⟨0, 0⟩ 2 ⟨4, 4⟩ 55)]) ∧
    DbgRenderSystem.WriteTexture1DArray tex 0 0 1 4 2 55 =
      (tex, [err "WriteTexture1DArray",
             DbgEvent.instanceCall (InstanceCall.WriteTexture1DArray 7 0 0 1 4 2 55)]) ∧
    DbgRenderSystem.WriteTexture2DArray tex 0 ⟨0, 0⟩ 1 ⟨4, 4⟩ 2 55 =
      (tex, [err "WriteTexture2DArray",
             DbgEvent.instanceCall
               (InstanceCall.WriteTexture2DArray 7 0 ⟨0, 0⟩ 1 ⟨4, 4⟩ 2 55)]) ∧
    DbgRenderSystem.WriteTextureCubeArray tex 0 ⟨0, 0⟩ 1 2 ⟨4, 4⟩ 6 55 =
      (tex, [err "WriteTextureCubeArray",
             DbgEvent.instanceCall
               (InstanceCall.WriteTextureCubeArray 7 0 ⟨0, 0⟩ 1 2 ⟨4, 4⟩ 6 55)]) := by
  decide

/-- C6. For every debug texture whose type is not Undefined and whose recorded
mip-level count is M, and every mipLevel >= M: the events of each debug-layer
`WriteTexture*` are one InvalidArgument error whose message begins "mip level
out of bounds", then the `WriteTexture*` of the wrapped render system on the
wrapped texture with the same mipLevel, position, size and image descriptor
(and layer / face arguments); the debug texture is left as it was. -/
theorem writeTexture_mip_out_of_bounds :
    (∀ (tex : DbgTexture) (mipLevel : Int), tex.type ≠ TextureType.Undefined →
      mipLevel ≥ tex.mipLevels →
      (∀ (position size : Int) (imageDesc : ImageDescriptor),
        DbgRenderSystem.WriteTexture1D tex mipLevel position size imageDesc =
          (tex, [DbgEvent.error ErrorType.InvalidArgument
                   (mipLevelMessage mipLevel tex.mipLevels) "WriteTexture1D",
                 DbgEvent.instanceCall (InstanceCall.WriteTexture1D tex.instanceRef mipLevel
                   position size imageDesc)])) ∧
      (∀ (position size : Vector2i) (imageDesc : ImageDescriptor),
        DbgRenderSystem.WriteTexture2D tex mipLevel position size imageDesc =
          (tex, [DbgEvent.error ErrorType.InvalidArgument
                   (mipLevelMessage mipLevel tex.mipLevels) "WriteTexture2D",
                 DbgEvent.instanceCall (InstanceCall.WriteTexture2D tex.instanceRef mipLevel
                   position size imageDesc)])) ∧
      (∀ (position size : Vector3i) (imageDesc : ImageDescriptor),
        DbgRenderSystem.WriteTexture3D tex mipLevel position size imageDesc =
          (tex, [DbgEvent.error ErrorType.InvalidArgument
                   (mipLevelMessage mipLevel tex.mipLevels) "WriteTexture3D",
                 DbgEvent.instanceCall (InstanceCall.WriteTexture3D tex.instanceRef mipLevel
                   position size imageDesc)])) ∧
      (∀ (position : Vector2i) (cubeFace : AxisDirection) (size : Vector2i)
          (imageDesc : ImageDescriptor),
        DbgRenderSystem.WriteTextureCube tex mipLevel position cubeFace size imageDesc =
          (tex, [DbgEvent.error ErrorType.InvalidArgument
                   (mipLevelMessage mipLevel tex.mipLevels) "WriteTextureCube",
                 DbgEvent.instanceCall (InstanceCall.WriteTextureCube tex.instanceRef mipLevel
                   position cubeFace size imageDesc)])) ∧
      (∀ (position : Int) (layerOffset : Nat) (size : Int) (layers : Nat)
          (imageDesc : ImageDescriptor),
        DbgRenderSystem.WriteTexture1DArray tex mipLevel position layerOffset size layers
            imageDesc =
          (tex, [DbgEvent.error ErrorType.InvalidArgument
                   (mipLevelMessage mipLevel tex.mipLevels) "WriteTexture1DArray",
                 DbgEvent.instanceCall (InstanceCall.WriteTexture1DArray tex.instanceRef
                   mipLevel position layerOffset size layers imageDesc)])) ∧
      (∀ (position : Vector2i) (layerOffset : Nat) (size : Vector2i) (layers : Nat)
          (imageDesc : ImageDescriptor),
        DbgRenderSystem.WriteTexture2DArray tex mipLevel position layerOffset size layers
            imageDesc =
          (tex, [DbgEvent.error ErrorType.InvalidArgument
                   (mipLevelMessage mipLevel tex.mipLevels) "WriteTexture2DArray",
                 DbgEvent.instanceCall (InstanceCall.WriteTexture2DArray tex.instanceRef
                   mipLevel position layerOffset size layers imageDesc)])) ∧
      (∀ (position : Vector2i) (layerOffset : Nat) (cubeFaceOffset : AxisDirection)
          (size : Vector2i) (cubeFaces : Nat) (imageDesc : ImageDescriptor),
        DbgRenderSystem.WriteTextureCubeArray tex mipLevel position layerOffset cubeFaceOffset
            size cubeFaces imageDesc =
          (tex, [DbgEvent.error ErrorType.InvalidArgument
                   (mipLevelMessage mipLevel tex.mipLevels) "WriteTextureCubeArray",
                 DbgEvent.instanceCall (InstanceCall.WriteTextureCubeArray tex.instanceRef
                   mipLevel position layerOffset cubeFaceOffset size cubeFaces imageDesc)]))) ∧
    (∀ (mipLevel mipLevelCount : Int), ∃ rest : String,
      mipLevelMessage mipLevel mipLevelCount = "mip level out of bounds" ++ rest) := by
  refine ⟨?_, ?_⟩
  · intro tex mipLevel hdef hge
    have hinit := fun source => getInitializedTexture_of_defined tex source hdef
    have hmip := fun source => debugMipLevelLimit_of_ge mipLevel tex.mipLevels source hge
    refine ⟨?_, ?_, ?_, ?_, ?_, ?_, ?_⟩
    · intros; simp [DbgRenderSystem.WriteTexture1D, hinit, hmip]
    · intros; simp [DbgRenderSystem.WriteTexture2D, hinit, hmip]
    · intros; simp [DbgRenderSystem.WriteTexture3D, hinit, hmip]
    · intros; simp [DbgRenderSystem.WriteTextureCube, hinit, hmip]
    · intros; simp [DbgRenderSystem.WriteTexture1DArray, hinit, hmip]
    · intros; simp [DbgRenderSystem.WriteTexture2DArray, hinit, hmip]
    · intros; simp [DbgRenderSystem.WriteTextureCubeArray, hinit, hmip]
  · intro mipLevel mipLevelCount
    refine ⟨" (" ++ toString mipLevel ++ " specified but limit is " ++
      toString (wrapInt32 (mipLevelCount - 1)) ++ ")", ?_⟩
    unfold mipLevelMessage
    have h : "mip level out of bounds (" = "mip level out of bounds" ++ " (" := by decide
    rw [h]
    simp only [String.append_assoc]

/-- Witness for C6: a 2D texture with mip-level count 1 written at mip level
1 (equal to the count) reports the error, naming level 1 and limit 0, and
forwards the write unchanged. -/
theorem writeTexture_mip_out_of_bounds_witness :
    DbgRenderSystem.WriteTexture2D
        { instanceRef := 7, type := TextureType.Texture2D, size := ⟨256, 256, 1⟩,
          mipLevels := 1 } 1 ⟨0, 0⟩ ⟨16, 16⟩ 55 =
      ({ instanceRef := 7, type := TextureType.Texture2D, size := ⟨256, 256, 1⟩,
         mipLevels := 1 },
       [DbgEvent.error ErrorType.InvalidArgument
          "mip level out of bounds (1 specified but limit is 0)" "WriteTexture2D",
        DbgEvent.instanceCall (InstanceCall.WriteTexture2D 7 1 ⟨0, 0⟩ ⟨16, 16⟩ 55)]) :=
  (writeTexture_mip_out_of_bounds.1
    { instanceRef := 7, type := TextureType.Texture2D, size := ⟨256, 256, 1⟩, mipLevels := 1 }
    1 (by decide) (by decide)).2.1 ⟨0, 0⟩ ⟨16, 16⟩ 55

/-! ### Texture setup and layer counts -/

/-- On the range of `int` the 32-bit wrap changes nothing. -/
theorem wrapInt32_of_range (z : Int) (hlo : -2 ^ 31 ≤ z) (hhi : z < 2 ^ 31) :
    wrapInt32 z = z := by
  unfold wrapInt32
  omega

/-- C7. For every debug texture (whatever its previous state), format, size
(w, h) and image descriptor (null included): after the debug layer's
`SetupTexture2D` the texture's type is Texture2D, its recorded size is
(w, h, 1) and its mip-level count is 1; the Direct3D 11 `SetupTexture2D` sets
the type to Texture2D and creates one native texture, with array size 1. -/
theorem setupTexture2D_records :
    (∀ (tex : DbgTexture) (format : TextureFormat) (size : Vector2i)
        (imageDesc : Option ImageDescriptor),
      (DbgRenderSystem.SetupTexture2D tex format size imageDesc).1.type
          = TextureType.Texture2D ∧
      (DbgRenderSystem.SetupTexture2D tex format size imageDesc).1.size
          = ⟨size.x, size.y, 1⟩ ∧
      (DbgRenderSystem.SetupTexture2D tex format size imageDesc).1.mipLevels = 1) ∧
    (∀ (mapFormat : TextureFormat → Nat) (tex : D3D11Texture) (format : TextureFormat)
        (size : Vector2i) (imageDesc : Option ImageDescriptor),
      (D3D11RenderSystem.SetupTexture2D mapFormat tex format size imageDesc).1.type
          = TextureType.Texture2D ∧
      (D3D11RenderSystem.SetupTexture2D mapFormat tex format size imageDesc).2.filterMap
          D3D11TextureCall.arraySize? = [1]) := by
  refine ⟨?_, ?_⟩
  · intro tex format size imageDesc
    exact ⟨rfl, rfl, rfl⟩
  · intro mapFormat tex format size imageDesc
    refine ⟨rfl, ?_⟩
    cases imageDesc <;>
      simp [D3D11RenderSystem.SetupTexture2D, D3D11RenderSystem.SetupGenericTexture2D,
        D3D11TextureCall.arraySize?]

/-- Witness for C7: a texture of any previous state (here a cube array with 5
mip levels) set up with size (256, 256) and no image data has type Texture2D,
size (256, 256, 1) and mip-level count 1. -/
theorem setupTexture2D_records_witness :
    (DbgRenderSystem.SetupTexture2D
        { instanceRef := 7, type := TextureType.TextureCubeArray, size := ⟨8, 8, 12⟩,
          mipLevels := 5 } 0 ⟨256, 256⟩ none).1.type = TextureType.Texture2D ∧
    (DbgRenderSystem.SetupTexture2D
        { instanceRef := 7, type := TextureType.TextureCubeArray, size := ⟨8, 8, 12⟩,
          mipLevels := 5 } 0 ⟨256, 256⟩ none).1.size = ⟨256, 256, 1⟩ ∧
    (DbgRenderSystem.SetupTexture2D
        { instanceRef := 7, type := TextureType.TextureCubeArray, size := ⟨8, 8, 12⟩,
          mipLevels := 5 } 0 ⟨256, 256⟩ none).1.mipLevels = 1 :=
  setupTexture2D_records.1
    { instanceRef := 7, type := TextureType.TextureCubeArray, size := ⟨8, 8, 12⟩,
      mipLevels := 5 } 0 ⟨256, 256⟩ none

/-- C8 (counterexample). A plain cube descriptor whose layer count is 2 gets
12 array layers from the Vulkan `GetVkImageArrayLayers`, not 6: the cube
branch multiplies max(1, layers) by 6 for cube and cube-array types alike. -/
theorem cube_layer_count_vulkan :
    GetVkImageArrayLayers
        { type := TextureType.TextureCube, format := 0, flags := 0,
          texture1D := ⟨0, 0⟩, texture2D := ⟨0, 0, 0⟩, texture3D := ⟨0, 0, 0⟩,
          textureCube := ⟨64, 64, 2⟩ }
        (GetVkImageType TextureType.TextureCube) = 12 ∧
    GetVkImageArrayLayers
        { type := TextureType.TextureCube, format := 0, flags := 0,
          texture1D := ⟨0, 0⟩, texture2D := ⟨0, 0, 0⟩, texture3D := ⟨0, 0, 0⟩,
          textureCube := ⟨64, 64, 2⟩ }
        (GetVkImageType TextureType.TextureCube) ≠ 6 := by
  decide

/-- C8 (amended). For every cube-array layer count L >= 1 with 6*L < 2^31 the
internal layer count is 6*L on the three paths: the debug layer's
`SetupTextureCubeArray` records size.z = 6*L, the Direct3D 11
`SetupTextureCubeArray` creates one native texture, with array size 6*L, and
the Vulkan `GetVkImageArrayLayers` gives 6*L for a cube-array descriptor with
L layers.  A plain cube texture has internal layer count 6 in the debug layer
(`SetupTextureCube` records size.z = 6) and in Direct3D 11 (`SetupTextureCube`
passes array size 6).  For a plain cube descriptor Vulkan computes
6 * max(1, layers) from the descriptor's layer count (for every count whose
product is below 2^32), which is 6 exactly when that count is 1 or 0. -/
theorem cubeArray_layer_count :
    (∀ (L : Nat), 1 ≤ L → 6 * L < 2 ^ 31 →
      (∀ (tex : DbgTexture) (format : TextureFormat) (size : Vector2i)
          (imageDesc : Option ImageDescriptor),
        (DbgRenderSystem.SetupTextureCubeArray tex format size L imageDesc).1.size.z
            = ((6 * L : Nat) : Int)) ∧
      (∀ (mapFormat : TextureFormat → Nat) (tex : D3D11Texture) (format : TextureFormat)
          (size : Vector2i) (imageDesc : Option ImageDescriptor),
        (D3D11RenderSystem.SetupTextureCubeArray mapFormat tex format size L
            imageDesc).2.filterMap D3D11TextureCall.arraySize? = [6 * L]) ∧
      (∀ (desc : TextureDescriptor), desc.type = TextureType.TextureCubeArray →
        desc.textureCube.layers = L →
        GetVkImageArrayLayers desc (GetVkImageType desc.type) = 6 * L)) ∧
    ((∀ (tex : DbgTexture) (format : TextureFormat) (size : Vector2i)
        (imageDesc : Option ImageDescriptor),
      (DbgRenderSystem.SetupTextureCube tex format size imageDesc).1.size.z = 6) ∧
     (∀ (mapFormat : TextureFormat → Nat) (tex : D3D11Texture) (format : TextureFormat)
        (size : Vector2i) (imageDesc : Option ImageDescriptor),
      (D3D11RenderSystem.SetupTextureCube mapFormat tex format size imageDesc).2.filterMap
          D3D11TextureCall.arraySize? = [6]) ∧
     (∀ (desc : TextureDescriptor), desc.type = TextureType.TextureCube →
        6 * max 1 desc.textureCube.layers < 2 ^ 32 →
        GetVkImageArrayLayers desc (GetVkImageType desc.type)
            = 6 * max 1 desc.textureCube.layers ∧
        (GetVkImageArrayLayers desc (GetVkImageType desc.type) = 6 ↔
          desc.textureCube.layers ≤ 1))) := by
  refine ⟨?_, ?_, ?_, ?_⟩
  · intro L h1 hL
    refine ⟨?_, ?_, ?_⟩
    · intro tex format size imageDesc
      show wrapInt32 (wrapInt32 (L : Int) * 6) = ((6 * L : Nat) : Int)
      have hcast : wrapInt32 (L : Int) = (L : Int) :=
        wrapInt32_of_range _ (by omega) (by omega)
      rw [hcast, wrapInt32_of_range _ (by omega) (by omega)]
      push_cast
      ring
    · intro mapFormat tex format size imageDesc
      have hmod : L * 6 % uint_range = 6 * L := by
        unfold uint_range
        omega
      cases imageDesc <;>
        simp [D3D11RenderSystem.SetupTextureCubeArray,
          D3D11RenderSystem.SetupGenericTexture2D, D3D11TextureCall.arraySize?, hmod]
    · intro desc htype hlayers
      have hmax : max 1 L = L := Nat.max_eq_right h1
      have hmod : L * 6 % uint_range = 6 * L := by
        unfold uint_range
        omega
      simp [GetVkImageArrayLayers, GetVkImageType, IsCubeTexture, htype, hlayers, hmax, hmod]
  · intro tex format size imageDesc
    rfl
  · intro mapFormat tex format size imageDesc
    cases imageDesc <;>
      simp [D3D11RenderSystem.SetupTextureCube, D3D11RenderSystem.SetupGenericTexture2D,
        D3D11TextureCall.arraySize?]
  · intro desc htype hlayers
    have hval : GetVkImageArrayLayers desc (GetVkImageType desc.type)
        = 6 * max 1 desc.textureCube.layers := by
      have hmod : max 1 desc.textureCube.layers * 6 % uint_range
          = 6 * max 1 desc.textureCube.layers := by
        unfold uint_range
        omega
      simp [GetVkImageArrayLayers, GetVkImageType, IsCubeTexture, htype, hmod]
    refine ⟨hval, ?_⟩
    rw [hval]
    omega

/-- Witness for C8 (amended): with 2 layers the internal layer count of a cube
array is 12 on the three paths, and a plain cube descriptor with 3 layers gets
18 array layers from Vulkan. -/
theorem cubeArray_layer_count_witness :
    (DbgRenderSystem.SetupTextureCubeArray
        { instanceRef := 7, type := TextureType.Undefined, size := ⟨0, 0, 0⟩, mipLevels := 1 }
        0 ⟨64, 64⟩ 2 none).1.size.z = 12 ∧
    (D3D11RenderSystem.SetupTextureCubeArray (fun f => f) { type := TextureType.Undefined }
        0 ⟨64, 64⟩ 2 none).2.filterMap D3D11TextureCall.arraySize? = [12] ∧
    GetVkImageArrayLayers
        { type := TextureType.TextureCubeArray, format := 0, flags := 0,
          texture1D := ⟨0, 0⟩, texture2D := ⟨0, 0, 0⟩, texture3D := ⟨0, 0, 0⟩,
          textureCube := ⟨64, 64, 2⟩ }
        (GetVkImageType TextureType.TextureCubeArray) = 12 ∧
    GetVkImageArrayLayers
        { type := TextureType.TextureCube, format := 0, flags := 0,
          texture1D := ⟨0, 0⟩, texture2D := ⟨0, 0, 0⟩, texture3D := ⟨0, 0, 0⟩,
          textureCube := ⟨64, 64, 3⟩ }
        (GetVkImageType TextureType.TextureCube) = 18 :=
  ⟨((cubeArray_layer_count.1 2 (by decide) (by decide)).1 _ 0 ⟨64, 64⟩ none),
   ((cubeArray_layer_count.1 2 (by decide) (by decide)).2.1 (fun f => f) _ 0 ⟨64, 64⟩ none),
   ((cubeArray_layer_count.1 2 (by decide) (by decide)).2.2 _ rfl rfl),
   (cubeArray_layer_count.2.2.2
      { type := TextureType.TextureCube, format := 0, flags := 0,
        texture1D := ⟨0, 0⟩, texture2D := ⟨0, 0, 0⟩, texture3D := ⟨0, 0, 0⟩,
        textureCube := ⟨64, 64, 3⟩ } rfl (by decide)).1⟩

/-! ### Registries of `D3D11RenderSystem` -/

/-- Creating a resource of a registered kind returns the new object and
inserts it into the registry of that kind. -/
theorem d3d11_create_registered (k : ResourceKind)
    (hk : k ∈ D3D11RenderSystem.registeredKinds) (s : D3D11RenderSystem) (p : Handle)
    (window : Option Handle) :
    (s.Create k p window).2 = some p ∧
      (s.Create k p window).1.registry k = insert p (s.registry k) := by
  cases k <;> simp [D3D11RenderSystem.registeredKinds] at hk <;>
    simp [D3D11RenderSystem.Create, D3D11RenderSystem.registry, TakeOwnership,
      D3D11RenderSystem.CreateRenderContext, D3D11RenderSystem.CreateVertexBuffer,
      D3D11RenderSystem.CreateIndexBuffer, D3D11RenderSystem.CreateConstantBuffer,
      D3D11RenderSystem.CreateTexture, D3D11RenderSystem.CreateSampler,
      D3D11RenderSystem.CreateShader, D3D11RenderSystem.CreateShaderProgram,
      D3D11RenderSystem.CreateGraphicsPipeline, D3D11RenderSystem.CreateComputePipeline,
      D3D11RenderSystem.CreateQuery]

/-- Releasing a handle of a registered kind erases it from the registry of
that kind. -/
theorem d3d11_release_registry (k : ResourceKind)
    (hk : k ∈ D3D11RenderSystem.registeredKinds) (s : D3D11RenderSystem) (h : Handle) :
    (s.Release k h).registry k = (s.registry k).erase h := by
  cases k <;> simp [D3D11RenderSystem.registeredKinds] at hk <;>
    simp [D3D11RenderSystem.Release, D3D11RenderSystem.registry, RemoveFromUniqueSet,
      D3D11RenderSystem.ReleaseRenderContext, D3D11RenderSystem.ReleaseVertexBuffer,
      D3D11RenderSystem.ReleaseIndexBuffer, D3D11RenderSystem.ReleaseConstantBuffer,
      D3D11RenderSystem.ReleaseTexture, D3D11RenderSystem.ReleaseSampler,
      D3D11RenderSystem.ReleaseShader, D3D11RenderSystem.ReleaseShaderProgram,
      D3D11RenderSystem.ReleaseGraphicsPipeline, D3D11RenderSystem.ReleaseComputePipeline,
      D3D11RenderSystem.ReleaseQuery]

/-- Releasing a handle as a resource of one kind leaves the registry of every
other kind as it was. -/
theorem d3d11_release_other (k k2 : ResourceKind) (hne : k2 ≠ k) (s : D3D11RenderSystem)
    (h : Handle) : (s.Release k h).registry k2 = s.registry k2 := by
  cases k <;> cases k2 <;> first
    | exact absurd rfl hne
    | rfl

/-- Creating resources at the addresses `ps` returns these addresses, in
order, and adds them to the registry. -/
theorem d3d11_createAll_registry (k : ResourceKind)
    (hk : k ∈ D3D11RenderSystem.registeredKinds) (window : Option Handle) :
    ∀ (ps : List Handle) (s : D3D11RenderSystem),
      (D3D11RenderSystem.createAll k window s ps).2 = ps ∧
      (D3D11RenderSystem.createAll k window s ps).1.registry k
        = s.registry k ∪ ps.toFinset := by
  intro ps
  induction ps with
  | nil => intro s; simp [D3D11RenderSystem.createAll]
  | cons p ps ih =>
      intro s
      obtain ⟨hret, hreg⟩ := d3d11_create_registered k hk s p window
      obtain ⟨ih1, ih2⟩ := ih (s.Create k p window).1
      refine ⟨?_, ?_⟩
      · simp [D3D11RenderSystem.createAll, hret, ih1]
      · simp only [D3D11RenderSystem.createAll, ih2, hreg]
        ext x
        simp only [Finset.mem_union, Finset.mem_insert, List.mem_toFinset, List.mem_cons]
        tauto

/-- Releasing the handles `hs` removes them from the registry and nothing else. -/
theorem d3d11_releaseAll_registry (k : ResourceKind)
    (hk : k ∈ D3D11RenderSystem.registeredKinds) :
    ∀ (hs : List Handle) (s : D3D11RenderSystem),
      (D3D11RenderSystem.releaseAll k s hs).registry k = s.registry k \ hs.toFinset := by
  intro hs
  induction hs with
  | nil => intro s; simp [D3D11RenderSystem.releaseAll]
  | cons h hs ih =>
      intro s
      simp only [D3D11RenderSystem.releaseAll, ih, d3d11_release_registry k hk]
      ext x
      simp only [Finset.mem_sdiff, Finset.mem_erase, List.mem_toFinset, List.mem_cons]
      tauto

/-- C9. In `D3D11RenderSystem`, for every resource kind that is registered on
creation: (1) creating a resource at a fresh address and releasing the handle
returned leaves the registry of the kind exactly as it was before; (2)
creating N resources at fresh addresses and releasing all the handles
returned, in any order, leaves the registry as it was before (empty if it was
empty); (3) each release erases exactly the handle given from the registry of
the kind and leaves every other registry untouched. -/
theorem d3d11_registry_roundtrip (k : ResourceKind)
    (hk : k ∈ D3D11RenderSystem.registeredKinds) :
    (∀ (s : D3D11RenderSystem) (p : Handle) (window : Option Handle),
      p ∉ s.registry k →
      ∃ h, (s.Create k p window).2 = some h ∧
        ((s.Create k p window).1.Release k h).registry k = s.registry k) ∧
    (∀ (s : D3D11RenderSystem) (ps order : List Handle) (window : Option Handle),
      (∀ p ∈ ps, p ∉ s.registry k) →
      order.Perm (D3D11RenderSystem.createAll k window s ps).2 →
      (D3D11RenderSystem.releaseAll k
          (D3D11RenderSystem.createAll k window s ps).1 order).registry k = s.registry k ∧
      (s.registry k = ∅ →
        (D3D11RenderSystem.releaseAll k
          (D3D11RenderSystem.createAll k window s ps).1 order).registry k = ∅)) ∧
    (∀ (s : D3D11RenderSystem) (h : Handle),
      (s.Release k h).registry k = (s.registry k).erase h ∧
      ∀ k2, k2 ≠ k → (s.Release k h).registry k2 = s.registry k2) := by
  refine ⟨?_, ?_, ?_⟩
  · intro s p window hfresh
    obtain ⟨hret, hreg⟩ := d3d11_create_registered k hk s p window
    refine ⟨p, hret, ?_⟩
    rw [d3d11_release_registry k hk, hreg]
    exact Finset.erase_insert hfresh
  · intro s ps order window hfresh hperm
    obtain ⟨hret, hreg⟩ := d3d11_createAll_registry k hk window ps s
    rw [hret] at hperm
    have hmain : (D3D11RenderSystem.releaseAll k
        (D3D11RenderSystem.createAll k window s ps).1 order).registry k = s.registry k := by
      rw [d3d11_releaseAll_registry k hk, hreg]
      ext x
      simp only [Finset.mem_sdiff, Finset.mem_union, List.mem_toFinset, hperm.mem_iff]
      constructor
      · rintro ⟨h1 | h1, h2⟩
        · exact h1
        · exact absurd h1 h2
      · intro hx
        exact ⟨Or.inl hx, fun hp => hfresh x hp hx⟩
    exact ⟨hmain, fun hempty => hmain.trans hempty⟩
  · intro s h
    exact ⟨d3d11_release_registry k hk s h, fun k2 hne => d3d11_release_other k k2 hne s h⟩

/-- Witness for C9: in a render system with empty registries, three textures
are created at the addresses 10, 20, 30 and released in the order 20, 30, 10;
the texture registry is empty again.  A single create and release of a query
at address 10 gives back the empty query registry as well. -/
theorem d3d11_registry_roundtrip_witness :
    (D3D11RenderSystem.releaseAll ResourceKind.Texture
        (D3D11RenderSystem.createAll ResourceKind.Texture none (D3D11RenderSystem.init 0)
          [10, 20, 30]).1 [20, 30, 10]).registry ResourceKind.Texture = ∅ ∧
    (∃ h, ((D3D11RenderSystem.init 0).Create ResourceKind.Query 10 none).2 = some h ∧
      ((((D3D11RenderSystem.init 0).Create ResourceKind.Query 10 none).1.Release
          ResourceKind.Query h).registry ResourceKind.Query
        = (D3D11RenderSystem.init 0).registry ResourceKind.Query)) :=
  ⟨((d3d11_registry_roundtrip ResourceKind.Texture (by decide)).2.1
      (D3D11RenderSystem.init 0) [10, 20, 30] [20, 30, 10] none
      (by decide) (by decide)).2 rfl,
   (d3d11_registry_roundtrip ResourceKind.Query (by decide)).1
      (D3D11RenderSystem.init 0) 10 none (by decide)⟩

/-! ### Registries of the debug layer -/

/-- After the debug layer has created a render context (wrapper at `pDbg`,
wrapped context at `pInstance`, two different objects) and released the handle
it returned, the wrapped context is still in the registry of the wrapped
render system. -/
theorem dbg_release_renderContext_leaves_instance (DXGetRenderingCaps : Nat → RenderingCaps)
    (s : DbgRenderSystem) (pInstance pDbg : Handle) (window : Option Handle)
    (hne : pInstance ≠ pDbg) :
    ∃ s1, DbgRenderSystem.CreateRenderContext DXGetRenderingCaps s pInstance pDbg window
        = some (s1, pDbg) ∧
      pInstance ∈ (s1.ReleaseRenderContext pDbg).instance_.renderContexts_ := by
  refine ⟨_, rfl, ?_⟩
  simp [DbgRenderSystem.ReleaseRenderContext, D3D11RenderSystem.ReleaseRenderContext,
    D3D11RenderSystem.CreateRenderContext, RemoveFromUniqueSet, TakeOwnership, hne]

/-- C10 (the code at the failing input). A debug layer around a Direct3D 11
render system, both with empty registries, creates a render context (wrapped
context at address 100, debug wrapper at address 200) and releases the handle
returned.  The handle is 200 and wraps 100; after the release the registry of
the debug layer is empty, but the registry of the wrapped render system still
holds the context 100: it was handed the wrapper 200, which it does not own.
The same steps for a vertex buffer, which is released through `ReleaseDbg`,
leave both registries empty. -/
theorem dbg_release_renderContext_evaluated :
    (DbgRenderSystem.CreateRenderContext (fun _ => { hasConservativeRasterization := false })
        (DbgRenderSystem.init (D3D11RenderSystem.init 0)) 100 200 none).map
      (fun r => (r.2, r.1.instanceOf r.2,
        (r.1.ReleaseRenderContext r.2).renderContexts_,
        (r.1.ReleaseRenderContext r.2).instance_.renderContexts_))
      = some (200, 100, ∅, {100}) ∧
    (DbgRenderSystem.CreateVertexBuffer
        (DbgRenderSystem.init (D3D11RenderSystem.init 0)) 100 200).map
      (fun r => (r.2, r.1.instanceOf r.2,
        (r.1.ReleaseVertexBuffer r.2).vertexBuffers_,
        (r.1.ReleaseVertexBuffer r.2).instance_.vertexBuffers_))
      = some (200, 100, ∅, ∅) := by
  decide

/-! ### Direct3D 11 device creation -/

/-- C11. `CreateDevice` attempts device creation in the order HARDWARE, WARP,
SOFTWARE and stops at the first attempt that succeeds: for every behaviour of
the native call, the attempts made are the prefix of that order up to and
including the first success, the members written by that first success are
the device members after the call, and no later driver type is attempted;
when no attempt succeeds, the three attempts have been made. -/
theorem createDevice_first_success (native : NativeCreateDevice) (m0 : D3D11DeviceMembers) :
    let r1 := native D3D_DRIVER_TYPE.D3D_DRIVER_TYPE_HARDWARE m0
    let r2 := native D3D_DRIVER_TYPE.D3D_DRIVER_TYPE_WARP r1.2
    let r3 := native D3D_DRIVER_TYPE.D3D_DRIVER_TYPE_SOFTWARE r2.2
    (SUCCEEDED r1.1 = true →
      D3D11RenderSystem.CreateDevice native m0 =
        ([D3D_DRIVER_TYPE.D3D_DRIVER_TYPE_HARDWARE], Except.ok r1.2)) ∧
    (SUCCEEDED r1.1 = false → SUCCEEDED r2.1 = true →
      D3D11RenderSystem.CreateDevice native m0 =
        ([D3D_DRIVER_TYPE.D3D_DRIVER_TYPE_HARDWARE, D3D_DRIVER_TYPE.D3D_DRIVER_TYPE_WARP],
          Except.ok r2.2)) ∧
    (SUCCEEDED r1.1 = false → SUCCEEDED r2.1 = false → SUCCEEDED r3.1 = true →
      D3D11RenderSystem.CreateDevice native m0 =
        ([D3D_DRIVER_TYPE.D3D_DRIVER_TYPE_HARDWARE, D3D_DRIVER_TYPE.D3D_DRIVER_TYPE_WARP,
          D3D_DRIVER_TYPE.D3D_DRIVER_TYPE_SOFTWARE], Except.ok r3.2)) ∧
    (SUCCEEDED r1.1 = false → SUCCEEDED r2.1 = false → SUCCEEDED r3.1 = false →
      (D3D11RenderSystem.CreateDevice native m0).1 =
        [D3D_DRIVER_TYPE.D3D_DRIVER_TYPE_HARDWARE, D3D_DRIVER_TYPE.D3D_DRIVER_TYPE_WARP,
          D3D_DRIVER_TYPE.D3D_DRIVER_TYPE_SOFTWARE]) := by
  intro r1 r2 r3
  refine ⟨?_, ?_, ?_, ?_⟩
  · intro h1
    simp [D3D11RenderSystem.CreateDevice, D3D11RenderSystem.CreateDevice.loop, DXThrowIfFailed,
      FAILED, r1, h1]
  · intro h1 h2
    simp [D3D11RenderSystem.CreateDevice, D3D11RenderSystem.CreateDevice.loop, DXThrowIfFailed,
      FAILED, r1, r2, h1, h2]
  · intro h1 h2 h3
    simp [D3D11RenderSystem.CreateDevice, D3D11RenderSystem.CreateDevice.loop, DXThrowIfFailed,
      FAILED, r1, r2, r3, h1, h2, h3]
  · intro h1 h2 h3
    simp [D3D11RenderSystem.CreateDevice, D3D11RenderSystem.CreateDevice.loop, DXThrowIfFailed,
      FAILED, r1, r2, r3, h1, h2, h3]

/-- Witness for C11: when only the third (software) attempt succeeds, exactly
the three attempts are made and the device of the third is the active one. -/
theorem createDevice_first_success_witness :
    D3D11RenderSystem.CreateDevice onlySoftwareSucceeds
        { device_ := none, featureLevel_ := 0, context_ := none } =
      ([D3D_DRIVER_TYPE.D3D_DRIVER_TYPE_HARDWARE, D3D_DRIVER_TYPE.D3D_DRIVER_TYPE_WARP,
        D3D_DRIVER_TYPE.D3D_DRIVER_TYPE_SOFTWARE],
       Except.ok { device_ := some 500, featureLevel_ := 11, context_ := some 600 }) :=
  (createDevice_first_success onlySoftwareSucceeds
    { device_ := none, featureLevel_ := 0, context_ := none }).2.2.1 rfl rfl rfl

/-- Whatever the native calls return, `CreateDevice` does not throw: the code
tested after the loop is the constant 0. -/
theorem createDevice_never_throws (native : NativeCreateDevice) (m0 : D3D11DeviceMembers) :
    ∃ m, (D3D11RenderSystem.CreateDevice native m0).2 = Except.ok m := by
  simp [D3D11RenderSystem.CreateDevice, DXThrowIfFailed, FAILED]

/-- C12 (the code at the failing input). All three device-creation attempts
fail with `E_FAIL`: `CreateDevice` makes the three attempts and returns
normally, with a null device and a null context, and the constructor
completes. -/
theorem createDevice_all_fail_evaluated :
    D3D11RenderSystem.CreateDevice everyDriverFails
        { device_ := none, featureLevel_ := 0, context_ := none } =
      ([D3D_DRIVER_TYPE.D3D_DRIVER_TYPE_HARDWARE, D3D_DRIVER_TYPE.D3D_DRIVER_TYPE_WARP,
        D3D_DRIVER_TYPE.D3D_DRIVER_TYPE_SOFTWARE],
       Except.ok { device_ := none, featureLevel_ := 0, context_ := none }) ∧
    D3D11RenderSystem.construct 0 everyDriverFails
        { device_ := none, featureLevel_ := 0, context_ := none } =
      Except.ok (D3D11RenderSystem.init 0,
        { device_ := none, featureLevel_ := 0, context_ := none }) := by
  constructor <;> rfl

/-! ### Buffer creation and setup -/

/-- C13 (counterexample). In a `D3D11RenderSystem` with empty registries,
`CreateStorageBuffer` returns a null handle and leaves the render system as it
was, so no storage buffer is registered; the debug layer's
`CreateStorageBuffer` around it, which dereferences the handle, has no defined
result. -/
theorem d3d11_createStorageBuffer_null :
    (D3D11RenderSystem.init 0).CreateStorageBuffer = (D3D11RenderSystem.init 0, none) ∧
    (DbgRenderSystem.CreateStorageBuffer
        (DbgRenderSystem.init (D3D11RenderSystem.init 0)) 200).isNone = true := by
  decide

/-- C13 (amended). Each of `CreateVertexBuffer`, `CreateIndexBuffer` and
`CreateConstantBuffer` of `D3D11RenderSystem` inserts the buffer object it
allocates into the registry of its kind and returns a non-null handle to it,
so that the debug layer's `Create*Buffer` is well defined for these three
kinds; `CreateStorageBuffer` returns a null handle and leaves the render
system as it was. -/
theorem d3d11_createBuffer_handles (s : D3D11RenderSystem) (p : Handle) :
    ((s.CreateVertexBuffer p).2 = some p ∧
      (s.CreateVertexBuffer p).1.vertexBuffers_ = insert p s.vertexBuffers_) ∧
    ((s.CreateIndexBuffer p).2 = some p ∧
      (s.CreateIndexBuffer p).1.indexBuffers_ = insert p s.indexBuffers_) ∧
    ((s.CreateConstantBuffer p).2 = some p ∧
      (s.CreateConstantBuffer p).1.constantBuffers_ = insert p s.constantBuffers_) ∧
    s.CreateStorageBuffer = (s, none) ∧
    (∀ (d : DbgRenderSystem) (pDbg : Handle),
      (d.CreateVertexBuffer p pDbg).isSome = true ∧
      (d.CreateIndexBuffer p pDbg).isSome = true ∧
      (d.CreateConstantBuffer p pDbg).isSome = true) := by
  refine ⟨⟨rfl, rfl⟩, ⟨rfl, rfl⟩, ⟨rfl, rfl⟩, rfl, ?_⟩
  intro d pDbg
  exact ⟨rfl, rfl, rfl⟩

/-- Witness for C13 (amended): in a render system with empty registries a
vertex buffer created at address 10 is returned and registered, and the debug
layer's `CreateVertexBuffer` around that render system is defined. -/
theorem d3d11_createBuffer_handles_witness :
    ((D3D11RenderSystem.init 0).CreateVertexBuffer 10).2 = some 10 ∧
    ((D3D11RenderSystem.init 0).CreateVertexBuffer 10).1.vertexBuffers_ = {10} ∧
    ((DbgRenderSystem.init (D3D11RenderSystem.init 0)).CreateVertexBuffer 10 20).isSome
      = true :=
  ⟨(d3d11_createBuffer_handles (D3D11RenderSystem.init 0) 10).1.1,
   (d3d11_createBuffer_handles (D3D11RenderSystem.init 0) 10).1.2,
   ((d3d11_createBuffer_handles (D3D11RenderSystem.init 0) 10).2.2.2.2
      (DbgRenderSystem.init (D3D11RenderSystem.init 0)) 20).1⟩

/-- The out-of-bounds check reports nothing when the true sum is within the
buffer size. -/
theorem debugBufferSize_of_le (bufferSize dataSize offset : Nat) (source : String)
    (hle : offset + dataSize ≤ bufferSize) :
    DebugBufferSize bufferSize dataSize offset source = [] := by
  unfold DebugBufferSize
  have h : (dataSize + offset) % size_t_range ≤ bufferSize :=
    Nat.le_trans (Nat.mod_le _ _) (by omega)
  rw [if_neg (Nat.not_lt.2 h)]

/-- C14. For each debug-layer `Setup{Vertex,Index,Constant,Storage}Buffer`,
every previous state of the debug buffer and every dataSize n (the format size
f of a vertex or index format being positive, without which the call is not
defined): after the call the debug buffer has initialized = true and recorded
size n, and a vertex or index buffer has elements = floor(n / f); a following
`Write*Buffer` with offset + dataSize <= n then has as its only events the
write of the wrapped render system, with the arguments unchanged, and the
profiler increment: no error is reported. -/
theorem setupBuffer_records :
    (∀ (vb : DbgVertexBuffer) (data : DataPtr) (n : Nat) (usage : BufferUsage)
        (fmt : VertexFormat), 0 < fmt.formatSize →
      ∃ vb2 events, DbgRenderSystem.SetupVertexBuffer vb data n usage fmt = some (vb2, events) ∧
        vb2.initialized = true ∧ vb2.size = n ∧ vb2.elements = n / fmt.formatSize ∧
        ∀ (data2 : DataPtr) (dataSize offset : Nat), offset + dataSize ≤ n →
          DbgRenderSystem.WriteVertexBuffer vb2 data2 dataSize offset =
            (vb2, [DbgEvent.instanceCall
                     (InstanceCall.WriteVertexBuffer vb.instanceRef data2 dataSize offset),
                   DbgEvent.profilerInc ProfilerCounter.writeVertexBuffer])) ∧
    (∀ (ib : DbgIndexBuffer) (data : DataPtr) (n : Nat) (usage : BufferUsage)
        (fmt : IndexFormat), 0 < fmt.formatSize →
      ∃ ib2 events, DbgRenderSystem.SetupIndexBuffer ib data n usage fmt = some (ib2, events) ∧
        ib2.initialized = true ∧ ib2.size = n ∧ ib2.elements = n / fmt.formatSize ∧
        ∀ (data2 : DataPtr) (dataSize offset : Nat), offset + dataSize ≤ n →
          DbgRenderSystem.WriteIndexBuffer ib2 data2 dataSize offset =
            (ib2, [DbgEvent.instanceCall
                     (InstanceCall.WriteIndexBuffer ib.instanceRef data2 dataSize offset),
                   DbgEvent.profilerInc ProfilerCounter.writeIndexBuffer])) ∧
    (∀ (cb : DbgConstantBuffer) (data : DataPtr) (n : Nat) (usage : BufferUsage),
      (DbgRenderSystem.SetupConstantBuffer cb data n usage).1.initialized = true ∧
      (DbgRenderSystem.SetupConstantBuffer cb data n usage).1.size = n ∧
      ∀ (data2 : DataPtr) (dataSize offset : Nat), offset + dataSize ≤ n →
        DbgRenderSystem.WriteConstantBuffer
            (DbgRenderSystem.SetupConstantBuffer cb data n usage).1 data2 dataSize offset =
          ((DbgRenderSystem.SetupConstantBuffer cb data n usage).1,
           [DbgEvent.instanceCall
              (InstanceCall.WriteConstantBuffer cb.instanceRef data2 dataSize offset),
            DbgEvent.profilerInc ProfilerCounter.writeConstantBuffer])) ∧
    (∀ (sb : DbgStorageBuffer) (data : DataPtr) (n : Nat) (usage : BufferUsage),
      (DbgRenderSystem.SetupStorageBuffer sb data n usage).1.initialized = true ∧
      (DbgRenderSystem.SetupStorageBuffer sb data n usage).1.size = n ∧
      ∀ (data2 : DataPtr) (dataSize offset : Nat), offset + dataSize ≤ n →
        DbgRenderSystem.WriteStorageBuffer
            (DbgRenderSystem.SetupStorageBuffer sb data n usage).1 data2 dataSize offset =
          ((DbgRenderSystem.SetupStorageBuffer sb data n usage).1,
           [DbgEvent.instanceCall
              (InstanceCall.WriteStorageBuffer sb.instanceRef data2 dataSize offset),
            DbgEvent.profilerInc ProfilerCounter.writeStorageBuffer])) := by
  refine ⟨?_, ?_, ?_, ?_⟩
  · intro vb data n usage fmt hf
    have hne : fmt.GetFormatSize ≠ 0 := Nat.pos_iff_ne_zero.1 hf
    simp only [DbgRenderSystem.SetupVertexBuffer, if_neg hne]
    refine ⟨_, _, rfl, rfl, rfl, rfl, ?_⟩
    intro data2 dataSize offset hle
    simp [DbgRenderSystem.WriteVertexBuffer, debugBufferSize_of_le _ _ _ _ hle]
  · intro ib data n usage fmt hf
    have hne : fmt.GetFormatSize ≠ 0 := Nat.pos_iff_ne_zero.1 hf
    simp only [DbgRenderSystem.SetupIndexBuffer, if_neg hne]
    refine ⟨_, _, rfl, rfl, rfl, rfl, ?_⟩
    intro data2 dataSize offset hle
    simp [DbgRenderSystem.WriteIndexBuffer, debugBufferSize_of_le _ _ _ _ hle]
  · intro cb data n usage
    refine ⟨rfl, rfl, ?_⟩
    intro data2 dataSize offset hle
    simp [DbgRenderSystem.WriteConstantBuffer, DbgRenderSystem.SetupConstantBuffer,
      debugBufferSize_of_le _ _ _ _ hle]
  · intro sb data n usage
    refine ⟨rfl, rfl, ?_⟩
    intro data2 dataSize offset hle
    simp [DbgRenderSystem.WriteStorageBuffer, DbgRenderSystem.SetupStorageBuffer,
      debugBufferSize_of_le _ _ _ _ hle]

/-- Witness for C14: a vertex buffer never set up, set up with 100 bytes and
a format of 12 bytes per vertex, is initialized with size 100 and 8 elements
(and the setup warns, 100 not being a multiple of 12); a write of 36 bytes at
offset 64, which ends at the buffer size, is forwarded without a report. -/
theorem setupBuffer_records_witness :
    ∃ vb2 events,
      DbgRenderSystem.SetupVertexBuffer
          { instanceRef := 5, format := { formatSize := 0 }, size := 0, elements := 0,
            initialized := false } 77 100 0 { formatSize := 12 } = some (vb2, events) ∧
      vb2.initialized = true ∧ vb2.size = 100 ∧ vb2.elements = 100 / 12 ∧
      ∀ (data2 : DataPtr) (dataSize offset : Nat), offset + dataSize ≤ 100 →
        DbgRenderSystem.WriteVertexBuffer vb2 data2 dataSize offset =
          (vb2, [DbgEvent.instanceCall (InstanceCall.WriteVertexBuffer 5 data2 dataSize offset),
                 DbgEvent.profilerInc ProfilerCounter.writeVertexBuffer]) :=
  setupBuffer_records.1
    { instanceRef := 5, format := { formatSize := 0 }, size := 0, elements := 0,
      initialized := false } 77 100 0 { formatSize := 12 } (by decide)

/-- C15. Size-alignment problems are advisory only.  For a vertex or index
format of positive size f, `SetupVertexBuffer` / `SetupIndexBuffer` report one
ImproperArgument warning exactly when dataSize is not a multiple of f;
`SetupConstantBuffer` reports one exactly when dataSize is not a multiple of
16; `SetupStorageBuffer` never warns.  In every case the only other event is
the `Setup*Buffer` of the wrapped render system, once, on the wrapped buffer
with the data, dataSize, usage (and format) unchanged. -/
theorem setupBuffer_alignment_warning :
    (∀ (vb : DbgVertexBuffer) (data : DataPtr) (n : Nat) (usage : BufferUsage)
        (fmt : VertexFormat), 0 < fmt.formatSize →
      (DbgRenderSystem.SetupVertexBuffer vb data n usage fmt).map Prod.snd =
        some ((if fmt.formatSize ∣ n then [] else
                [DbgEvent.warning WarningType.ImproperArgument
                  ("improper buffer size with vertex format of " ++
                    toString fmt.formatSize ++ " bytes") "SetupVertexBuffer"]) ++
              [DbgEvent.instanceCall
                (InstanceCall.SetupVertexBuffer vb.instanceRef data n usage fmt)])) ∧
    (∀ (ib : DbgIndexBuffer) (data : DataPtr) (n : Nat) (usage : BufferUsage)
        (fmt : IndexFormat), 0 < fmt.formatSize →
      (DbgRenderSystem.SetupIndexBuffer ib data n usage fmt).map Prod.snd =
        some ((if fmt.formatSize ∣ n then [] else
                [DbgEvent.warning WarningType.ImproperArgument
                  ("improper buffer size with index format of " ++
                    toString fmt.formatSize ++ " bytes") "SetupIndexBuffer"]) ++
              [DbgEvent.instanceCall
                (InstanceCall.SetupIndexBuffer ib.instanceRef data n usage fmt)])) ∧
    (∀ (cb : DbgConstantBuffer) (data : DataPtr) (n : Nat) (usage : BufferUsage),
      (DbgRenderSystem.SetupConstantBuffer cb data n usage).2 =
        (if 16 ∣ n then [] else
          [DbgEvent.warning WarningType.ImproperArgument
            "buffer size is out of pack alignment" "SetupConstantBuffer"]) ++
        [DbgEvent.instanceCall
          (InstanceCall.SetupConstantBuffer cb.instanceRef data n usage)]) ∧
    (∀ (sb : DbgStorageBuffer) (data : DataPtr) (n : Nat) (usage : BufferUsage),
      (DbgRenderSystem.SetupStorageBuffer sb data n usage).2 =
        [DbgEvent.instanceCall
          (InstanceCall.SetupStorageBuffer sb.instanceRef data n usage)]) := by
  refine ⟨?_, ?_, ?_, ?_⟩
  · intro vb data n usage fmt hf
    have hne : fmt.GetFormatSize ≠ 0 := Nat.pos_iff_ne_zero.1 hf
    simp only [DbgRenderSystem.SetupVertexBuffer, if_neg hne, Option.map_some']
    by_cases hd : fmt.formatSize ∣ n
    · have hm : n % fmt.GetFormatSize = 0 := Nat.mod_eq_zero_of_dvd hd
      simp [hd, hm]
    · have hm : n % fmt.formatSize ≠ 0 := fun h => hd (Nat.dvd_of_mod_eq_zero h)
      simp [hd, hm, VertexFormat.GetFormatSize]
  · intro ib data n usage fmt hf
    have hne : fmt.GetFormatSize ≠ 0 := Nat.pos_iff_ne_zero.1 hf
    simp only [DbgRenderSystem.SetupIndexBuffer, if_neg hne, Option.map_some']
    by_cases hd : fmt.formatSize ∣ n
    · have hm : n % fmt.GetFormatSize = 0 := Nat.mod_eq_zero_of_dvd hd
      simp [hd, hm]
    · have hm : n % fmt.formatSize ≠ 0 := fun h => hd (Nat.dvd_of_mod_eq_zero h)
      simp [hd, hm, IndexFormat.GetFormatSize]
  · intro cb data n usage
    simp only [DbgRenderSystem.SetupConstantBuffer]
    by_cases hd : 16 ∣ n
    · have hm : n % 16 = 0 := Nat.mod_eq_zero_of_dvd hd
      simp [hd, hm]
    · have hm : n % 16 ≠ 0 := fun h => hd (Nat.dvd_of_mod_eq_zero h)
      simp [hd, hm]
  · intro sb data n usage
    rfl

/-- Witness for C15: an index buffer set up with 10 bytes and 4 bytes per
index is warned about (10 is not a multiple of 4) and still set up on the
wrapped render system; with 12 bytes there is no warning. -/
theorem setupBuffer_alignment_warning_witness :
    (DbgRenderSystem.SetupIndexBuffer
        { instanceRef := 9, size := 0, elements := 0, initialized := false } 77 10 1
        { formatSize := 4 }).map Prod.snd =
      some [DbgEvent.warning WarningType.ImproperArgument
              "improper buffer size with index format of 4 bytes" "SetupIndexBuffer",
            DbgEvent.instanceCall (InstanceCall.SetupIndexBuffer 9 77 10 1 { formatSize := 4 })] ∧
    (DbgRenderSystem.SetupIndexBuffer
        { instanceRef := 9, size := 0, elements := 0, initialized := false } 77 12 1
        { formatSize := 4 }).map Prod.snd =
      some [DbgEvent.instanceCall
              (InstanceCall.SetupIndexBuffer 9 77 12 1 { formatSize := 4 })] :=
  ⟨setupBuffer_alignment_warning.2.1
      { instanceRef := 9, size := 0, elements := 0, initialized := false } 77 10 1
      { formatSize := 4 } (by decide),
   setupBuffer_alignment_warning.2.1
      { instanceRef := 9, size := 0, elements := 0, initialized := false } 77 12 1
      { formatSize := 4 } (by decide)⟩

/-! ### Debug layer: pipeline creation -/

/-- The events `CreateGraphicsPipeline` reports before it looks at the shader
program are no calls on the wrapped render system. -/
theorem createGraphicsPipeline_events (s : DbgRenderSystem) (desc : GraphicsPipelineDescriptor)
    (pInstance pDbg : Handle) :
    ∃ checks : List DbgEvent, (∀ c, DbgEvent.instanceCall c ∉ checks) ∧
      (s.CreateGraphicsPipeline desc pInstance pDbg).1 = checks ++
        [match desc.shaderProgram with
         | some shaderProgram => DbgEvent.instanceCall (InstanceCall.CreateGraphicsPipeline
             { desc with shaderProgram := some (s.instanceOf shaderProgram) })
         | none => DbgEvent.error ErrorType.InvalidArgument "shader program must not be null"
             "CreateGraphicsPipeline"] := by
  refine ⟨(if desc.rasterizer.conservativeRasterization && !s.caps_.hasConservativeRasterization
      then [DbgEvent.errorNotSupported "conservative rasterization" "CreateGraphicsPipeline"]
      else []) ++
    (if desc.blend.targets.length > 8 then
      [DbgEvent.error ErrorType.InvalidArgument "too many blend state targets (limit is 8)"
        "CreateGraphicsPipeline"] else []) ++
    (if s.renderer_.isDirect3D then
      match desc.primitiveTopology with
      | PrimitiveTopology.LineLoop =>
          [DbgEvent.error ErrorType.InvalidArgument
            "renderer does not support primitive topology line loop" "CreateGraphicsPipeline"]
      | PrimitiveTopology.TriangleFan =>
          [DbgEvent.error ErrorType.InvalidArgument
            "renderer does not support primitive topology triangle fan" "CreateGraphicsPipeline"]
      | _ => []
      else []), ?_, ?_⟩
  · intro c hc
    simp only [List.mem_append] at hc
    rcases hc with (hc | hc) | hc
    · split at hc <;> simp at hc
    · split at hc <;> simp at hc
    · split at hc
      · split at hc <;> simp at hc
      · simp at hc
  · cases hsp : desc.shaderProgram <;>
      simp [DbgRenderSystem.CreateGraphicsPipeline, hsp, D3D11RenderSystem.CreateGraphicsPipeline,
        TakeOwnership]

/-- C16. For `CreateGraphicsPipeline` and `CreateComputePipeline` of the debug
layer: when the descriptor's shader program is null, the last event of the
call is the InvalidArgument error "shader program must not be null", no event
is a call on the wrapped render system, null is returned and the debug layer
(with its registries and the wrapped render system) is unchanged; when it is
non-null, the only call on the wrapped render system is the pipeline
creation, with a descriptor equal to the client's except that the shader
program is replaced by the wrapped program instance. -/
theorem createPipeline_shaderProgram :
    (∀ (s : DbgRenderSystem) (desc : GraphicsPipelineDescriptor) (pInstance pDbg : Handle),
      desc.shaderProgram = none →
      (s.CreateGraphicsPipeline desc pInstance pDbg).2 = some (s, none) ∧
      ∃ checks : List DbgEvent, (∀ c, DbgEvent.instanceCall c ∉ checks) ∧
        (s.CreateGraphicsPipeline desc pInstance pDbg).1 = checks ++
          [DbgEvent.error ErrorType.InvalidArgument "shader program must not be null"
            "CreateGraphicsPipeline"]) ∧
    (∀ (s : DbgRenderSystem) (desc : GraphicsPipelineDescriptor) (pInstance pDbg : Handle)
        (shaderProgram : Handle), desc.shaderProgram = some shaderProgram →
      ∃ checks : List DbgEvent, (∀ c, DbgEvent.instanceCall c ∉ checks) ∧
        (s.CreateGraphicsPipeline desc pInstance pDbg).1 = checks ++
          [DbgEvent.instanceCall (InstanceCall.CreateGraphicsPipeline
            { desc with shaderProgram := some (s.instanceOf shaderProgram) })]) ∧
    (∀ (s : DbgRenderSystem) (desc : ComputePipelineDescriptor) (pInstance : Handle),
      desc.shaderProgram = none →
      s.CreateComputePipeline desc pInstance =
        ([DbgEvent.error ErrorType.InvalidArgument "shader program must not be null"
            "CreateComputePipeline"], some (s, none))) ∧
    (∀ (s : DbgRenderSystem) (desc : ComputePipelineDescriptor) (pInstance : Handle)
        (shaderProgram : Handle), desc.shaderProgram = some shaderProgram →
      (s.CreateComputePipeline desc pInstance).1 =
        [DbgEvent.instanceCall (InstanceCall.CreateComputePipeline
          { desc with shaderProgram := some (s.instanceOf shaderProgram) })]) := by
  refine ⟨?_, ?_, ?_, ?_⟩
  · intro s desc pInstance pDbg hnull
    refine ⟨by simp [DbgRenderSystem.CreateGraphicsPipeline, hnull], ?_⟩
    obtain ⟨checks, hchecks, hev⟩ := createGraphicsPipeline_events s desc pInstance pDbg
    exact ⟨checks, hchecks, by rw [hev, hnull]⟩
  · intro s desc pInstance pDbg shaderProgram hsp
    obtain ⟨checks, hchecks, hev⟩ := createGraphicsPipeline_events s desc pInstance pDbg
    exact ⟨checks, hchecks, by rw [hev, hsp]⟩
  · intro s desc pInstance hnull
    simp [DbgRenderSystem.CreateComputePipeline, hnull]
  · intro s desc pInstance shaderProgram hsp
    simp [DbgRenderSystem.CreateComputePipeline, hsp]

/-- Witness for C16: a debug layer with empty registries is asked for a
graphics pipeline without shader program: the error is the only event and
null is returned; asked for a compute pipeline with the shader program at
address 200, which wraps the program 0, it passes the program 0 on. -/
theorem createPipeline_shaderProgram_witness :
    ((DbgRenderSystem.init (D3D11RenderSystem.init 0)).CreateGraphicsPipeline
        { shaderProgram := none, primitiveTopology := PrimitiveTopology.other 0,
          rasterizer := { conservativeRasterization := false }, blend := { targets := [] },
          others := 3 } 100 300).2
      = some (DbgRenderSystem.init (D3D11RenderSystem.init 0), none) ∧
    ((DbgRenderSystem.init (D3D11RenderSystem.init 0)).CreateComputePipeline
        { shaderProgram := some 200, others := 3 } 100).1
      = [DbgEvent.instanceCall (InstanceCall.CreateComputePipeline
          { shaderProgram := some 0, others := 3 })] :=
  ⟨(createPipeline_shaderProgram.1 (DbgRenderSystem.init (D3D11RenderSystem.init 0))
      { shaderProgram := none, primitiveTopology := PrimitiveTopology.other 0,
        rasterizer := { conservativeRasterization := false }, blend := { targets := [] },
        others := 3 } 100 300 rfl).1,
   createPipeline_shaderProgram.2.2.2 (DbgRenderSystem.init (D3D11RenderSystem.init 0))
      { shaderProgram := some 200, others := 3 } 100 200 rfl⟩

/-- C17. `CreateGraphicsPipeline` of the debug layer reports the
InvalidArgument error "too many blend state targets (limit is 8)" if and only
if the descriptor has more than 8 blend-state targets; it is reported once
then, and not at all for 0 through 8 targets. -/
theorem createGraphicsPipeline_blend_targets (s : DbgRenderSystem)
    (desc : GraphicsPipelineDescriptor) (pInstance pDbg : Handle) :
    (s.CreateGraphicsPipeline desc pInstance pDbg).1.count
        (DbgEvent.error ErrorType.InvalidArgument "too many blend state targets (limit is 8)"
          "CreateGraphicsPipeline")
      = if desc.blend.targets.length > 8 then 1 else 0 := by
  rcases desc with ⟨shaderProgram, topology, rasterizer, blend, others⟩
  cases shaderProgram <;> cases topology <;>
    by_cases h1 : (rasterizer.conservativeRasterization &&
      !s.caps_.hasConservativeRasterization) = true <;>
    by_cases h2 : blend.targets.length > 8 <;>
    by_cases h3 : s.renderer_.isDirect3D = true <;>
    simp [DbgRenderSystem.CreateGraphicsPipeline, D3D11RenderSystem.CreateGraphicsPipeline,
      TakeOwnership, h1, h2, h3, List.count_cons, List.count_append]

/-- Witness for C17: with 9 blend-state targets the error is reported once,
with 8 it is not reported. -/
theorem createGraphicsPipeline_blend_targets_witness :
    ((DbgRenderSystem.init (D3D11RenderSystem.init 0)).CreateGraphicsPipeline
        { shaderProgram := some 200, primitiveTopology := PrimitiveTopology.other 0,
          rasterizer := { conservativeRasterization := false },
          blend := { targets := [0, 0, 0, 0, 0, 0, 0, 0, 0] }, others := 3 } 100 300).1.count
        (DbgEvent.error ErrorType.InvalidArgument "too many blend state targets (limit is 8)"
          "CreateGraphicsPipeline") = 1 ∧
    ((DbgRenderSystem.init (D3D11RenderSystem.init 0)).CreateGraphicsPipeline
        { shaderProgram := some 200, primitiveTopology := PrimitiveTopology.other 0,
          rasterizer := { conservativeRasterization := false },
          blend := { targets := [0, 0, 0, 0, 0, 0, 0, 0] }, others := 3 } 100 300).1.count
        (DbgEvent.error ErrorType.InvalidArgument "too many blend state targets (limit is 8)"
          "CreateGraphicsPipeline") = 0 :=
  ⟨createGraphicsPipeline_blend_targets (DbgRenderSystem.init (D3D11RenderSystem.init 0))
      { shaderProgram := some 200, primitiveTopology := PrimitiveTopology.other 0,
        rasterizer := { conservativeRasterization := false },
        blend := { targets := [0, 0, 0, 0, 0, 0, 0, 0, 0] }, others := 3 } 100 300,
   createGraphicsPipeline_blend_targets (DbgRenderSystem.init (D3D11RenderSystem.init 0))
      { shaderProgram := some 200, primitiveTopology := PrimitiveTopology.other 0,
        rasterizer := { conservativeRasterization := false },
        blend := { targets := [0, 0, 0, 0, 0, 0, 0, 0] }, others := 3 } 100 300⟩

/-- C18. When the backend of the debug layer is classified as Direct3D-family,
`CreateGraphicsPipeline` reports the InvalidArgument error about line loops
for the topology LineLoop (once, and not the one about triangle fans), the one
about triangle fans for TriangleFan (once, and not the one about line loops),
and for every other topology each event of the call is one of the other
reports or the call on the wrapped render system; when the backend is not
classified as Direct3D-family the latter holds for every topology. -/
theorem createGraphicsPipeline_topology (s : DbgRenderSystem)
    (desc : GraphicsPipelineDescriptor) (pInstance pDbg : Handle) :
    let events := (s.CreateGraphicsPipeline desc pInstance pDbg).1
    let lineLoop := DbgEvent.error ErrorType.InvalidArgument
      "renderer does not support primitive topology line loop" "CreateGraphicsPipeline"
    let triangleFan := DbgEvent.error ErrorType.InvalidArgument
      "renderer does not support primitive topology triangle fan" "CreateGraphicsPipeline"
    let noTopologyError := ∀ e ∈ events,
      e = DbgEvent.errorNotSupported "conservative rasterization" "CreateGraphicsPipeline" ∨
      e = DbgEvent.error ErrorType.InvalidArgument "too many blend state targets (limit is 8)"
            "CreateGraphicsPipeline" ∨
      e = DbgEvent.error ErrorType.InvalidArgument "shader program must not be null"
            "CreateGraphicsPipeline" ∨
      ∃ c, e = DbgEvent.instanceCall c
    (s.renderer_.isDirect3D = true → desc.primitiveTopology = PrimitiveTopology.LineLoop →
      events.count lineLoop = 1 ∧ events.count triangleFan = 0) ∧
    (s.renderer_.isDirect3D = true → desc.primitiveTopology = PrimitiveTopology.TriangleFan →
      events.count triangleFan = 1 ∧ events.count lineLoop = 0) ∧
    (s.renderer_.isDirect3D = true → desc.primitiveTopology ≠ PrimitiveTopology.LineLoop →
      desc.primitiveTopology ≠ PrimitiveTopology.TriangleFan → noTopologyError) ∧
    (s.renderer_.isDirect3D = false → noTopologyError) := by
  intro events lineLoop triangleFan noTopologyError
  rcases desc with ⟨shaderProgram, topology, rasterizer, blend, others⟩
  refine ⟨?_, ?_, ?_, ?_⟩
  · intro h3 htop
    simp only at htop
    subst htop
    cases shaderProgram <;>
      by_cases h1 : (rasterizer.conservativeRasterization &&
        !s.caps_.hasConservativeRasterization) = true <;>
      by_cases h2 : blend.targets.length > 8 <;>
      simp [events, lineLoop, triangleFan, DbgRenderSystem.CreateGraphicsPipeline,
        D3D11RenderSystem.CreateGraphicsPipeline, TakeOwnership, h1, h2, h3, List.count_cons,
        List.count_append]
  · intro h3 htop
    simp only at htop
    subst htop
    cases shaderProgram <;>
      by_cases h1 : (rasterizer.conservativeRasterization &&
        !s.caps_.hasConservativeRasterization) = true <;>
      by_cases h2 : blend.targets.length > 8 <;>
      simp [events, lineLoop, triangleFan, DbgRenderSystem.CreateGraphicsPipeline,
        D3D11RenderSystem.CreateGraphicsPipeline, TakeOwnership, h1, h2, h3, List.count_cons,
        List.count_append]
  · intro h3 hll htf
    simp only at hll htf
    cases topology with
    | LineLoop => exact absurd rfl hll
    | TriangleFan => exact absurd rfl htf
    | other value =>
        cases shaderProgram <;>
          by_cases h1 : (rasterizer.conservativeRasterization &&
            !s.caps_.hasConservativeRasterization) = true <;>
          by_cases h2 : blend.targets.length > 8 <;>
          simp [noTopologyError, events, DbgRenderSystem.CreateGraphicsPipeline,
            D3D11RenderSystem.CreateGraphicsPipeline, TakeOwnership, h1, h2, h3]
  · intro h3
    cases shaderProgram <;> cases topology <;>
      by_cases h1 : (rasterizer.conservativeRasterization &&
        !s.caps_.hasConservativeRasterization) = true <;>
      by_cases h2 : blend.targets.length > 8 <;>
      simp [noTopologyError, events, DbgRenderSystem.CreateGraphicsPipeline,
        D3D11RenderSystem.CreateGraphicsPipeline, TakeOwnership, h1, h2, h3]

/-- Witness for C18: a debug layer constructed around a backend that names
itself "Direct3D 11" reports the line-loop error once for a LineLoop pipeline;
one around a backend named "OpenGL 4.5" reports, for the same descriptor, only
the call on the wrapped render system. -/
theorem createGraphicsPipeline_topology_witness :
    ((DbgRenderSystem.construct "Direct3D 11" (D3D11RenderSystem.init 0)).CreateGraphicsPipeline
        { shaderProgram := some 200, primitiveTopology := PrimitiveTopology.LineLoop,
          rasterizer := { conservativeRasterization := false }, blend := { targets := [] },
          others := 3 } 100 300).1.count
        (DbgEvent.error ErrorType.InvalidArgument
          "renderer does not support primitive topology line loop" "CreateGraphicsPipeline")
      = 1 ∧
    ∀ e ∈ ((DbgRenderSystem.construct "OpenGL 4.5"
        (D3D11RenderSystem.init 0)).CreateGraphicsPipeline
        { shaderProgram := some 200, primitiveTopology := PrimitiveTopology.LineLoop,
          rasterizer := { conservativeRasterization := false }, blend := { targets := [] },
          others := 3 } 100 300).1,
      e = DbgEvent.errorNotSupported "conservative rasterization" "CreateGraphicsPipeline" ∨
      e = DbgEvent.error ErrorType.InvalidArgument "too many blend state targets (limit is 8)"
            "CreateGraphicsPipeline" ∨
      e = DbgEvent.error ErrorType.InvalidArgument "shader program must not be null"
            "CreateGraphicsPipeline" ∨
      ∃ c, e = DbgEvent.instanceCall c :=
  ⟨((createGraphicsPipeline_topology
      (DbgRenderSystem.construct "Direct3D 11" (D3D11RenderSystem.init 0))
      { shaderProgram := some 200, primitiveTopology := PrimitiveTopology.LineLoop,
        rasterizer := { conservativeRasterization := false }, blend := { targets := [] },
        others := 3 } 100 300).1 (by decide) rfl).1,
   (createGraphicsPipeline_topology
      (DbgRenderSystem.construct "OpenGL 4.5" (D3D11RenderSystem.init 0))
      { shaderProgram := some 200, primitiveTopology := PrimitiveTopology.LineLoop,
        rasterizer := { conservativeRasterization := false }, blend := { targets := [] },
        others := 3 } 100 300).2.2.2 (by decide)⟩

/-! ### Debug layer: backend identification -/

/-- The comparison `CompareSubStr(lhs, rhs)` holds exactly when `rhs` is a
prefix of `lhs`. -/
theorem compareSubStr_iff_begins (lhs rhs : String) :
    CompareSubStr lhs rhs = true ↔ rhs.data <+: lhs.data := by
  unfold CompareSubStr
  rw [Bool.and_eq_true, decide_eq_true_eq, decide_eq_true_eq, List.prefix_iff_eq_take]
  constructor
  · rintro ⟨_, h⟩
    exact h.symm
  · intro h
    refine ⟨?_, h.symm⟩
    have hlen := congrArg List.length h
    rw [List.length_take] at hlen
    omega

/-- C19 (counterexample). The name "My Direct3D 11" contains "Direct3D" as a
substring and does not contain "OpenGL", yet the debug layer constructed
around a backend of that name has none of the three flags set: the name does
not begin with "Direct3D". -/
theorem determineRenderer_not_substring :
    "Direct3D".data <:+: "My Direct3D 11".data ∧
    ¬ "OpenGL".data <:+: "My Direct3D 11".data ∧
    (DbgRenderSystem.construct "My Direct3D 11" (D3D11RenderSystem.init 0)).renderer_ =
      { isOpenGL := false, isDirect3D := false, isVulkan := false } := by
  decide

/-- C19 (amended). Backend identification is a prefix match on the backend's
self-reported name, decided at construction: a name that begins with
"Direct3D" gives the Direct3D family (isDirect3D set, the other two flags
clear), a name that begins with "OpenGL" the OpenGL family, a name that begins
with "Vulkan" the Vulkan family, and every other name leaves the three flags
clear. -/
theorem determineRenderer_leading_keyword (rendererName : String) (inst : D3D11RenderSystem) :
    ("OpenGL".data <+: rendererName.data →
      (DbgRenderSystem.construct rendererName inst).renderer_ =
        { isOpenGL := true, isDirect3D := false, isVulkan := false }) ∧
    ("Direct3D".data <+: rendererName.data →
      (DbgRenderSystem.construct rendererName inst).renderer_ =
        { isOpenGL := false, isDirect3D := true, isVulkan := false }) ∧
    ("Vulkan".data <+: rendererName.data →
      (DbgRenderSystem.construct rendererName inst).renderer_ =
        { isOpenGL := false, isDirect3D := false, isVulkan := true }) ∧
    (¬ "OpenGL".data <+: rendererName.data → ¬ "Direct3D".data <+: rendererName.data →
      ¬ "Vulkan".data <+: rendererName.data →
      (DbgRenderSystem.construct rendererName inst).renderer_ =
        { isOpenGL := false, isDirect3D := false, isVulkan := false }) := by
  have excl : ∀ (a b : List Char), ¬ a <+: b → ¬ b <+: a →
      a <+: rendererName.data → ¬ b <+: rendererName.data := by
    intro a b hab hba ha hb
    rcases List.prefix_or_prefix_of_prefix ha hb with h | h
    · exact hab h
    · exact hba h
  have hgl := compareSubStr_iff_begins rendererName "OpenGL"
  have hd3d := compareSubStr_iff_begins rendererName "Direct3D"
  have hvk := compareSubStr_iff_begins rendererName "Vulkan"
  refine ⟨?_, ?_, ?_, ?_⟩
  · intro h
    simp [DbgRenderSystem.construct, DbgRenderSystem.init, DetermineRenderer, hgl.2 h]
  · intro h
    have h1 : ¬ CompareSubStr rendererName "OpenGL" = true := fun hc =>
      excl "Direct3D".data "OpenGL".data (by decide) (by decide) h (hgl.1 hc)
    simp [DbgRenderSystem.construct, DbgRenderSystem.init, DetermineRenderer, h1, hd3d.2 h]
  · intro h
    have h1 : ¬ CompareSubStr rendererName "OpenGL" = true := fun hc =>
      excl "Vulkan".data "OpenGL".data (by decide) (by decide) h (hgl.1 hc)
    have h2 : ¬ CompareSubStr rendererName "Direct3D" = true := fun hc =>
      excl "Vulkan".data "Direct3D".data (by decide) (by decide) h (hd3d.1 hc)
    simp [DbgRenderSystem.construct, DbgRenderSystem.init, DetermineRenderer, h1, h2, hvk.2 h]
  · intro h1 h2 h3
    have c1 : ¬ CompareSubStr rendererName "OpenGL" = true := fun hc => h1 (hgl.1 hc)
    have c2 : ¬ CompareSubStr rendererName "Direct3D" = true := fun hc => h2 (hd3d.1 hc)
    have c3 : ¬ CompareSubStr rendererName "Vulkan" = true := fun hc => h3 (hvk.1 hc)
    simp [DbgRenderSystem.construct, DbgRenderSystem.init, DetermineRenderer, c1, c2, c3]

/-- Witness for C19 (amended): "Direct3D 11" begins with "Direct3D" and gives
the Direct3D family. -/
theorem determineRenderer_leading_keyword_witness :
    (DbgRenderSystem.construct "Direct3D 11" (D3D11RenderSystem.init 0)).renderer_ =
      { isOpenGL := false, isDirect3D := true, isVulkan := false } :=
  (determineRenderer_leading_keyword "Direct3D 11" (D3D11RenderSystem.init 0)).2.1 (by decide)

/-! ### Vulkan: mip-level count -/

/-- C20. For every Vulkan texture descriptor, the mip-level count that
`VKTexture::CreateImage` stores and passes to the image creation is 1 whenever
the GenerateMips flag is not set (and for every multi-sampled type); when the
flag is set and the type is not multi-sampled it is `NumMipLevels` of the
clamped extent, that is n = ceil(log2(m)) + 1 for m = max(width, height,
depth) of that extent: m <= 2^(n-1), and 2^(n-2) < m when m > 1. -/
theorem createImage_mip_levels (decls : TextureDeclarations) (format_ : Nat)
    (desc : TextureDescriptor) :
    let image := (VKTexture.CreateImage decls format_ desc).1
    let m := max image.extent_.width (max image.extent_.height image.extent_.depth)
    (VKTexture.CreateImage decls format_ desc).2.numMipLevels = image.numMipLevels_ ∧
    (VKTexture.CreateImage decls format_ desc).2.extent = image.extent_ ∧
    image.extent_ = GetVkImageExtent3D desc (GetVkImageType desc.type) ∧
    (desc.flags &&& decls.GenerateMips = 0 → image.numMipLevels_ = 1) ∧
    (decls.IsMultiSampleTexture desc.type = true → image.numMipLevels_ = 1) ∧
    (desc.flags &&& decls.GenerateMips ≠ 0 → decls.IsMultiSampleTexture desc.type = false →
      image.numMipLevels_ =
        NumMipLevels image.extent_.width image.extent_.height image.extent_.depth ∧
      image.numMipLevels_ = Nat.clog 2 m + 1 ∧
      m ≤ 2 ^ (image.numMipLevels_ - 1) ∧
      (1 < m → 2 ^ (image.numMipLevels_ - 2) < m)) := by
  intro image m
  refine ⟨rfl, rfl, rfl, ?_, ?_, ?_⟩
  · intro h
    simp [image, VKTexture.CreateImage, GetVkImageMipLevels, HasTextureMipMaps, h]
  · intro h
    simp [image, VKTexture.CreateImage, GetVkImageMipLevels, HasTextureMipMaps, h]
  · intro hflag hms
    have hn : image.numMipLevels_ =
        NumMipLevels image.extent_.width image.extent_.height image.extent_.depth := by
      simp [image, VKTexture.CreateImage, GetVkImageMipLevels, HasTextureMipMaps, hflag, hms]
    have hc : image.numMipLevels_ = Nat.clog 2 m + 1 := hn
    refine ⟨hn, hc, ?_, ?_⟩
    · rw [hc, Nat.add_sub_cancel]
      exact Nat.le_pow_clog (by decide) m
    · intro hm
      rw [hc]
      exact Nat.pow_pred_clog_lt_self (by decide) hm

/-- Witness for C20: a 2D texture of 300 x 200 with the GenerateMips flag has
10 mip levels (2^8 < 300 <= 2^9); without the flag it has 1. -/
theorem createImage_mip_levels_witness :
    (VKTexture.CreateImage TextureDeclarations.sample 37
        { type := TextureType.Texture2D, format := 0, flags := 1,
          texture1D := ⟨0, 0⟩, texture2D := ⟨300, 200, 1⟩, texture3D := ⟨0, 0, 0⟩,
          textureCube := ⟨0, 0, 0⟩ }).1.numMipLevels_ = Nat.clog 2 300 + 1 ∧
    Nat.clog 2 300 + 1 = 10 ∧
    (VKTexture.CreateImage TextureDeclarations.sample 37
        { type := TextureType.Texture2D, format := 0, flags := 0,
          texture1D := ⟨0, 0⟩, texture2D := ⟨300, 200, 1⟩, texture3D := ⟨0, 0, 0⟩,
          textureCube := ⟨0, 0, 0⟩ }).1.numMipLevels_ = 1 :=
  ⟨((createImage_mip_levels TextureDeclarations.sample 37
      { type := TextureType.Texture2D, format := 0, flags := 1,
        texture1D := ⟨0, 0⟩, texture2D := ⟨300, 200, 1⟩, texture3D := ⟨0, 0, 0⟩,
        textureCube := ⟨0, 0, 0⟩ }).2.2.2.2.2 (by decide) (by decide)).2.1,
   by simp [Nat.clog],
   (createImage_mip_levels TextureDeclarations.sample 37
      { type := TextureType.Texture2D, format := 0, flags := 0,
        texture1D := ⟨0, 0⟩, texture2D := ⟨300, 200, 1⟩, texture3D := ⟨0, 0, 0⟩,
        textureCube := ⟨0, 0, 0⟩ }).2.2.2.1 (by decide)⟩

/-! ### Vulkan: usage flags, extent, array layers -/

/-- Mip maps are enabled exactly when the GenerateMips flag is set and the type
is not multi-sampled. -/
theorem hasTextureMipMaps_iff (decls : TextureDeclarations) (desc : TextureDescriptor) :
    HasTextureMipMaps decls desc = true ↔
      (desc.flags &&& decls.GenerateMips ≠ 0 ∧ decls.IsMultiSampleTexture desc.type = false) := by
  unfold HasTextureMipMaps
  cases decls.IsMultiSampleTexture desc.type <;> simp

/-- C21. For every Vulkan texture descriptor, the flags of
`GetVkImageUsageFlags` always include SAMPLED and TRANSFER_DST; they include
TRANSFER_SRC if and only if mip maps are enabled (GenerateMips flag set and
type not multi-sampled); they include a render-attachment usage if and only if
the AttachmentUsage flag is set, and then exactly one of the two:
DEPTH_STENCIL_ATTACHMENT when the format is a depth-stencil format,
COLOR_ATTACHMENT otherwise. -/
theorem usageFlags_contents (decls : TextureDeclarations) (desc : TextureDescriptor) :
    let flags := GetVkImageUsageFlags decls desc
    flags &&& VK_IMAGE_USAGE_SAMPLED_BIT ≠ 0 ∧
    flags &&& VK_IMAGE_USAGE_TRANSFER_DST_BIT ≠ 0 ∧
    (flags &&& VK_IMAGE_USAGE_TRANSFER_SRC_BIT ≠ 0 ↔
      (desc.flags &&& decls.GenerateMips ≠ 0 ∧
        decls.IsMultiSampleTexture desc.type = false)) ∧
    ((flags &&& VK_IMAGE_USAGE_COLOR_ATTACHMENT_BIT ≠ 0 ∨
        flags &&& VK_IMAGE_USAGE_DEPTH_STENCIL_ATTACHMENT_BIT ≠ 0) ↔
      desc.flags &&& decls.AttachmentUsage ≠ 0) ∧
    (desc.flags &&& decls.AttachmentUsage ≠ 0 →
      decls.IsDepthStencilFormat desc.format = true →
      flags &&& VK_IMAGE_USAGE_DEPTH_STENCIL_ATTACHMENT_BIT ≠ 0 ∧
      flags &&& VK_IMAGE_USAGE_COLOR_ATTACHMENT_BIT = 0) ∧
    (desc.flags &&& decls.AttachmentUsage ≠ 0 →
      decls.IsDepthStencilFormat desc.format = false →
      flags &&& VK_IMAGE_USAGE_COLOR_ATTACHMENT_BIT ≠ 0 ∧
      flags &&& VK_IMAGE_USAGE_DEPTH_STENCIL_ATTACHMENT_BIT = 0) := by
  intro flags
  rw [← hasTextureMipMaps_iff]
  by_cases hm : HasTextureMipMaps decls desc = true <;>
    by_cases ha : desc.flags &&& decls.AttachmentUsage = 0 <;>
    cases hd : decls.IsDepthStencilFormat desc.format <;>
    simp [flags, GetVkImageUsageFlags, hm, ha, hd, VK_IMAGE_USAGE_SAMPLED_BIT,
      VK_IMAGE_USAGE_TRANSFER_DST_BIT, VK_IMAGE_USAGE_TRANSFER_SRC_BIT,
      VK_IMAGE_USAGE_COLOR_ATTACHMENT_BIT, VK_IMAGE_USAGE_DEPTH_STENCIL_ATTACHMENT_BIT] <;>
    decide

/-- Witness for C21: a depth-stencil texture (format 1) with both flags set
gets TRANSFER_DST, SAMPLED, TRANSFER_SRC and DEPTH_STENCIL_ATTACHMENT (0x27),
and not COLOR_ATTACHMENT. -/
theorem usageFlags_contents_witness :
    GetVkImageUsageFlags TextureDeclarations.sample
        { type := TextureType.Texture2D, format := 1, flags := 3,
          texture1D := ⟨0, 0⟩, texture2D := ⟨64, 64, 1⟩, texture3D := ⟨0, 0, 0⟩,
          textureCube := ⟨0, 0, 0⟩ } &&& VK_IMAGE_USAGE_DEPTH_STENCIL_ATTACHMENT_BIT ≠ 0 ∧
    GetVkImageUsageFlags TextureDeclarations.sample
        { type := TextureType.Texture2D, format := 1, flags := 3,
          texture1D := ⟨0, 0⟩, texture2D := ⟨64, 64, 1⟩, texture3D := ⟨0, 0, 0⟩,
          textureCube := ⟨0, 0, 0⟩ } &&& VK_IMAGE_USAGE_COLOR_ATTACHMENT_BIT = 0 :=
  (usageFlags_contents TextureDeclarations.sample
    { type := TextureType.Texture2D, format := 1, flags := 3,
      texture1D := ⟨0, 0⟩, texture2D := ⟨64, 64, 1⟩, texture3D := ⟨0, 0, 0⟩,
      textureCube := ⟨0, 0, 0⟩ }).2.2.2.2.1 (by decide) (by decide)

/-- C24. For every Vulkan texture descriptor (zero dimensions included), the
extent that `GetVkImageExtent3D` computes for the image type of the descriptor
has width, height and depth all >= 1; for the cube and cube-array types width
= height = max(1, width, height) of the descriptor and depth = 1; for the 1D
image types height = depth = 1; for the 2D image types depth = 1; and each
dimension of a non-cube descriptor that is already >= 1 is the extent
component. -/
theorem imageExtent_clamped (desc : TextureDescriptor) :
    let extent := GetVkImageExtent3D desc (GetVkImageType desc.type)
    (1 ≤ extent.width ∧ 1 ≤ extent.height ∧ 1 ≤ extent.depth) ∧
    (IsCubeTexture desc.type = true →
      extent.width = max 1 (max desc.textureCube.width desc.textureCube.height) ∧
      extent.height = extent.width ∧ extent.depth = 1) ∧
    (GetVkImageType desc.type = VkImageType.VK_IMAGE_TYPE_1D →
      extent.height = 1 ∧ extent.depth = 1 ∧
      (1 ≤ desc.texture1D.width → extent.width = desc.texture1D.width)) ∧
    (GetVkImageType desc.type = VkImageType.VK_IMAGE_TYPE_2D →
      extent.depth = 1 ∧
      (IsCubeTexture desc.type = false →
        (1 ≤ desc.texture2D.width → extent.width = desc.texture2D.width) ∧
        (1 ≤ desc.texture2D.height → extent.height = desc.texture2D.height))) ∧
    (GetVkImageType desc.type = VkImageType.VK_IMAGE_TYPE_3D →
      (1 ≤ desc.texture3D.width → extent.width = desc.texture3D.width) ∧
      (1 ≤ desc.texture3D.height → extent.height = desc.texture3D.height) ∧
      (1 ≤ desc.texture3D.depth → extent.depth = desc.texture3D.depth)) := by
  intro extent
  rcases desc with ⟨type, format, flags, t1, t2, t3, tc⟩
  cases type <;>
    simp [extent, GetVkImageExtent3D, GetVkImageType, IsCubeTexture]

/-- Witness for C24: a cube descriptor of 0 x 48 gives the extent 48 x 48 x 1,
a 2D descriptor of 0 x 0 the extent 1 x 1 x 1. -/
theorem imageExtent_clamped_witness :
    GetVkImageExtent3D
        { type := TextureType.TextureCube, format := 0, flags := 0,
          texture1D := ⟨0, 0⟩, texture2D := ⟨0, 0, 0⟩, texture3D := ⟨0, 0, 0⟩,
          textureCube := ⟨0, 48, 0⟩ } (GetVkImageType TextureType.TextureCube)
      = { width := 48, height := 48, depth := 1 } ∧
    (1 ≤ (GetVkImageExtent3D
        { type := TextureType.Texture2D, format := 0, flags := 0,
          texture1D := ⟨0, 0⟩, texture2D := ⟨0, 0, 0⟩, texture3D := ⟨0, 0, 0⟩,
          textureCube := ⟨0, 0, 0⟩ } (GetVkImageType TextureType.Texture2D)).width) :=
  ⟨by decide,
   (imageExtent_clamped
      { type := TextureType.Texture2D, format := 0, flags := 0,
        texture1D := ⟨0, 0⟩, texture2D := ⟨0, 0, 0⟩, texture3D := ⟨0, 0, 0⟩,
        textureCube := ⟨0, 0, 0⟩ }).1.1⟩

/-- C25 (counterexample). A cube-array descriptor with 2^31 layers: the
product 6 * 2^31 wraps to 0 in `std::uint32_t`, so `GetVkImageArrayLayers`
returns 0, which is not at least 1.  With 2^30 layers it returns 2^31, which
is not a multiple of 6. -/
theorem arrayLayers_wraps :
    GetVkImageArrayLayers
        { type := TextureType.TextureCubeArray, format := 0, flags := 0,
          texture1D := ⟨0, 0⟩, texture2D := ⟨0, 0, 0⟩, texture3D := ⟨0, 0, 0⟩,
          textureCube := ⟨64, 64, 2147483648⟩ }
        (GetVkImageType TextureType.TextureCubeArray) = 0 ∧
    GetVkImageArrayLayers
        { type := TextureType.TextureCubeArray, format := 0, flags := 0,
          texture1D := ⟨0, 0⟩, texture2D := ⟨0, 0, 0⟩, texture3D := ⟨0, 0, 0⟩,
          textureCube := ⟨64, 64, 1073741824⟩ }
        (GetVkImageType TextureType.TextureCubeArray) = 2147483648 ∧
    ¬ (6 ∣ 2147483648) := by
  decide

/-- The product `max(1, layers) * 6` in `std::uint32_t`: it is 6 * max(1,
layers) reduced modulo 2^32, and a positive multiple of 6 when 6 * max(1,
layers) is below 2^32. -/
theorem cube_layers_product (l : Nat) :
    max 1 l * 6 % uint_range = 6 * max 1 l % uint_range ∧
    (6 * max 1 l < uint_range →
      max 1 l * 6 % uint_range = 6 * max 1 l ∧ 1 ≤ max 1 l * 6 % uint_range ∧
      6 ∣ max 1 l * 6 % uint_range) := by
  rw [Nat.mul_comm (max 1 l) 6]
  refine ⟨rfl, fun h => ?_⟩
  rw [Nat.mod_eq_of_lt h]
  have h1 : 1 ≤ max 1 l := Nat.le_max_left 1 l
  exact ⟨rfl, by omega, Nat.dvd_mul_right 6 _⟩

/-- C25 (amended). For every Vulkan texture descriptor and every layer count
in it (0 included), the array-layer count that `GetVkImageArrayLayers`
computes for the image type of the descriptor is 1 for 3D images and
max(1, layers) for non-cube 1D and 2D images, hence at least 1; for cube and
cube-array images it is 6 * max(1, layers) reduced modulo 2^32, which is
6 * max(1, layers), a positive multiple of 6, whenever that product is below
2^32. -/
theorem arrayLayers_values (desc : TextureDescriptor) :
    let layers := GetVkImageArrayLayers desc (GetVkImageType desc.type)
    (GetVkImageType desc.type = VkImageType.VK_IMAGE_TYPE_3D → layers = 1) ∧
    (GetVkImageType desc.type = VkImageType.VK_IMAGE_TYPE_1D →
      layers = max 1 desc.texture1D.layers ∧ 1 ≤ layers) ∧
    (GetVkImageType desc.type = VkImageType.VK_IMAGE_TYPE_2D →
      IsCubeTexture desc.type = false →
      layers = max 1 desc.texture2D.layers ∧ 1 ≤ layers) ∧
    (IsCubeTexture desc.type = true →
      layers = 6 * max 1 desc.textureCube.layers % uint_range ∧
      (6 * max 1 desc.textureCube.layers < uint_range →
        layers = 6 * max 1 desc.textureCube.layers ∧ 1 ≤ layers ∧ 6 ∣ layers)) := by
  intro layers
  rcases desc with ⟨type, format, flags, t1, t2, t3, tc⟩
  cases type <;>
    simp only [layers, GetVkImageArrayLayers, GetVkImageType, IsCubeTexture] <;>
    refine ⟨?_, ?_, ?_, ?_⟩ <;> simp <;> exact cube_layers_product _

/-- Witness for C25 (amended): a cube descriptor with 0 layers has 6 array
layers, a 2D-array descriptor with 0 layers has 1. -/
theorem arrayLayers_values_witness :
    GetVkImageArrayLayers
        { type := TextureType.TextureCube, format := 0, flags := 0,
          texture1D := ⟨0, 0⟩, texture2D := ⟨0, 0, 0⟩, texture3D := ⟨0, 0, 0⟩,
          textureCube := ⟨64, 64, 0⟩ } (GetVkImageType TextureType.TextureCube) = 6 * max 1 0 ∧
    GetVkImageArrayLayers
        { type := TextureType.Texture2DArray, format := 0, flags := 0,
          texture1D := ⟨0, 0⟩, texture2D := ⟨64, 64, 0⟩, texture3D := ⟨0, 0, 0⟩,
          textureCube := ⟨0, 0, 0⟩ } (GetVkImageType TextureType.Texture2DArray) = max 1 0 :=
  ⟨((arrayLayers_values
      { type := TextureType.TextureCube, format := 0, flags := 0,
        texture1D := ⟨0, 0⟩, texture2D := ⟨0, 0, 0⟩, texture3D := ⟨0, 0, 0⟩,
        textureCube := ⟨64, 64, 0⟩ }).2.2.2 (by decide)).2 (by decide) |>.1,
   ((arrayLayers_values
      { type := TextureType.Texture2DArray, format := 0, flags := 0,
        texture1D := ⟨0, 0⟩, texture2D := ⟨64, 64, 0⟩, texture3D := ⟨0, 0, 0⟩,
        textureCube := ⟨0, 0, 0⟩ }).2.2.1 (by decide) (by decide)).1⟩

/-! ### Vulkan: size of a mip level -/

/-- A dimension shifted right by more bits is not larger, also after the clamp
to 1. -/
theorem clamped_shift_antitone (w m m2 : Nat) (h : m ≤ m2) :
    max 1 (w >>> m2) ≤ max 1 (w >>> m) := by
  have hdiv : w / 2 ^ m2 ≤ w / 2 ^ m :=
    Nat.div_le_div_left (Nat.pow_le_pow_right (by decide) h) (Nat.two_pow_pos m)
  rw [Nat.shiftRight_eq_div_pow, Nat.shiftRight_eq_div_pow]
  omega

/-- The extent that `CreateImage` stores has no component below 1. -/
theorem createImage_extent_pos (decls : TextureDeclarations) (format_ : Nat)
    (desc : TextureDescriptor) :
    1 ≤ (VKTexture.CreateImage decls format_ desc).1.extent_.width ∧
    1 ≤ (VKTexture.CreateImage decls format_ desc).1.extent_.height ∧
    1 ≤ (VKTexture.CreateImage decls format_ desc).1.extent_.depth := by
  rcases desc with ⟨type, format, flags, t1, t2, t3, tc⟩
  cases type <;>
    simp [VKTexture.CreateImage, GetVkImageExtent3D, GetVkImageType, IsCubeTexture]

/-- C26. For a `VKTexture` with stored extent (w, h, d), array-layer count L
and every mip level m < 32, `QueryMipLevelSize` returns (max(1, floor(w /
2^m)), L, 1) for the 1D and 1D-array types, (max(1, floor(w / 2^m)), max(1,
floor(h / 2^m)), L) for the 2D, 2D-array, cube, cube-array and multi-sample
types, and (max(1, floor(w / 2^m)), max(1, floor(h / 2^m)), max(1, floor(d /
2^m))) for 3D; no component grows with m, the width (of any defined type) is
at least 1, and at m = 0 each spatial component that is >= 1 in the stored
extent is returned as stored; the extent stored by `CreateImage` has every
component >= 1. -/
theorem queryMipLevelSize_values (texture : VKTexture) (m : Nat) (_hm : m < 32) :
    ((texture.type = TextureType.Texture1D ∨ texture.type = TextureType.Texture1DArray) →
      texture.QueryMipLevelSize m =
        { width := max 1 (texture.extent_.width / 2 ^ m)
          height := texture.numArrayLayers_
          depth := 1 }) ∧
    ((texture.type = TextureType.Texture2D ∨ texture.type = TextureType.Texture2DArray ∨
        texture.type = TextureType.TextureCube ∨ texture.type = TextureType.TextureCubeArray ∨
        texture.type = TextureType.Texture2DMS ∨ texture.type = TextureType.Texture2DMSArray) →
      texture.QueryMipLevelSize m =
        { width := max 1 (texture.extent_.width / 2 ^ m)
          height := max 1 (texture.extent_.height / 2 ^ m)
          depth := texture.numArrayLayers_ }) ∧
    (texture.type = TextureType.Texture3D →
      texture.QueryMipLevelSize m =
        { width := max 1 (texture.extent_.width / 2 ^ m)
          height := max 1 (texture.extent_.height / 2 ^ m)
          depth := max 1 (texture.extent_.depth / 2 ^ m) }) ∧
    (texture.type ≠ TextureType.Undefined → 1 ≤ (texture.QueryMipLevelSize m).width) ∧
    (∀ m2, m ≤ m2 → m2 < 32 →
      (texture.QueryMipLevelSize m2).width ≤ (texture.QueryMipLevelSize m).width ∧
      (texture.QueryMipLevelSize m2).height ≤ (texture.QueryMipLevelSize m).height ∧
      (texture.QueryMipLevelSize m2).depth ≤ (texture.QueryMipLevelSize m).depth) ∧
    (texture.type ≠ TextureType.Undefined → 1 ≤ texture.extent_.width →
      (texture.QueryMipLevelSize 0).width = texture.extent_.width) ∧
    (texture.type ≠ TextureType.Undefined → texture.type ≠ TextureType.Texture1D →
      texture.type ≠ TextureType.Texture1DArray → 1 ≤ texture.extent_.height →
      (texture.QueryMipLevelSize 0).height = texture.extent_.height) ∧
    (texture.type = TextureType.Texture3D → 1 ≤ texture.extent_.depth →
      (texture.QueryMipLevelSize 0).depth = texture.extent_.depth) ∧
    (∀ (decls : TextureDeclarations) (format_ : Nat) (desc : TextureDescriptor),
      1 ≤ (VKTexture.CreateImage decls format_ desc).1.extent_.width ∧
      1 ≤ (VKTexture.CreateImage decls format_ desc).1.extent_.height ∧
      1 ≤ (VKTexture.CreateImage decls format_ desc).1.extent_.depth) := by
  rcases texture with ⟨type, extent, mips, layers⟩
  refine ⟨?_, ?_, ?_, ?_, ?_, ?_, ?_, ?_, createImage_extent_pos⟩
  · rintro (h | h) <;> simp only at h <;> subst h <;>
      simp [VKTexture.QueryMipLevelSize, Nat.shiftRight_eq_div_pow]
  · rintro (h | h | h | h | h | h) <;> simp only at h <;> subst h <;>
      simp [VKTexture.QueryMipLevelSize, Nat.shiftRight_eq_div_pow]
  · intro h
    simp only at h
    subst h
    simp [VKTexture.QueryMipLevelSize, Nat.shiftRight_eq_div_pow]
  · intro h
    cases type <;> simp [VKTexture.QueryMipLevelSize] at h ⊢
  · intro m2 hle _
    have hw := clamped_shift_antitone extent.width m m2 hle
    have hh := clamped_shift_antitone extent.height m m2 hle
    have hd := clamped_shift_antitone extent.depth m m2 hle
    cases type <;> simp only [VKTexture.QueryMipLevelSize] <;>
      first
        | exact ⟨hw, hh, hd⟩
        | exact ⟨hw, hh, Nat.le_refl _⟩
        | exact ⟨hw, Nat.le_refl _, Nat.le_refl _⟩
        | exact ⟨Nat.le_refl _, Nat.le_refl _, Nat.le_refl _⟩
  · intro h hw
    simp only at hw
    cases type <;> simp [VKTexture.QueryMipLevelSize] at h ⊢ <;> omega
  · intro h h1 h2 hh
    simp only at hh
    cases type <;> simp [VKTexture.QueryMipLevelSize] at h h1 h2 ⊢ <;> omega
  · intro h hd
    simp only at h hd
    subst h
    simp [VKTexture.QueryMipLevelSize]
    omega

/-- Witness for C26: a 2D-array texture of 300 x 200 with 5 layers has the mip
level 3 of size (37, 25, 5), and the mip level 9 of size (1, 1, 5). -/
theorem queryMipLevelSize_values_witness :
    VKTexture.QueryMipLevelSize
        { type := TextureType.Texture2DArray, extent_ := ⟨300, 200, 1⟩, numMipLevels_ := 10,
          numArrayLayers_ := 5 } 3
      = { width := max 1 (300 / 2 ^ 3), height := max 1 (200 / 2 ^ 3), depth := 5 } ∧
    max 1 (300 / 2 ^ 3) = 37 ∧ max 1 (200 / 2 ^ 3) = 25 ∧
    VKTexture.QueryMipLevelSize
        { type := TextureType.Texture2DArray, extent_ := ⟨300, 200, 1⟩, numMipLevels_ := 10,
          numArrayLayers_ := 5 } 9
      = { width := 1, height := 1, depth := 5 } :=
  ⟨(queryMipLevelSize_values
      { type := TextureType.Texture2DArray, extent_ := ⟨300, 200, 1⟩, numMipLevels_ := 10,
        numArrayLayers_ := 5 } 3 (by decide)).2.1 (Or.inr (Or.inl rfl)),
   by decide, by decide, by decide⟩

/-! ### Debug layer: validation, forwarding, counting -/

/-- C22 (the code at the failing input). An initialized vertex buffer of 256
bytes is written with dataSize 2 at offset 2^64 - 1.  The true sum exceeds
256 (and the range of `size_t`), but the sum taken in `size_t` is 1: the check
reports nothing, and the write is forwarded and counted like a valid one. -/
theorem writeBuffer_overflow_evaluated :
    256 < 18446744073709551615 + 2 ∧
    DebugBufferSize 256 2 18446744073709551615 "WriteVertexBuffer" = [] ∧
    DbgRenderSystem.WriteVertexBuffer
        { instanceRef := 5, format := { formatSize := 4 }, size := 256, elements := 64,
          initialized := true } 77 2 18446744073709551615 =
      ({ instanceRef := 5, format := { formatSize := 4 }, size := 256, elements := 64,
         initialized := true },
       [DbgEvent.instanceCall (InstanceCall.WriteVertexBuffer 5 77 2 18446744073709551615),
        DbgEvent.profilerInc ProfilerCounter.writeVertexBuffer]) := by
  decide

/-- C23 (counterexample). A 2D texture of defined type is written at mip level
0 with a profiler attached whose counters are 0: the write is forwarded and no
counter is incremented.  A vertex buffer that is not initialized is written:
the write is not forwarded. -/
theorem writeTexture_not_counted :
    DbgRenderSystem.WriteTexture2D
        { instanceRef := 7, type := TextureType.Texture2D, size := ⟨256, 256, 1⟩,
          mipLevels := 1 } 0 ⟨0, 0⟩ ⟨16, 16⟩ 55 =
      ({ instanceRef := 7, type := TextureType.Texture2D, size := ⟨256, 256, 1⟩,
         mipLevels := 1 },
       [DbgEvent.instanceCall (InstanceCall.WriteTexture2D 7 0 ⟨0, 0⟩ ⟨16, 16⟩ 55)]) ∧
    profilerAfter (some ⟨0, 0, 0, 0⟩)
        (DbgRenderSystem.WriteTexture2D
          { instanceRef := 7, type := TextureType.Texture2D, size := ⟨256, 256, 1⟩,
            mipLevels := 1 } 0 ⟨0, 0⟩ ⟨16, 16⟩ 55).2 = some ⟨0, 0, 0, 0⟩ ∧
    (DbgRenderSystem.WriteVertexBuffer
        { instanceRef := 5, format := { formatSize := 4 }, size := 0, elements := 0,
          initialized := false } 77 4 0).2 =
      [DbgEvent.error ErrorType.InvalidState "attempt to write uninitialized resource"
        "WriteVertexBuffer"] := by
  decide

/-- C23 (amended). For every buffer write of the debug layer on an initialized
buffer: the events are those of the bounds check, then the write of the
wrapped render system with the arguments unchanged, then the increment of the
matching profiler counter; an attached profiler has that counter incremented
by exactly one and nothing else changed, a null profiler stays null.  For
every texture write on a texture whose type is not Undefined: the events are
those of the mip-level check, then the write of the wrapped render system
with the arguments unchanged; the profiler is left as it was.  The two checks
only report errors. -/
theorem write_validate_forward_count :
    (∀ (vb : DbgVertexBuffer) (data : DataPtr) (dataSize offset : Nat), vb.initialized = true →
      DbgRenderSystem.WriteVertexBuffer vb data dataSize offset =
        (vb, DebugBufferSize vb.size dataSize offset "WriteVertexBuffer" ++
          [DbgEvent.instanceCall
            (InstanceCall.WriteVertexBuffer vb.instanceRef data dataSize offset),
           DbgEvent.profilerInc ProfilerCounter.writeVertexBuffer]) ∧
      (∀ p : RenderingProfiler,
        profilerAfter (some p) (DbgRenderSystem.WriteVertexBuffer vb data dataSize offset).2 =
          some (p.Inc ProfilerCounter.writeVertexBuffer)) ∧
      profilerAfter none (DbgRenderSystem.WriteVertexBuffer vb data dataSize offset).2 = none) ∧
    (∀ (ib : DbgIndexBuffer) (data : DataPtr) (dataSize offset : Nat), ib.initialized = true →
      DbgRenderSystem.WriteIndexBuffer ib data dataSize offset =
        (ib, DebugBufferSize ib.size dataSize offset "WriteIndexBuffer" ++
          [DbgEvent.instanceCall
            (InstanceCall.WriteIndexBuffer ib.instanceRef data dataSize offset),
           DbgEvent.profilerInc ProfilerCounter.writeIndexBuffer]) ∧
      (∀ p : RenderingProfiler,
        profilerAfter (some p) (DbgRenderSystem.WriteIndexBuffer ib data dataSize offset).2 =
          some (p.Inc ProfilerCounter.writeIndexBuffer)) ∧
      profilerAfter none (DbgRenderSystem.WriteIndexBuffer ib data dataSize offset).2 = none) ∧
    (∀ (cb : DbgConstantBuffer) (data : DataPtr) (dataSize offset : Nat), cb.initialized = true →
      DbgRenderSystem.WriteConstantBuffer cb data dataSize offset =
        (cb, DebugBufferSize cb.size dataSize offset "WriteConstantBuffer" ++
          [DbgEvent.instanceCall
            (InstanceCall.WriteConstantBuffer cb.instanceRef data dataSize offset),
           DbgEvent.profilerInc ProfilerCounter.writeConstantBuffer]) ∧
      (∀ p : RenderingProfiler,
        profilerAfter (some p) (DbgRenderSystem.WriteConstantBuffer cb data dataSize offset).2 =
          some (p.Inc ProfilerCounter.writeConstantBuffer)) ∧
      profilerAfter none (DbgRenderSystem.WriteConstantBuffer cb data dataSize offset).2 = none) ∧
    (∀ (sb : DbgStorageBuffer) (data : DataPtr) (dataSize offset : Nat), sb.initialized = true →
      DbgRenderSystem.WriteStorageBuffer sb data dataSize offset =
        (sb, DebugBufferSize sb.size dataSize offset "WriteStorageBuffer" ++
          [DbgEvent.instanceCall
            (InstanceCall.WriteStorageBuffer sb.instanceRef data dataSize offset),
           DbgEvent.profilerInc ProfilerCounter.writeStorageBuffer]) ∧
      (∀ p : RenderingProfiler,
        profilerAfter (some p) (DbgRenderSystem.WriteStorageBuffer sb data dataSize offset).2 =
          some (p.Inc ProfilerCounter.writeStorageBuffer)) ∧
      profilerAfter none (DbgRenderSystem.WriteStorageBuffer sb data dataSize offset).2 = none) ∧
    (∀ (tex : DbgTexture) (mipLevel : Int) (position size : Int)
        (imageDesc : ImageDescriptor), tex.type ≠ TextureType.Undefined →
      DbgRenderSystem.WriteTexture1D tex mipLevel position size imageDesc =
        (tex, DebugMipLevelLimit mipLevel tex.mipLevels "WriteTexture1D" ++
          [DbgEvent.instanceCall
            (InstanceCall.WriteTexture1D tex.instanceRef mipLevel position size imageDesc)]) ∧
      ∀ profiler_ : Option RenderingProfiler,
        profilerAfter profiler_
          (DbgRenderSystem.WriteTexture1D tex mipLevel position size imageDesc).2 = profiler_) ∧
    (∀ (tex : DbgTexture) (mipLevel : Int) (position size : Vector2i)
        (imageDesc : ImageDescriptor), tex.type ≠ TextureType.Undefined →
      DbgRenderSystem.WriteTexture2D tex mipLevel position size imageDesc =
        (tex, DebugMipLevelLimit mipLevel tex.mipLevels "WriteTexture2D" ++
          [DbgEvent.instanceCall
            (InstanceCall.WriteTexture2D tex.instanceRef mipLevel position size imageDesc)]) ∧
      ∀ profiler_ : Option RenderingProfiler,
        profilerAfter profiler_
          (DbgRenderSystem.WriteTexture2D tex mipLevel position size imageDesc).2 = profiler_) ∧
    (∀ (tex : DbgTexture) (mipLevel : Int) (position size : Vector3i)
        (imageDesc : ImageDescriptor), tex.type ≠ TextureType.Undefined →
      DbgRenderSystem.WriteTexture3D tex mipLevel position size imageDesc =
        (tex, DebugMipLevelLimit mipLevel tex.mipLevels "WriteTexture3D" ++
          [DbgEvent.instanceCall
            (InstanceCall.WriteTexture3D tex.instanceRef mipLevel position size imageDesc)]) ∧
      ∀ profiler_ : Option RenderingProfiler,
        profilerAfter profiler_
          (DbgRenderSystem.WriteTexture3D tex mipLevel position size imageDesc).2 = profiler_) ∧
    (∀ (tex : DbgTexture) (mipLevel : Int) (position : Vector2i) (cubeFace : AxisDirection) (size : Vector2i)
        (imageDesc : ImageDescriptor), tex.type ≠ TextureType.Undefined →
      DbgRenderSystem.WriteTextureCube tex mipLevel position cubeFace size imageDesc =
        (tex, DebugMipLevelLimit mipLevel tex.mipLevels "WriteTextureCube" ++
          [DbgEvent.instanceCall
            (InstanceCall.WriteTextureCube tex.instanceRef mipLevel position cubeFace size imageDesc)]) ∧
      ∀ profiler_ : Option RenderingProfiler,
        profilerAfter profiler_
          (DbgRenderSystem.WriteTextureCube tex mipLevel position cubeFace size imageDesc).2 = profiler_) ∧
    (∀ (tex : DbgTexture) (mipLevel : Int) (position : Int) (layerOffset : Nat) (size : Int) (layers : Nat)
        (imageDesc : ImageDescriptor), tex.type ≠ TextureType.Undefined →
      DbgRenderSystem.WriteTexture1DArray tex mipLevel position layerOffset size layers imageDesc =
        (tex, DebugMipLevelLimit mipLevel tex.mipLevels "WriteTexture1DArray" ++
          [DbgEvent.instanceCall
            (InstanceCall.WriteTexture1DArray tex.instanceRef mipLevel position layerOffset size layers imageDesc)]) ∧
      ∀ profiler_ : Option RenderingProfiler,
        profilerAfter profiler_
          (DbgRenderSystem.WriteTexture1DArray tex mipLevel position layerOffset size layers imageDesc).2 = profiler_) ∧
    (∀ (tex : DbgTexture) (mipLevel : Int) (position : Vector2i) (layerOffset : Nat) (size : Vector2i) (layers : Nat)
        (imageDesc : ImageDescriptor), tex.type ≠ TextureType.Undefined →
      DbgRenderSystem.WriteTexture2DArray tex mipLevel position layerOffset size layers imageDesc =
        (tex, DebugMipLevelLimit mipLevel tex.mipLevels "WriteTexture2DArray" ++
          [DbgEvent.instanceCall
            (InstanceCall.WriteTexture2DArray tex.instanceRef mipLevel position layerOffset size layers imageDesc)]) ∧
      ∀ profiler_ : Option RenderingProfiler,
        profilerAfter profiler_
          (DbgRenderSystem.WriteTexture2DArray tex mipLevel position layerOffset size layers imageDesc).2 = profiler_) ∧
    (∀ (tex : DbgTexture) (mipLevel : Int) (position : Vector2i) (layerOffset : Nat) (cubeFaceOffset : AxisDirection) (size : Vector2i) (cubeFaces : Nat)
        (imageDesc : ImageDescriptor), tex.type ≠ TextureType.Undefined →
      DbgRenderSystem.WriteTextureCubeArray tex mipLevel position layerOffset cubeFaceOffset size cubeFaces imageDesc =
        (tex, DebugMipLevelLimit mipLevel tex.mipLevels "WriteTextureCubeArray" ++
          [DbgEvent.instanceCall
            (InstanceCall.WriteTextureCubeArray tex.instanceRef mipLevel position layerOffset cubeFaceOffset size cubeFaces imageDesc)]) ∧
      ∀ profiler_ : Option RenderingProfiler,
        profilerAfter profiler_
          (DbgRenderSystem.WriteTextureCubeArray tex mipLevel position layerOffset cubeFaceOffset size cubeFaces imageDesc).2 = profiler_) ∧
    (∀ (bufferSize dataSize offset : Nat) (source : String),
      ∀ e ∈ DebugBufferSize bufferSize dataSize offset source,
        ∃ message, e = DbgEvent.error ErrorType.InvalidArgument message source) ∧
    (∀ (mipLevel mipLevelCount : Int) (source : String),
      ∀ e ∈ DebugMipLevelLimit mipLevel mipLevelCount source,
        ∃ message, e = DbgEvent.error ErrorType.InvalidArgument message source) := by
  refine ⟨?_, ?_, ?_, ?_, ?_, ?_, ?_, ?_, ?_, ?_, ?_, ?_, ?_⟩
  · intro vb data dataSize offset h
    refine ⟨by simp [DbgRenderSystem.WriteVertexBuffer, h], ?_, ?_⟩
    · intro p
      simp only [DbgRenderSystem.WriteVertexBuffer, h, DebugBufferSize]
      split_ifs <;> simp [profilerAfter]
    · simp only [DbgRenderSystem.WriteVertexBuffer, h, DebugBufferSize]
      split_ifs <;> simp [profilerAfter]
  · intro ib data dataSize offset h
    refine ⟨by simp [DbgRenderSystem.WriteIndexBuffer, h], ?_, ?_⟩
    · intro p
      simp only [DbgRenderSystem.WriteIndexBuffer, h, DebugBufferSize]
      split_ifs <;> simp [profilerAfter]
    · simp only [DbgRenderSystem.WriteIndexBuffer, h, DebugBufferSize]
      split_ifs <;> simp [profilerAfter]
  · intro cb data dataSize offset h
    refine ⟨by simp [DbgRenderSystem.WriteConstantBuffer, h], ?_, ?_⟩
    · intro p
      simp only [DbgRenderSystem.WriteConstantBuffer, h, DebugBufferSize]
      split_ifs <;> simp [profilerAfter]
    · simp only [DbgRenderSystem.WriteConstantBuffer, h, DebugBufferSize]
      split_ifs <;> simp [profilerAfter]
  · intro sb data dataSize offset h
    refine ⟨by simp [DbgRenderSystem.WriteStorageBuffer, h], ?_, ?_⟩
    · intro p
      simp only [DbgRenderSystem.WriteStorageBuffer, h, DebugBufferSize]
      split_ifs <;> simp [profilerAfter]
    · simp only [DbgRenderSystem.WriteStorageBuffer, h, DebugBufferSize]
      split_ifs <;> simp [profilerAfter]
  · intro tex mipLevel position size imageDesc htype
    refine ⟨?_, ?_⟩
    · simp [DbgRenderSystem.WriteTexture1D, GetInitializedTexture, htype]
    · intro profiler_
      simp only [DbgRenderSystem.WriteTexture1D, GetInitializedTexture, DebugMipLevelLimit,
        if_neg htype]
      split_ifs <;> simp [profilerAfter]
  · intro tex mipLevel position size imageDesc htype
    refine ⟨?_, ?_⟩
    · simp [DbgRenderSystem.WriteTexture2D, GetInitializedTexture, htype]
    · intro profiler_
      simp only [DbgRenderSystem.WriteTexture2D, GetInitializedTexture, DebugMipLevelLimit,
        if_neg htype]
      split_ifs <;> simp [profilerAfter]
  · intro tex mipLevel position size imageDesc htype
    refine ⟨?_, ?_⟩
    · simp [DbgRenderSystem.WriteTexture3D, GetInitializedTexture, htype]
    · intro profiler_
      simp only [DbgRenderSystem.WriteTexture3D, GetInitializedTexture, DebugMipLevelLimit,
        if_neg htype]
      split_ifs <;> simp [profilerAfter]
  · intro tex mipLevel position cubeFace size imageDesc htype
    refine ⟨?_, ?_⟩
    · simp [DbgRenderSystem.WriteTextureCube, GetInitializedTexture, htype]
    · intro profiler_
      simp only [DbgRenderSystem.WriteTextureCube, GetInitializedTexture, DebugMipLevelLimit,
        if_neg htype]
      split_ifs <;> simp [profilerAfter]
  · intro tex mipLevel position layerOffset size layers imageDesc htype
    refine ⟨?_, ?_⟩
    · simp [DbgRenderSystem.WriteTexture1DArray, GetInitializedTexture, htype]
    · intro profiler_
      simp only [DbgRenderSystem.WriteTexture1DArray, GetInitializedTexture, DebugMipLevelLimit,
        if_neg htype]
      split_ifs <;> simp [profilerAfter]
  · intro tex mipLevel position layerOffset size layers imageDesc htype
    refine ⟨?_, ?_⟩
    · simp [DbgRenderSystem.WriteTexture2DArray, GetInitializedTexture, htype]
    · intro profiler_
      simp only [DbgRenderSystem.WriteTexture2DArray, GetInitializedTexture, DebugMipLevelLimit,
        if_neg htype]
      split_ifs <;> simp [profilerAfter]
  · intro tex mipLevel position layerOffset cubeFaceOffset size cubeFaces imageDesc htype
    refine ⟨?_, ?_⟩
    · simp [DbgRenderSystem.WriteTextureCubeArray, GetInitializedTexture, htype]
    · intro profiler_
      simp only [DbgRenderSystem.WriteTextureCubeArray, GetInitializedTexture, DebugMipLevelLimit,
        if_neg htype]
      split_ifs <;> simp [profilerAfter]
  · intro bufferSize dataSize offset source e he
    unfold DebugBufferSize at he
    split_ifs at he
    · exact ⟨_, List.mem_singleton.1 he⟩
    · simp at he
  · intro mipLevel mipLevelCount source e he
    unfold DebugMipLevelLimit at he
    split_ifs at he
    · exact ⟨_, List.mem_singleton.1 he⟩
    · simp at he

/-- Witness for C23 (amended): a write of 16 bytes at offset 0 to an
initialized index buffer of 256 bytes, with an attached profiler that has
counted 3 index-buffer writes, makes the count 4; a write at mip level 0 to a
2D texture with one mip level is forwarded with no report. -/
theorem write_validate_forward_count_witness :
    (profilerAfter (some ⟨0, 3, 0, 0⟩)
        (DbgRenderSystem.WriteIndexBuffer
          { instanceRef := 9, size := 256, elements := 64, initialized := true } 77 16 0).2
      = some ((⟨0, 3, 0, 0⟩ : RenderingProfiler).Inc ProfilerCounter.writeIndexBuffer) ∧
    (⟨0, 3, 0, 0⟩ : RenderingProfiler).Inc ProfilerCounter.writeIndexBuffer = ⟨0, 4, 0, 0⟩) ∧
    (TextureType.Texture2D ≠ TextureType.Undefined ∧
     DbgRenderSystem.WriteTexture2D
        { instanceRef := 7, type := TextureType.Texture2D, size := ⟨256, 256, 1⟩,
          mipLevels := 1 } 0 ⟨0, 0⟩ ⟨16, 16⟩ 55 =
      ({ instanceRef := 7, type := TextureType.Texture2D, size := ⟨256, 256, 1⟩,
         mipLevels := 1 },
       DebugMipLevelLimit 0 1 "WriteTexture2D" ++
        [DbgEvent.instanceCall (InstanceCall.WriteTexture2D 7 0 ⟨0, 0⟩ ⟨16, 16⟩ 55)]) ∧
     DebugMipLevelLimit 0 1 "WriteTexture2D" = []) :=
  ⟨⟨(write_validate_forward_count.2.1
      { instanceRef := 9, size := 256, elements := 64, initialized := true } 77 16 0 rfl).2.1
      ⟨0, 3, 0, 0⟩,
    by decide⟩,
   ⟨by decide,
    (write_validate_forward_count.2.2.2.2.2.1
      { instanceRef := 7, type := TextureType.Texture2D, size := ⟨256, 256, 1⟩,
        mipLevels := 1 } 0 ⟨0, 0⟩ ⟨16, 16⟩ 55 (by decide)).1,
    by decide⟩⟩

/-- The quotient and the remainder of a division by a positive f. -/
theorem div_bounds (n f : Nat) (hf : 0 < f) : n / f * f ≤ n ∧ n < (n / f + 1) * f := by
  have h1 : n / f * f + n % f = n := Nat.div_add_mod' n f
  have h2 : n % f < f := Nat.mod_lt n hf
  have h3 : (n / f + 1) * f = n / f * f + f := Nat.succ_mul _ _
  constructor
  · exact Nat.div_mul_le_self n f
  · rw [h3]
    omega

/-- C27. `SetupVertexBuffer` and `SetupIndexBuffer` of the debug layer are
defined only when the per-element size f of the format is positive: for f > 0
the call has a result, and the element count e it records satisfies e * f <=
dataSize < (e + 1) * f; for f = 0 the call, whose alignment check and element
count both divide by f, has no defined result. -/
theorem setupBuffer_division :
    (∀ (vb : DbgVertexBuffer) (data : DataPtr) (n : Nat) (usage : BufferUsage)
        (fmt : VertexFormat), 0 < fmt.formatSize →
      ∃ vb2 events, DbgRenderSystem.SetupVertexBuffer vb data n usage fmt = some (vb2, events) ∧
        vb2.elements * fmt.formatSize ≤ n ∧ n < (vb2.elements + 1) * fmt.formatSize) ∧
    (∀ (vb : DbgVertexBuffer) (data : DataPtr) (n : Nat) (usage : BufferUsage)
        (fmt : VertexFormat), fmt.formatSize = 0 →
      DbgRenderSystem.SetupVertexBuffer vb data n usage fmt = none) ∧
    (∀ (ib : DbgIndexBuffer) (data : DataPtr) (n : Nat) (usage : BufferUsage)
        (fmt : IndexFormat), 0 < fmt.formatSize →
      ∃ ib2 events, DbgRenderSystem.SetupIndexBuffer ib data n usage fmt = some (ib2, events) ∧
        ib2.elements * fmt.formatSize ≤ n ∧ n < (ib2.elements + 1) * fmt.formatSize) ∧
    (∀ (ib : DbgIndexBuffer) (data : DataPtr) (n : Nat) (usage : BufferUsage)
        (fmt : IndexFormat), fmt.formatSize = 0 →
      DbgRenderSystem.SetupIndexBuffer ib data n usage fmt = none) := by
  refine ⟨?_, ?_, ?_, ?_⟩
  · intro vb data n usage fmt hf
    have hne : fmt.GetFormatSize ≠ 0 := Nat.pos_iff_ne_zero.1 hf
    simp only [DbgRenderSystem.SetupVertexBuffer, if_neg hne]
    exact ⟨_, _, rfl, div_bounds n fmt.formatSize hf⟩
  · intro vb data n usage fmt hf
    have h0 : fmt.GetFormatSize = 0 := hf
    simp only [DbgRenderSystem.SetupVertexBuffer, if_pos h0]
  · intro ib data n usage fmt hf
    have hne : fmt.GetFormatSize ≠ 0 := Nat.pos_iff_ne_zero.1 hf
    simp only [DbgRenderSystem.SetupIndexBuffer, if_neg hne]
    exact ⟨_, _, rfl, div_bounds n fmt.formatSize hf⟩
  · intro ib data n usage fmt hf
    have h0 : fmt.GetFormatSize = 0 := hf
    simp only [DbgRenderSystem.SetupIndexBuffer, if_pos h0]

/-- Witness for C27: 100 bytes with 12 bytes per vertex give 8 elements (96
<= 100 < 108); a vertex format of size 0 gives no defined result. -/
theorem setupBuffer_division_witness :
    (∃ vb2 events,
      DbgRenderSystem.SetupVertexBuffer
          { instanceRef := 5, format := { formatSize := 0 }, size := 0, elements := 0,
            initialized := false } 77 100 0 { formatSize := 12 } = some (vb2, events) ∧
      vb2.elements * 12 ≤ 100 ∧ 100 < (vb2.elements + 1) * 12) ∧
    DbgRenderSystem.SetupVertexBuffer
        { instanceRef := 5, format := { formatSize := 0 }, size := 0, elements := 0,
          initialized := false } 77 100 0 { formatSize := 0 } = none :=
  ⟨setupBuffer_division.1
      { instanceRef := 5, format := { formatSize := 0 }, size := 0, elements := 0,
        initialized := false } 77 100 0 { formatSize := 12 } (by decide),
   setupBuffer_division.2.1
      { instanceRef := 5, format := { formatSize := 0 }, size := 0, elements := 0,
        initialized := false } 77 100 0 { formatSize := 0 } rfl⟩

/-- C28. `DebugMipLevelLimit` reports an error if and only if mipLevel >=
mipLevelCount as signed integers.  In particular, for every negative mipLevel
and every mip-level count M >= 0 it reports nothing, and `ReadTexture` and
each `WriteTexture*` of the debug layer pass the negative mip level on to the
wrapped render system (the writes after the check of the texture type, the
only check that can report). -/
theorem debugMipLevelLimit_signed :
    (∀ (mipLevel mipLevelCount : Int) (source : String),
      (DebugMipLevelLimit mipLevel mipLevelCount source =
          [DbgEvent.error ErrorType.InvalidArgument (mipLevelMessage mipLevel mipLevelCount)
            source] ↔ mipLevel ≥ mipLevelCount) ∧
      (DebugMipLevelLimit mipLevel mipLevelCount source = [] ↔ mipLevel < mipLevelCount)) ∧
    (∀ (tex : DbgTexture) (mipLevel : Int), mipLevel < 0 → 0 ≤ tex.mipLevels →
      (∀ (source : String), DebugMipLevelLimit mipLevel tex.mipLevels source = []) ∧
      (∀ (dataFormat dataType : Nat) (data : DataPtr),
        DbgRenderSystem.ReadTexture tex mipLevel dataFormat dataType data =
          [DbgEvent.instanceCall
            (InstanceCall.ReadTexture tex.instanceRef mipLevel dataFormat dataType data)]) ∧
      (∀ (position size : Int) (imageDesc : ImageDescriptor),
        (DbgRenderSystem.WriteTexture1D tex mipLevel position size imageDesc).2 =
          (GetInitializedTexture tex "WriteTexture1D").2 ++
            [DbgEvent.instanceCall
              (InstanceCall.WriteTexture1D tex.instanceRef mipLevel position size imageDesc)]) ∧
      (∀ (position size : Vector2i) (imageDesc : ImageDescriptor),
        (DbgRenderSystem.WriteTexture2D tex mipLevel position size imageDesc).2 =
          (GetInitializedTexture tex "WriteTexture2D").2 ++
            [DbgEvent.instanceCall
              (InstanceCall.WriteTexture2D tex.instanceRef mipLevel position size imageDesc)]) ∧
      (∀ (position size : Vector3i) (imageDesc : ImageDescriptor),
        (DbgRenderSystem.WriteTexture3D tex mipLevel position size imageDesc).2 =
          (GetInitializedTexture tex "WriteTexture3D").2 ++
            [DbgEvent.instanceCall
              (InstanceCall.WriteTexture3D tex.instanceRef mipLevel position size imageDesc)]) ∧
      (∀ (position : Vector2i) (cubeFace : AxisDirection) (size : Vector2i) (imageDesc : ImageDescriptor),
        (DbgRenderSystem.WriteTextureCube tex mipLevel position cubeFace size imageDesc).2 =
          (GetInitializedTexture tex "WriteTextureCube").2 ++
            [DbgEvent.instanceCall
              (InstanceCall.WriteTextureCube tex.instanceRef mipLevel position cubeFace size imageDesc)]) ∧
      (∀ (position : Int) (layerOffset : Nat) (size : Int) (layers : Nat) (imageDesc : ImageDescriptor),
        (DbgRenderSystem.WriteTexture1DArray tex mipLevel position layerOffset size layers imageDesc).2 =
          (GetInitializedTexture tex "WriteTexture1DArray").2 ++
            [DbgEvent.instanceCall
              (InstanceCall.WriteTexture1DArray tex.instanceRef mipLevel position layerOffset size layers imageDesc)]) ∧
      (∀ (position : Vector2i) (layerOffset : Nat) (size : Vector2i) (layers : Nat) (imageDesc : ImageDescriptor),
        (DbgRenderSystem.WriteTexture2DArray tex mipLevel position layerOffset size layers imageDesc).2 =
          (GetInitializedTexture tex "WriteTexture2DArray").2 ++
            [DbgEvent.instanceCall
              (InstanceCall.WriteTexture2DArray tex.instanceRef mipLevel position layerOffset size layers imageDesc)]) ∧
      (∀ (position : Vector2i) (layerOffset : Nat) (cubeFaceOffset : AxisDirection) (size : Vector2i) (cubeFaces : Nat) (imageDesc : ImageDescriptor),
        (DbgRenderSystem.WriteTextureCubeArray tex mipLevel position layerOffset cubeFaceOffset size cubeFaces imageDesc).2 =
          (GetInitializedTexture tex "WriteTextureCubeArray").2 ++
            [DbgEvent.instanceCall
              (InstanceCall.WriteTextureCubeArray tex.instanceRef mipLevel position layerOffset cubeFaceOffset size cubeFaces imageDesc)])) := by
  refine ⟨?_, ?_⟩
  · intro mipLevel mipLevelCount source
    unfold DebugMipLevelLimit
    by_cases h : mipLevel ≥ mipLevelCount
    · simp [h]
    · have hlt : mipLevel < mipLevelCount := Int.not_le.1 h
      simp [h, hlt]
  · intro tex mipLevel hneg hM
    have hlt : ¬ mipLevel ≥ tex.mipLevels := by omega
    have hnone : ∀ source, DebugMipLevelLimit mipLevel tex.mipLevels source = [] := by
      intro source
      simp [DebugMipLevelLimit, hlt]
    refine ⟨hnone, ?_, ?_, ?_, ?_, ?_, ?_, ?_, ?_⟩
    · intros
      simp [DbgRenderSystem.ReadTexture, hnone]
    · intros
      simp only [DbgRenderSystem.WriteTexture1D, GetInitializedTexture]
      split_ifs <;> simp [hnone]
    · intros
      simp only [DbgRenderSystem.WriteTexture2D, GetInitializedTexture]
      split_ifs <;> simp [hnone]
    · intros
      simp only [DbgRenderSystem.WriteTexture3D, GetInitializedTexture]
      split_ifs <;> simp [hnone]
    · intros
      simp only [DbgRenderSystem.WriteTextureCube, GetInitializedTexture]
      split_ifs <;> simp [hnone]
    · intros
      simp only [DbgRenderSystem.WriteTexture1DArray, GetInitializedTexture]
      split_ifs <;> simp [hnone]
    · intros
      simp only [DbgRenderSystem.WriteTexture2DArray, GetInitializedTexture]
      split_ifs <;> simp [hnone]
    · intros
      simp only [DbgRenderSystem.WriteTextureCubeArray, GetInitializedTexture]
      split_ifs <;> simp [hnone]

/-- Witness for C28: reading mip level -1 of a texture with 1 mip level is
forwarded without a report. -/
theorem debugMipLevelLimit_signed_witness :
    DbgRenderSystem.ReadTexture
        { instanceRef := 7, type := TextureType.Texture2D, size := ⟨256, 256, 1⟩,
          mipLevels := 1 } (-1) 2 3 88 =
      [DbgEvent.instanceCall (InstanceCall.ReadTexture 7 (-1) 2 3 88)] :=
  (debugMipLevelLimit_signed.2
    { instanceRef := 7, type := TextureType.Texture2D, size := ⟨256, 256, 1⟩, mipLevels := 1 }
    (-1) (by decide) (by decide)).2.1 2 3 88

/-! ### Shader composition: order and null entries -/

/-- A mask with a bit `1 << c` or-ed in is not 0. -/
theorem or_bit_ne_zero (m c : Nat) : (m ||| 1 <<< c) ≠ 0 := by
  intro h
  have hbit : (m ||| 1 <<< c).testBit c = true := (testBit_or_bit m c c).2 (Or.inr rfl)
  rw [h] at hbit
  simp at hbit

/-- A single bit `1 << c` is not 0. -/
theorem bit_ne_zero (c : Nat) : (1 <<< c) ≠ 0 := by
  have h := or_bit_ne_zero 0 c
  simpa using h

/-- The empty shader array is rejected, whatever the numbering of the stages. -/
theorem validate_nil (code : ShaderType → Nat) : ValidateShaderComposition code [] = false := by
  have h1 := fun c => (bit_ne_zero c).symm
  have h2 := fun m c => (or_bit_ne_zero m c).symm
  simp [ValidateShaderComposition, ValidateShaderComposition.loop, h1, h2]

/-- Two shader arrays whose non-null entries have the same stages with the
same multiplicities get the same result. -/
theorem validate_of_stages_perm (code : ShaderType → Nat) (hinj : Function.Injective code)
    (shaders shaders2 : List (Option Shader))
    (hperm : (attachedStages shaders).Perm (attachedStages shaders2)) :
    ValidateShaderComposition code shaders = ValidateShaderComposition code shaders2 := by
  by_cases hnd : (attachedStages shaders).Nodup
  · have hnd2 : (attachedStages shaders2).Nodup := hperm.nodup_iff.1 hnd
    obtain ⟨m, hm, hbits⟩ :=
      loop_some_of_nodup code hinj shaders 0 [] (by simp) (by simpa using hnd)
    obtain ⟨m2, hm2, hbits2⟩ :=
      loop_some_of_nodup code hinj shaders2 0 [] (by simp) (by simpa using hnd2)
    have heq : m = m2 := by
      apply Nat.eq_of_testBit_eq
      intro i
      rw [Bool.eq_iff_iff, hbits, hbits2]
      simp only [List.nil_append, hperm.mem_iff]
    unfold ValidateShaderComposition
    simp only [hm, hm2, heq]
  · have hnd2 : ¬ (attachedStages shaders2).Nodup := fun h => hnd (hperm.nodup_iff.2 h)
    have hl := loop_none_of_repeat code shaders 0 [] (by simp) (by simpa using hnd)
      List.nodup_nil
    have hl2 := loop_none_of_repeat code shaders2 0 [] (by simp) (by simpa using hnd2)
      List.nodup_nil
    unfold ValidateShaderComposition
    simp only [hl, hl2]

/-- C29. The result of `ValidateShaderComposition` depends only on the
multiset of the stages of the non-null entries: two arrays with the same
stages in the same multiplicities get the same result; so the result is
unchanged by any permutation of the array and by inserting (or removing) a
null entry at any position, and an array of null entries only is rejected
like the empty array.  The numbering `code` of the stages is any injective
numbering with values a 32-bit `int` can shift by. -/
theorem validateShaderComposition_multiset (code : ShaderType → Nat)
    (hinj : Function.Injective code) (_hrange : ∀ t, code t < 31) :
    (∀ (shaders shaders2 : List (Option Shader)),
      (attachedStages shaders).Perm (attachedStages shaders2) →
      ValidateShaderComposition code shaders = ValidateShaderComposition code shaders2) ∧
    (∀ (shaders shaders2 : List (Option Shader)), shaders.Perm shaders2 →
      ValidateShaderComposition code shaders = ValidateShaderComposition code shaders2) ∧
    (∀ (before after : List (Option Shader)),
      ValidateShaderComposition code (before ++ none :: after) =
        ValidateShaderComposition code (before ++ after)) ∧
    (∀ (shaders : List (Option Shader)), (∀ s ∈ shaders, s = none) →
      ValidateShaderComposition code shaders = ValidateShaderComposition code [] ∧
      ValidateShaderComposition code shaders = false) := by
  refine ⟨validate_of_stages_perm code hinj, ?_, ?_, ?_⟩
  · intro shaders shaders2 hperm
    exact validate_of_stages_perm code hinj _ _ (hperm.filterMap _)
  · intro before after
    apply validate_of_stages_perm code hinj
    simp [attachedStages, List.filterMap_append]
  · intro shaders hall
    have hnil : attachedStages shaders = [] := by
      unfold attachedStages
      rw [List.filterMap_eq_nil_iff]
      intro s hs
      rw [hall s hs]
      rfl
    have h := validate_of_stages_perm code hinj shaders [] (by rw [hnil]; exact List.Perm.refl _)
    exact ⟨h, h.trans (validate_nil code)⟩

/-- Witness for C29: {Fragment, null, Vertex} is accepted like {Vertex,
Fragment}, and an array of two null entries is rejected. -/
theorem validateShaderComposition_multiset_witness :
    ValidateShaderComposition ShaderType.declOrder
        [some ⟨.Fragment⟩, none, some ⟨.Vertex⟩] =
      ValidateShaderComposition ShaderType.declOrder [some ⟨.Vertex⟩, some ⟨.Fragment⟩] ∧
    ValidateShaderComposition ShaderType.declOrder [some ⟨.Vertex⟩, some ⟨.Fragment⟩] = true ∧
    ValidateShaderComposition ShaderType.declOrder [none, none] = false :=
  ⟨(validateShaderComposition_multiset ShaderType.declOrder (by decide) (by decide)).1
      [some ⟨.Fragment⟩, none, some ⟨.Vertex⟩] [some ⟨.Vertex⟩, some ⟨.Fragment⟩] (by decide),
   by decide,
   ((validateShaderComposition_multiset ShaderType.declOrder (by decide) (by decide)).2.2.2
      [none, none] (by decide)).2⟩

/-! ### Vulkan: loading a shader binary -/

/-- C30. `VKShader::LoadBinary` returns false if and only if the binary code
is empty or its byte size is not a multiple of 4; it then records
InvalidCodeSize and changes nothing else (no shader module is created, the
entry point is as before).  Otherwise, the native module creation succeeding,
it returns true, records Success, stores the module created and stores as
entry point the descriptor's entry point, or "main" when that is empty.
`QueryInfoLog` is non-empty after a failed load and empty after a successful
one. -/
theorem loadBinary_result (vkCreateShaderModule : NativeCreateShaderModule)
    (shader : VKShader) (binaryCode : List Nat) (shaderDesc : ShaderDescriptor) :
    ((binaryCode = [] ∨ binaryCode.length % 4 ≠ 0) →
      VKShader.LoadBinary vkCreateShaderModule shader binaryCode shaderDesc =
        Except.ok ({ shader with loadBinaryResult_ := LoadBinaryResult.InvalidCodeSize },
          false)) ∧
    ((∃ after, VKShader.LoadBinary vkCreateShaderModule shader binaryCode shaderDesc =
        Except.ok (after, false)) ↔ (binaryCode = [] ∨ binaryCode.length % 4 ≠ 0)) ∧
    (¬ (binaryCode = [] ∨ binaryCode.length % 4 ≠ 0) →
      (vkCreateShaderModule binaryCode).1 = VK_SUCCESS →
      VKShader.LoadBinary vkCreateShaderModule shader binaryCode shaderDesc =
        Except.ok ({ shader with
                      entryPoint_ :=
                        if shaderDesc.entryPoint = "" then "main" else shaderDesc.entryPoint
                      shaderModule_ := (vkCreateShaderModule binaryCode).2
                      loadBinaryResult_ := LoadBinaryResult.Success }, true)) ∧
    (∀ after, VKShader.LoadBinary vkCreateShaderModule shader binaryCode shaderDesc =
        Except.ok (after, false) → after.QueryInfoLog ≠ "") ∧
    (∀ after, VKShader.LoadBinary vkCreateShaderModule shader binaryCode shaderDesc =
        Except.ok (after, true) → after.QueryInfoLog = "") := by
  have hcond : (binaryCode.isEmpty || decide (binaryCode.length % 4 ≠ 0)) = true ↔
      (binaryCode = [] ∨ binaryCode.length % 4 ≠ 0) := by
    simp [List.isEmpty_iff]
  have hempty : shaderDesc.entryPoint.isEmpty = true ↔ shaderDesc.entryPoint = "" := by
    simp [String.isEmpty_iff]
  by_cases hbad : (binaryCode = [] ∨ binaryCode.length % 4 ≠ 0)
  · have hc := hcond.2 hbad
    have hload : VKShader.LoadBinary vkCreateShaderModule shader binaryCode shaderDesc =
        Except.ok ({ shader with loadBinaryResult_ := LoadBinaryResult.InvalidCodeSize },
          false) := by
      unfold VKShader.LoadBinary
      rw [if_pos hc]
    refine ⟨fun _ => hload, ⟨fun _ => hbad, fun _ => ⟨_, hload⟩⟩, fun h => absurd hbad h, ?_, ?_⟩
    · intro after h
      rw [hload] at h
      injection h with h
      injection h with h1 _
      subst h1
      rcases shader with ⟨type, shaderModule, result, entry⟩
      cases type <;> simp only [VKShader.QueryInfoLog, VKShader.ToString] <;> decide
    · intro after h
      rw [hload] at h
      injection h with h
      injection h with _ h2
      exact absurd h2 (by decide)
  · have hc : ¬ (binaryCode.isEmpty || decide (binaryCode.length % 4 ≠ 0)) = true :=
      fun h => hbad (hcond.1 h)
    have hshape : ∀ after b,
        VKShader.LoadBinary vkCreateShaderModule shader binaryCode shaderDesc =
          Except.ok (after, b) →
        b = true ∧ after.loadBinaryResult_ = LoadBinaryResult.Success := by
      intro after b h
      unfold VKShader.LoadBinary at h
      rw [if_neg hc] at h
      simp only [VKThrowIfFailed] at h
      split_ifs at h <;> simp at h <;> (obtain ⟨h1, h2⟩ := h; subst h1; exact ⟨h2, rfl⟩)
    refine ⟨fun h => absurd h hbad, ⟨?_, fun h => absurd h hbad⟩, ?_, ?_, ?_⟩
    · rintro ⟨after, h⟩
      exact absurd (hshape after false h).1 (by decide)
    · intro _ hok
      unfold VKShader.LoadBinary
      rw [if_neg hc]
      by_cases he : shaderDesc.entryPoint = ""
      · have he1 : shaderDesc.entryPoint.isEmpty = true := hempty.2 he
        rw [if_pos he1, if_pos he]
        simp [VKThrowIfFailed, hok]
      · have he2 : ¬ shaderDesc.entryPoint.isEmpty = true := fun h => he (hempty.1 h)
        rw [if_neg he2, if_neg he]
        simp [VKThrowIfFailed, hok]
    · intro after h
      exact absurd (hshape after false h).1 (by decide)
    · intro after h
      have hs := (hshape after true h).2
      unfold VKShader.QueryInfoLog
      rw [hs]

/-- Witness for C30: a binary of 8 bytes with an empty entry point, the module
creation succeeding with module 900, is loaded with entry point "main"; a
binary of 6 bytes is refused and leaves the entry point and the module as
they were. -/
theorem loadBinary_result_witness :
    VKShader.LoadBinary (fun _ => (VK_SUCCESS, some 900))
        { type := ShaderType.Vertex, shaderModule_ := none,
          loadBinaryResult_ := LoadBinaryResult.Undefined, entryPoint_ := "" }
        [3, 2, 35, 7, 0, 0, 1, 0] { entryPoint := "" } =
      Except.ok ({ type := ShaderType.Vertex, shaderModule_ := some 900,
                   loadBinaryResult_ := LoadBinaryResult.Success, entryPoint_ := "main" },
                 true) ∧
    VKShader.LoadBinary (fun _ => (VK_SUCCESS, some 900))
        { type := ShaderType.Vertex, shaderModule_ := none,
          loadBinaryResult_ := LoadBinaryResult.Undefined, entryPoint_ := "" }
        [3, 2, 35, 7, 0, 0] { entryPoint := "" } =
      Except.ok ({ type := ShaderType.Vertex, shaderModule_ := none,
                   loadBinaryResult_ := LoadBinaryResult.InvalidCodeSize, entryPoint_ := "" },
                 false) :=
  ⟨(loadBinary_result (fun _ => (VK_SUCCESS, some 900))
      { type := ShaderType.Vertex, shaderModule_ := none,
        loadBinaryResult_ := LoadBinaryResult.Undefined, entryPoint_ := "" }
      [3, 2, 35, 7, 0, 0, 1, 0] { entryPoint := "" }).2.2.1 (by decide) rfl,
   (loadBinary_result (fun _ => (VK_SUCCESS, some 900))
      { type := ShaderType.Vertex, shaderModule_ := none,
        loadBinaryResult_ := LoadBinaryResult.Undefined, entryPoint_ := "" }
      [3, 2, 35, 7, 0, 0] { entryPoint := "" }).1 (by decide)⟩

end LLGL
